import Mathlib

/-!
# The WebGPU samples HelloTriangle.js, Animometer.js and ComputeBoids.js

A shallow embedding of the three scripts.

* JavaScript numbers are kept abstract (`JSNumber`): the arithmetic of the scripts and the
  conversion a `Float32Array` applies when an element is stored (`JSNumber.fround`) are operations
  of that class.  Integer counters of the scripts (`frameCount`, `pingpong`, loop indices,
  byte offsets) are natural numbers.
* The objects of the platform (device, buffers, pipelines, bind groups, textures) are records
  that carry a fresh identifier and the descriptor they were created from.  What the scripts do
  to the platform is recorded in `World`: buffer contents, the queue writes, the submitted
  command buffers, the console, the registered animation callbacks.
* A method of a sample is a computation `JS (Ctx Num S) α` over the world and the fields of the
  sample; it ends normally or by a thrown exception and leaves a state behind in both cases.
-/

namespace Dawn

/-! ## Numbers and typed arrays -/

/-- Numbers of the script: the value of a numeric literal or of an integer, the value `NaN`, the
four arithmetic operations, and the conversion applied to a number when it is stored in a
`Float32Array`, which leaves a converted number as it is. -/
class JSNumber (Num : Type) where
  ofRat : ℚ → Num
  nan : Num
  add : Num → Num → Num
  sub : Num → Num → Num
  mul : Num → Num → Num
  div : Num → Num → Num
  fround : Num → Num
  fround_fround : ∀ x, fround (fround x) = fround x

/-- Exact numbers: a rational or `NaN`. -/
inductive ExactNumber where
  | finite (q : ℚ)
  | nan
  deriving DecidableEq

/-- An operation on rationals, extended to `NaN`. -/
def ExactNumber.lift (f : ℚ → ℚ → ℚ) : ExactNumber → ExactNumber → ExactNumber
  | ExactNumber.finite a, ExactNumber.finite b => ExactNumber.finite (f a b)
  | _, _ => ExactNumber.nan

/-- Exact arithmetic, with a store conversion that changes nothing. -/
instance : JSNumber ExactNumber where
  ofRat q := ExactNumber.finite q
  nan := ExactNumber.nan
  add := ExactNumber.lift (fun a b => a + b)
  sub := ExactNumber.lift (fun a b => a - b)
  mul := ExactNumber.lift (fun a b => a * b)
  div a b := if b = ExactNumber.finite 0 then ExactNumber.nan
    else ExactNumber.lift (fun x y => x / y) a b
  fround x := x
  fround_fround _ := rfl

/-- The number an integer counter of the script denotes. -/
def JSNumber.ofNat {Num : Type} [JSNumber Num] (n : Nat) : Num :=
  JSNumber.ofRat (n : ℚ)

/-- A `Float32Array`: its elements in order. -/
structure Float32Array (Num : Type) where
  elems : List Num

/-- The call `new Float32Array(length)`: all elements are zero. -/
def Float32Array.new {Num : Type} [JSNumber Num] (length : Nat) : Float32Array Num :=
  ⟨List.replicate length (JSNumber.ofRat 0)⟩

/-- The call `new Float32Array(values)`: every value is converted and stored. -/
def Float32Array.ofList {Num : Type} [JSNumber Num] (values : List Num) : Float32Array Num :=
  ⟨values.map JSNumber.fround⟩

/-- The property `length`. -/
def Float32Array.length {Num : Type} (a : Float32Array Num) : Nat :=
  a.elems.length

/-- The property `byteLength`: four bytes an element. -/
def Float32Array.byteLength {Num : Type} (a : Float32Array Num) : Nat :=
  4 * a.elems.length

/-- The assignment `array[i] = v`: the converted value is stored; an index outside the array is
ignored. -/
def Float32Array.set {Num : Type} [JSNumber Num] (a : Float32Array Num) (i : Nat) (v : Num) :
    Float32Array Num :=
  ⟨a.elems.set i (JSNumber.fround v)⟩

/-- The read `array[i]`, `none` for `undefined`. -/
def Float32Array.get? {Num : Type} (a : Float32Array Num) (i : Nat) : Option Num :=
  a.elems[i]?

/-- The read `array[i]` where a number is expected: `undefined` becomes `NaN`. -/
def Float32Array.read {Num : Type} [JSNumber Num] (a : Float32Array Num) (i : Nat) : Num :=
  (a.elems[i]?).getD JSNumber.nan

/-- The call `target.set(source, offset)` of a typed array: the elements of `source` replace those
of `target` from index `offset` on; a source that does not fit throws a `RangeError`, which is
`none` here. -/
def Float32Array.setArray {Num : Type} (target source : Float32Array Num) (offset : Nat) :
    Option (Float32Array Num) :=
  if offset + source.elems.length ≤ target.elems.length then
    some ⟨target.elems.take offset ++ source.elems ++
      target.elems.drop (offset + source.elems.length)⟩
  else none

/-! ## Animometer.js: constants and `ShaderData` -/

/-- The constant `kNumTriangles` of Animometer.js. -/
def kNumTriangles : Nat := 10000

/-- The function `randomFloat(min, max)`, given the value `Math.random()` returned. -/
def randomFloat {Num : Type} [JSNumber Num] (random min max : Num) : Num :=
  JSNumber.add (JSNumber.mul random (JSNumber.sub max min)) min

/-- The class `ShaderData` of Animometer.js. -/
structure ShaderData (Num : Type) where
  scale : Num
  time : Num
  offsetX : Num
  offsetY : Num
  scalar : Num
  scalarOffset : Num
  _padding : Float32Array Num

/-- The constructor of `ShaderData`. -/
def ShaderData.new {Num : Type} [JSNumber Num] : ShaderData Num where
  scale := JSNumber.ofRat 0
  time := JSNumber.ofRat 0
  offsetX := JSNumber.ofRat 0
  offsetY := JSNumber.ofRat 0
  scalar := JSNumber.ofRat 0
  scalarOffset := JSNumber.ofRat 0
  _padding := Float32Array.new 58

/-- The method `ShaderData.toFloat32Array`. -/
def ShaderData.toFloat32Array {Num : Type} [JSNumber Num] (self : ShaderData Num) :
    Float32Array Num :=
  let array := Float32Array.new 64
  let array := array.set 0 self.scale
  let array := array.set 1 self.time
  let array := array.set 2 self.offsetX
  let array := array.set 3 self.offsetY
  let array := array.set 4 self.scalar
  let array := array.set 5 self.scalarOffset
  array

/-- The fields of the struct `Constants` of the vertex shader of Animometer.js, in the order of
their declaration; all are `f32`. -/
def Constants.fields : List String :=
  ["scale", "time", "offsetX", "offsetY", "scalar", "scalarOffset"]

/-- The field of a `ShaderData` with the given name. -/
def ShaderData.field? {Num : Type} (self : ShaderData Num) (name : String) : Option Num :=
  if name = "scale" then some self.scale
  else if name = "time" then some self.time
  else if name = "offsetX" then some self.offsetX
  else if name = "offsetY" then some self.offsetY
  else if name = "scalar" then some self.scalar
  else if name = "scalarOffset" then some self.scalarOffset
  else none

/-! ## Exceptions and computations -/

/-- Identifier of an object of the platform. -/
abbrev Handle := Nat

/-- Values the scripts throw or catch. -/
inductive JSError where
  | error (message : String)
  | typeError (message : String)
  | operationError (message : String)
  deriving DecidableEq, Repr

/-- A computation over a state `σ`: it ends with a value or with a thrown exception and leaves a
state behind in both cases. -/
def JS (σ α : Type) : Type :=
  σ → Except JSError α × σ

/-- Ending normally with a value. -/
def JS.pure {σ α : Type} (a : α) : JS σ α :=
  fun s => (Except.ok a, s)

/-- Sequencing: an exception of the first computation skips the second. -/
def JS.bind {σ α β : Type} (m : JS σ α) (f : α → JS σ β) : JS σ β :=
  fun s =>
    match m s with
    | (Except.ok a, s1) => f a s1
    | (Except.error e, s1) => (Except.error e, s1)

instance {σ : Type} : Monad (JS σ) where
  pure := JS.pure
  bind := JS.bind

/-- The statement `throw e`. -/
def JS.throw {σ α : Type} (e : JSError) : JS σ α :=
  fun s => (Except.error e, s)

/-- The statement `try body catch (error) handler`. -/
def JS.tryCatch {σ α : Type} (body : JS σ α) (handler : JSError → JS σ α) : JS σ α :=
  fun s =>
    match body s with
    | (Except.ok a, s1) => (Except.ok a, s1)
    | (Except.error e, s1) => handler e s1

/-- Reading the state. -/
def JS.get {σ : Type} : JS σ σ :=
  fun s => (Except.ok s, s)

/-- Changing the state. -/
def JS.modify {σ : Type} (f : σ → σ) : JS σ Unit :=
  fun s => (Except.ok (), f s)

/-- Access to a member of a value that may be `null` or `undefined`: a `TypeError` when it is. -/
def JS.deref {σ α : Type} (what : String) : Option α → JS σ α
  | some a => JS.pure a
  | none => JS.throw (JSError.typeError what)

/-- The iterations of a loop from index `i` on, `count` of them: an exception of the body ends
the loop. -/
def JS.forFrom {σ : Type} (body : Nat → JS σ Unit) : Nat → Nat → JS σ Unit
  | 0, _ => JS.pure ()
  | count + 1, i => fun s =>
    match body i s with
    | (Except.ok _, s1) => JS.forFrom body count (i + 1) s1
    | (Except.error e, s1) => (Except.error e, s1)

/-- The loop `for (let i = 0; i < n; i++) body(i)`. -/
def JS.forRange {σ : Type} (n : Nat) (body : Nat → JS σ Unit) : JS σ Unit :=
  JS.forFrom body n 0

/-- The iterations from index `i` on of a loop whose body updates a local variable. -/
def JS.foldFrom {σ β : Type} (body : Nat → β → JS σ β) : Nat → Nat → β → JS σ β
  | 0, _, acc => JS.pure acc
  | count + 1, i, acc => fun s =>
    match body i acc s with
    | (Except.ok acc1, s1) => JS.foldFrom body count (i + 1) acc1 s1
    | (Except.error e, s1) => (Except.error e, s1)

/-- The loop `for (let i = 0; i < n; i++)` whose body updates a local variable. -/
def JS.forRangeFold {σ β : Type} (n : Nat) (init : β) (body : Nat → β → JS σ β) : JS σ β :=
  JS.foldFrom body n 0 init

/-- The state a computation leaves behind. -/
def JS.stateAfter {σ α : Type} (m : JS σ α) (s : σ) : σ :=
  (m s).2

/-- The computation ends normally. -/
def JS.Succeeds {σ α : Type} (m : JS σ α) (s : σ) : Prop :=
  ∃ a, (m s).1 = Except.ok a

/-- The computation ends by throwing `e`. -/
def JS.Throws {σ α : Type} (m : JS σ α) (s : σ) (e : JSError) : Prop :=
  (m s).1 = Except.error e

/-! ## Objects of the platform -/

/-- The WGSL sources of the three scripts; a shader module carries the name of its source. -/
inductive ShaderSource where
  | helloTriangle
  | animometerVertex
  | animometerFragment
  | boidsVertex
  | boidsFragment
  | boidsCompute
  deriving DecidableEq, Repr

/-- The flags of `GPUBufferUsage` the scripts use. -/
def GPUBufferUsage.COPY_DST : Nat := 0x0008
/-- The flag `GPUBufferUsage.VERTEX`. -/
def GPUBufferUsage.VERTEX : Nat := 0x0020
/-- The flag `GPUBufferUsage.UNIFORM`. -/
def GPUBufferUsage.UNIFORM : Nat := 0x0040
/-- The flag `GPUBufferUsage.STORAGE`. -/
def GPUBufferUsage.STORAGE : Nat := 0x0080
/-- The flag `GPUShaderStage.VERTEX`. -/
def GPUShaderStage.VERTEX : Nat := 0x1
/-- The flag `GPUShaderStage.COMPUTE`. -/
def GPUShaderStage.COMPUTE : Nat := 0x4

/-- A buffer: its identity and the descriptor it was created from. -/
structure GPUBuffer where
  id : Handle
  size : Nat
  usage : Nat
  deriving DecidableEq, Repr

/-- A shader module. -/
structure GPUShaderModule where
  id : Handle
  code : ShaderSource
  deriving DecidableEq, Repr

/-- An entry of a bind group layout descriptor. -/
structure GPUBindGroupLayoutEntry where
  binding : Nat
  visibility : Nat
  bufferType : String
  hasDynamicOffset : Bool
  deriving DecidableEq, Repr

/-- A bind group layout. -/
structure GPUBindGroupLayout where
  id : Handle
  entries : List GPUBindGroupLayoutEntry
  deriving DecidableEq, Repr

/-- A pipeline layout. -/
structure GPUPipelineLayout where
  id : Handle
  bindGroupLayouts : List GPUBindGroupLayout
  deriving DecidableEq, Repr

/-- An entry of a bind group descriptor: a buffer bound at a binding number; `size` is `none`
when the descriptor leaves it out. -/
structure GPUBindGroupEntry where
  binding : Nat
  buffer : GPUBuffer
  offset : Nat
  size : Option Nat
  deriving DecidableEq, Repr

/-- A bind group. -/
structure GPUBindGroup where
  id : Handle
  layout : GPUBindGroupLayout
  entries : List GPUBindGroupEntry
  deriving DecidableEq, Repr

/-- An attribute of a vertex buffer layout. -/
structure GPUVertexAttribute where
  shaderLocation : Nat
  offset : Nat
  format : String
  deriving DecidableEq, Repr

/-- A vertex buffer layout. -/
structure GPUVertexBufferLayout where
  arrayStride : Nat
  stepMode : String
  attributes : List GPUVertexAttribute
  deriving DecidableEq, Repr

/-- A render pipeline with its descriptor; the layout `none` is the layout `'auto'`. -/
structure GPURenderPipeline where
  id : Handle
  layout : Option GPUPipelineLayout
  vertexModule : GPUShaderModule
  vertexEntryPoint : String
  buffers : List GPUVertexBufferLayout
  fragmentModule : GPUShaderModule
  fragmentEntryPoint : String
  targetFormat : Option String
  topology : String
  deriving DecidableEq, Repr

/-- A compute pipeline with its descriptor. -/
structure GPUComputePipeline where
  id : Handle
  layout : GPUPipelineLayout
  module : GPUShaderModule
  entryPoint : String
  deriving DecidableEq, Repr

/-- The clear colour of a render pass. -/
structure GPUColor where
  r : Nat
  g : Nat
  b : Nat
  a : Nat
  deriving DecidableEq, Repr

/-- The commands an encoder records, in the vocabulary of the scripts. -/
inductive Command where
  | beginRenderPass (view : Handle) (clearValue : GPUColor) (loadOp storeOp : String)
  | beginComputePass
  | setRenderPipeline (pipeline : GPURenderPipeline)
  | setComputePipeline (pipeline : GPUComputePipeline)
  | setBindGroup (index : Nat) (bindGroup : Option GPUBindGroup) (dynamicOffsets : List Nat)
  | setVertexBuffer (slot : Nat) (buffer : Option GPUBuffer)
  | draw (vertexCount instanceCount : Nat)
  | dispatchWorkgroups (workgroupCountX : Nat)
  | endPass
  deriving DecidableEq, Repr

/-- A finished command buffer: the recorded commands in order. -/
abbrev GPUCommandBuffer := List Command

/-- A call of `queue.writeBuffer`: the buffer, the byte offset and the number of bytes. -/
structure BufferWrite where
  buffer : Handle
  bufferOffset : Nat
  byteLength : Nat
  deriving DecidableEq, Repr

/-- A line of the console. -/
inductive ConsoleEntry (Num : Type) where
  | log (text : String)
  | logNumber (text : String) (value : Num)
  | error (text : String)
  | errorWith (text : String) (error : JSError)

/-- The canvas element `run` creates. -/
structure Canvas where
  id : Handle
  width : Nat
  height : Nat
  deriving DecidableEq, Repr

/-- The configuration `context.configure` receives. -/
structure CanvasConfiguration where
  context : Handle
  device : Handle
  format : String
  alphaMode : String
  deriving DecidableEq, Repr

/-- The platform as the scripts see it.  What the platform answers: whether `navigator.gpu`
exists, the adapter `requestAdapter` resolves with, the device `requestDevice` resolves with
(`none`: the promise is rejected), the context `getContext` returns, the preferred canvas format,
the values of `Math.random()` and of `performance.now()` call by call.  What the scripts did:
the identifiers handed out, the contents of the buffers in 32-bit elements, the queue writes, the
commands recorded by the command encoder in use, the submitted command buffers, the console, the canvases appended to the document, the configured
contexts and the number of registered animation callbacks. -/
structure World (Num : Type) where
  gpu : Bool
  adapter : Option Handle
  requestDevice : Option Handle
  webgpuContext : Option Handle
  preferredCanvasFormat : String
  random : Nat → Num
  clock : Nat → Num
  randomCalls : Nat
  clockCalls : Nat
  nextId : Nat
  bufferData : Handle → List Num
  writes : List BufferWrite
  encoder : List Command
  submitted : List GPUCommandBuffer
  console : List (ConsoleEntry Num)
  body : List Canvas
  configured : List CanvasConfiguration
  animationRequests : Nat

/-- The state of a running script: the platform and the fields of the sample object. -/
structure Ctx (Num S : Type) where
  world : World Num
  self : S

section Platform

variable {Num S : Type}

/-- Reading the fields of the sample. -/
def getSelf : JS (Ctx Num S) S :=
  fun c => (Except.ok c.self, c)

/-- Assigning fields of the sample. -/
def modifySelf (f : S → S) : JS (Ctx Num S) Unit :=
  fun c => (Except.ok (), { c with self := f c.self })

/-- Reading the platform. -/
def getWorld : JS (Ctx Num S) (World Num) :=
  fun c => (Except.ok c.world, c)

/-- An effect on the platform. -/
def modifyWorld (f : World Num → World Num) : JS (Ctx Num S) Unit :=
  fun c => (Except.ok (), { c with world := f c.world })

/-- A fresh identifier for a new object. -/
def freshId : JS (Ctx Num S) Handle :=
  fun c => (Except.ok c.world.nextId,
    { c with world := { c.world with nextId := c.world.nextId + 1 } })

/-- The call `Math.random()`. -/
def mathRandom : JS (Ctx Num S) Num :=
  fun c => (Except.ok (c.world.random c.world.randomCalls),
    { c with world := { c.world with randomCalls := c.world.randomCalls + 1 } })

/-- The call `performance.now()`. -/
def performanceNow : JS (Ctx Num S) Num :=
  fun c => (Except.ok (c.world.clock c.world.clockCalls),
    { c with world := { c.world with clockCalls := c.world.clockCalls + 1 } })

/-- The call `console.log(text)`. -/
def consoleLog (text : String) : JS (Ctx Num S) Unit :=
  modifyWorld fun w => { w with console := w.console ++ [ConsoleEntry.log text] }

/-- The call `console.log` of a text with a formatted number. -/
def consoleLogNumber (text : String) (value : Num) : JS (Ctx Num S) Unit :=
  modifyWorld fun w => { w with console := w.console ++ [ConsoleEntry.logNumber text value] }

/-- The call `console.error(text)`. -/
def consoleError (text : String) : JS (Ctx Num S) Unit :=
  modifyWorld fun w => { w with console := w.console ++ [ConsoleEntry.error text] }

/-- The call `console.error(text, error)`. -/
def consoleErrorWith (text : String) (error : JSError) : JS (Ctx Num S) Unit :=
  modifyWorld fun w => { w with console := w.console ++ [ConsoleEntry.errorWith text error] }

/-- The contents of a buffer after the elements of `data` were written from byte `bufferOffset`
on; an offset that is no multiple of four or a range that leaves the buffer changes nothing
(the platform reports a validation error and drops the write). -/
def writeInto (buffer : GPUBuffer) (old : List Num) (bufferOffset : Nat) (data : List Num) :
    List Num :=
  if bufferOffset % 4 = 0 ∧ bufferOffset + 4 * data.length ≤ buffer.size
      ∧ bufferOffset / 4 + data.length ≤ old.length then
    old.take (bufferOffset / 4) ++ data ++ old.drop (bufferOffset / 4 + data.length)
  else old

/-- The call `device.createBuffer` of a descriptor with `size` and `usage`: a new buffer, its
contents zero. -/
def createBuffer [JSNumber Num] (device : Option Handle) (size usage : Nat) :
    JS (Ctx Num S) GPUBuffer := do
  let _ ← JS.deref "device" device
  let id ← freshId
  modifyWorld fun w => { w with
    bufferData := Function.update w.bufferData id (List.replicate (size / 4) (JSNumber.ofRat 0)) }
  pure ⟨id, size, usage⟩

/-- The sequence `new Float32Array(buffer.getMappedRange()).set(data); buffer.unmap()` on a buffer
created with `mappedAtCreation`. -/
def fillMapped (buffer : GPUBuffer) (data : Float32Array Num) : JS (Ctx Num S) Unit :=
  modifyWorld fun w => { w with
    bufferData := Function.update w.bufferData buffer.id
      (writeInto buffer (w.bufferData buffer.id) 0 data.elems) }

/-- The call `device.queue.writeBuffer(buffer, bufferOffset, data)`. -/
def queueWriteBuffer (device : Option Handle) (buffer : Option GPUBuffer) (bufferOffset : Nat)
    (data : Float32Array Num) : JS (Ctx Num S) Unit := do
  let _ ← JS.deref "device" device
  let buffer ← JS.deref "buffer" buffer
  modifyWorld fun w => { w with
    writes := w.writes ++ [⟨buffer.id, bufferOffset, data.byteLength⟩]
    bufferData := Function.update w.bufferData buffer.id
      (writeInto buffer (w.bufferData buffer.id) bufferOffset data.elems) }

/-- The call `device.queue.submit([commands])`. -/
def queueSubmit (device : Option Handle) (commands : GPUCommandBuffer) : JS (Ctx Num S) Unit := do
  let _ ← JS.deref "device" device
  modifyWorld fun w => { w with submitted := w.submitted ++ [commands] }

/-- The call `device.createShaderModule` with the given source. -/
def createShaderModule (device : Option Handle) (code : ShaderSource) :
    JS (Ctx Num S) GPUShaderModule := do
  let _ ← JS.deref "device" device
  let id ← freshId
  pure ⟨id, code⟩

/-- The call `device.createBindGroupLayout`. -/
def createBindGroupLayout (device : Option Handle) (entries : List GPUBindGroupLayoutEntry) :
    JS (Ctx Num S) GPUBindGroupLayout := do
  let _ ← JS.deref "device" device
  let id ← freshId
  pure ⟨id, entries⟩

/-- The call `device.createPipelineLayout`. -/
def createPipelineLayout (device : Option Handle) (bindGroupLayouts : List GPUBindGroupLayout) :
    JS (Ctx Num S) GPUPipelineLayout := do
  let _ ← JS.deref "device" device
  let id ← freshId
  pure ⟨id, bindGroupLayouts⟩

/-- The call `device.createBindGroup`. -/
def createBindGroup (device : Option Handle) (layout : GPUBindGroupLayout)
    (entries : List GPUBindGroupEntry) : JS (Ctx Num S) GPUBindGroup := do
  let _ ← JS.deref "device" device
  let id ← freshId
  pure ⟨id, layout, entries⟩

/-- The call `device.createRenderPipeline`: the descriptor with a fresh identity. -/
def createRenderPipeline (device : Option Handle) (descriptor : GPURenderPipeline) :
    JS (Ctx Num S) GPURenderPipeline := do
  let _ ← JS.deref "device" device
  let id ← freshId
  pure { descriptor with id := id }

/-- The call `device.createComputePipeline`: the descriptor with a fresh identity. -/
def createComputePipeline (device : Option Handle) (descriptor : GPUComputePipeline) :
    JS (Ctx Num S) GPUComputePipeline := do
  let _ ← JS.deref "device" device
  let id ← freshId
  pure { descriptor with id := id }

/-- The calls `context.getCurrentTexture()` and `createView()` on its result: the view of a new
texture. -/
def currentTextureView (context : Option Handle) : JS (Ctx Num S) Handle := do
  let _ ← JS.deref "context" context
  let _texture ← freshId
  freshId

/-- The call `device.createCommandEncoder()`: recording starts anew. -/
def createCommandEncoder (device : Option Handle) : JS (Ctx Num S) Unit := do
  let _ ← JS.deref "device" device
  modifyWorld fun w => { w with encoder := [] }

/-- A command recorded by the encoder or by a pass of it. -/
def record (command : Command) : JS (Ctx Num S) Unit :=
  modifyWorld fun w => { w with encoder := w.encoder ++ [command] }

/-- The call `encoder.finish()`: the commands recorded. -/
def finish : JS (Ctx Num S) GPUCommandBuffer :=
  fun c => (Except.ok c.world.encoder, c)

/-- The call `requestAnimationFrame(callback)`. -/
def requestAnimationFrame : JS (Ctx Num S) Unit :=
  modifyWorld fun w => { w with animationRequests := w.animationRequests + 1 }

end Platform

/-! ## The fields and the `run` method all three samples share -/

/-- The fields every sample class declares: `device`, `context`, `canvas`, `preferredFormat`. -/
structure SampleBase where
  device : Option Handle
  context : Option Handle
  canvas : Option Canvas
  preferredFormat : Option String
  deriving DecidableEq, Repr

/-- The values the constructors give these fields: all `null`. -/
def SampleBase.new : SampleBase :=
  ⟨none, none, none, none⟩

/-! ## Animometer.js -/

/-- The class `AnimometerSample`. -/
structure AnimometerSample (Num : Type) extends SampleBase where
  pipeline : Option GPURenderPipeline
  bindGroup : Option GPUBindGroup
  ubo : Option GPUBuffer
  frameCount : Nat
  lastTime : Num
  frameCountForFPS : Nat
  shaderData : List (ShaderData Num)

section Animometer

variable {Num : Type} [JSNumber Num]

/-- The constructor of `AnimometerSample`. -/
def AnimometerSample.new : AnimometerSample Num where
  toSampleBase := SampleBase.new
  pipeline := none
  bindGroup := none
  ubo := none
  frameCount := 0
  lastTime := JSNumber.ofRat 0
  frameCountForFPS := 0
  shaderData := []

/-- The body of the loop of `setupImpl` that fills `shaderData`. -/
def AnimometerSample.setupImpl.pushShaderData (_i : Nat) :
    JS (Ctx Num (AnimometerSample Num)) Unit := do
  let data : ShaderData Num := ShaderData.new
  let data := { data with
    scale := randomFloat (← mathRandom) (JSNumber.ofRat (2 / 10)) (JSNumber.ofRat (4 / 10)) }
  let data := { data with time := JSNumber.ofRat 0 }
  let data := { data with
    offsetX := randomFloat (← mathRandom) (JSNumber.ofRat (-9 / 10)) (JSNumber.ofRat (9 / 10)) }
  let data := { data with
    offsetY := randomFloat (← mathRandom) (JSNumber.ofRat (-9 / 10)) (JSNumber.ofRat (9 / 10)) }
  let data := { data with
    scalar := randomFloat (← mathRandom) (JSNumber.ofRat (5 / 10)) (JSNumber.ofRat 2) }
  let data := { data with
    scalarOffset := randomFloat (← mathRandom) (JSNumber.ofRat 0) (JSNumber.ofRat 10) }
  modifySelf fun t => { t with shaderData := t.shaderData ++ [data] }

/-- The method `AnimometerSample.setupImpl`, for any value `numTriangles` of the constant
`kNumTriangles`. -/
def AnimometerSample.setupImplOf (numTriangles : Nat) :
    JS (Ctx Num (AnimometerSample Num)) Bool := do
  let vsModule ← createShaderModule (← getSelf).device ShaderSource.animometerVertex
  let fsModule ← createShaderModule (← getSelf).device ShaderSource.animometerFragment
  let bindGroupLayout ← createBindGroupLayout (← getSelf).device
    [⟨0, GPUShaderStage.VERTEX, "uniform", true⟩]
  let pipelineLayout ← createPipelineLayout (← getSelf).device [bindGroupLayout]
  let pipelineDescriptor : GPURenderPipeline :=
    { id := 0
      layout := some pipelineLayout
      vertexModule := vsModule
      vertexEntryPoint := "main"
      buffers := []
      fragmentModule := fsModule
      fragmentEntryPoint := "main"
      targetFormat := (← getSelf).preferredFormat
      topology := "triangle-list" }
  let pipeline ← createRenderPipeline (← getSelf).device pipelineDescriptor
  modifySelf fun t => { t with pipeline := some pipeline }
  modifySelf fun t => { t with shaderData := [] }
  JS.forRange numTriangles AnimometerSample.setupImpl.pushShaderData
  let ubo ← createBuffer (← getSelf).device (numTriangles * 256)
    (GPUBufferUsage.COPY_DST ||| GPUBufferUsage.UNIFORM)
  modifySelf fun t => { t with ubo := some ubo }
  let uboNow ← JS.deref "this.ubo" (← getSelf).ubo
  let bindGroup ← createBindGroup (← getSelf).device bindGroupLayout [⟨0, uboNow, 0, some 256⟩]
  modifySelf fun t => { t with bindGroup := some bindGroup }
  let now ← performanceNow
  modifySelf fun t => { t with lastTime := now }
  modifySelf fun t => { t with frameCountForFPS := 0 }
  pure true

/-- The method `AnimometerSample.setupImpl`. -/
def AnimometerSample.setupImpl : JS (Ctx Num (AnimometerSample Num)) Bool :=
  AnimometerSample.setupImplOf kNumTriangles

/-- The first part of `frameImpl`: the counters and the time of every `ShaderData`. -/
def AnimometerSample.frameImpl.updateTime : JS (Ctx Num (AnimometerSample Num)) Unit := do
  modifySelf fun t => { t with frameCount := t.frameCount + 1 }
  modifySelf fun t => { t with frameCountForFPS := t.frameCountForFPS + 1 }
  modifySelf fun t => { t with
    shaderData := t.shaderData.map fun data =>
      { data with time := JSNumber.div (JSNumber.ofNat t.frameCount) (JSNumber.ofRat 60) } }

/-- The body of the loop of `frameImpl` that writes the `ShaderData` into the uniform buffer. -/
def AnimometerSample.frameImpl.writeShaderData (i : Nat) :
    JS (Ctx Num (AnimometerSample Num)) Unit := do
  let data ← JS.deref "this.shaderData[i]" ((← getSelf).shaderData[i]?)
  let dataArray := data.toFloat32Array
  queueWriteBuffer (← getSelf).device (← getSelf).ubo (i * 256) dataArray

/-- The body of the loop of `frameImpl` that draws the triangles. -/
def AnimometerSample.frameImpl.drawTriangle (i : Nat) :
    JS (Ctx Num (AnimometerSample Num)) Unit := do
  let offset := i * 256
  record (Command.setBindGroup 0 (← getSelf).bindGroup [offset])
  record (Command.draw 3 1)

/-- The render pass of `frameImpl`, from `getCurrentTexture` to `queue.submit`, for any value
`numTriangles` of the constant `kNumTriangles`. -/
def AnimometerSample.frameImpl.renderOf (numTriangles : Nat) :
    JS (Ctx Num (AnimometerSample Num)) Unit := do
  let view ← currentTextureView (← getSelf).context
  createCommandEncoder (← getSelf).device
  record (Command.beginRenderPass view ⟨0, 0, 0, 0⟩ "clear" "store")
  let pipeline ← JS.deref "this.pipeline" (← getSelf).pipeline
  record (Command.setRenderPipeline pipeline)
  JS.forRange numTriangles AnimometerSample.frameImpl.drawTriangle
  record Command.endPass
  let commands ← finish
  queueSubmit (← getSelf).device commands

/-- The last part of `frameImpl`: the frame rate, once in sixty frames. -/
def AnimometerSample.frameImpl.reportFPS : JS (Ctx Num (AnimometerSample Num)) Unit := do
  if (← getSelf).frameCountForFPS % 60 = 0 then
    let currentTime ← performanceNow
    let elapsedTime :=
      JSNumber.div (JSNumber.sub currentTime (← getSelf).lastTime) (JSNumber.ofRat 1000)
    let fps := JSNumber.div (JSNumber.ofRat 60) elapsedTime
    consoleLogNumber "FPS: " fps
    modifySelf fun t => { t with lastTime := currentTime }
    modifySelf fun t => { t with frameCountForFPS := 0 }

/-- The method `AnimometerSample.frameImpl`, for any value `numTriangles` of the constant
`kNumTriangles`. -/
def AnimometerSample.frameImplOf (numTriangles : Nat) :
    JS (Ctx Num (AnimometerSample Num)) Unit := do
  AnimometerSample.frameImpl.updateTime
  JS.forRange numTriangles AnimometerSample.frameImpl.writeShaderData
  AnimometerSample.frameImpl.renderOf numTriangles
  AnimometerSample.frameImpl.reportFPS

/-- The method `AnimometerSample.frameImpl`. -/
def AnimometerSample.frameImpl : JS (Ctx Num (AnimometerSample Num)) Unit :=
  AnimometerSample.frameImplOf kNumTriangles

end Animometer

/-! ## HelloTriangle.js -/

/-- The class `HelloTriangleSample`. -/
structure HelloTriangleSample extends SampleBase where
  vertexBuffer : Option GPUBuffer
  pipeline : Option GPURenderPipeline
  deriving DecidableEq, Repr

section HelloTriangle

variable {Num : Type} [JSNumber Num]

/-- The constructor of `HelloTriangleSample`. -/
def HelloTriangleSample.new : HelloTriangleSample where
  toSampleBase := SampleBase.new
  vertexBuffer := none
  pipeline := none

/-- The method `HelloTriangleSample.setupImpl`. -/
def HelloTriangleSample.setupImpl : JS (Ctx Num HelloTriangleSample) Bool := do
  let vertexData : Float32Array Num := Float32Array.ofList
    [ JSNumber.ofRat 0, JSNumber.ofRat (1 / 2), JSNumber.ofRat 0, JSNumber.ofRat 1,
      JSNumber.ofRat (-1 / 2), JSNumber.ofRat (-1 / 2), JSNumber.ofRat 0, JSNumber.ofRat 1,
      JSNumber.ofRat (1 / 2), JSNumber.ofRat (-1 / 2), JSNumber.ofRat 0, JSNumber.ofRat 1 ]
  let vertexBuffer ← createBuffer (← getSelf).device vertexData.byteLength
    (GPUBufferUsage.VERTEX ||| GPUBufferUsage.COPY_DST)
  modifySelf fun t => { t with vertexBuffer := some vertexBuffer }
  queueWriteBuffer (← getSelf).device (← getSelf).vertexBuffer 0 vertexData
  let shaderModule ← createShaderModule (← getSelf).device ShaderSource.helloTriangle
  let pipelineDescriptor : GPURenderPipeline :=
    { id := 0
      layout := none
      vertexModule := shaderModule
      vertexEntryPoint := "vs"
      buffers := [⟨4 * 4, "vertex", [⟨0, 0, "float32x4"⟩]⟩]
      fragmentModule := shaderModule
      fragmentEntryPoint := "fs"
      targetFormat := (← getSelf).preferredFormat
      topology := "triangle-list" }
  let pipeline ← createRenderPipeline (← getSelf).device pipelineDescriptor
  modifySelf fun t => { t with pipeline := some pipeline }
  pure true

/-- The method `HelloTriangleSample.frameImpl`. -/
def HelloTriangleSample.frameImpl : JS (Ctx Num HelloTriangleSample) Unit := do
  let view ← currentTextureView (← getSelf).context
  createCommandEncoder (← getSelf).device
  record (Command.beginRenderPass view ⟨0, 0, 0, 0⟩ "clear" "store")
  let pipeline ← JS.deref "this.pipeline" (← getSelf).pipeline
  record (Command.setRenderPipeline pipeline)
  record (Command.setVertexBuffer 0 (← getSelf).vertexBuffer)
  record (Command.draw 3 1)
  record Command.endPass
  let commands ← finish
  queueSubmit (← getSelf).device commands

end HelloTriangle

/-! ## ComputeBoids.js -/

/-- The constant `kNumParticles` of ComputeBoids.js. -/
def kNumParticles : Nat := 1024

/-- The class `Particle`. -/
structure Particle (Num : Type) where
  pos : Float32Array Num
  vel : Float32Array Num

/-- The class `SimParams`. -/
structure SimParams (Num : Type) where
  deltaT : Num
  rule1Distance : Num
  rule2Distance : Num
  rule3Distance : Num
  rule1Scale : Num
  rule2Scale : Num
  rule3Scale : Num
  particleCount : Num

/-- The class `ComputeBoidsSample`; an array field holds `none` where the array has a hole. -/
structure ComputeBoidsSample extends SampleBase where
  modelBuffer : Option GPUBuffer
  particleBuffers : List (Option GPUBuffer)
  renderPipeline : Option GPURenderPipeline
  updateParams : Option GPUBuffer
  updatePipeline : Option GPUComputePipeline
  updateBGs : List (Option GPUBindGroup)
  pingpong : Nat
  deriving DecidableEq, Repr

/-- The read `array[i]` of an array of objects: `none` for `undefined`. -/
def arrayGet {α : Type} (array : List (Option α)) (i : Nat) : Option α :=
  (array[i]?).join

/-- The assignment `array[i] = value` of an array of objects: the array grows as needed. -/
def arraySet {α : Type} (array : List (Option α)) (i : Nat) (value : α) : List (Option α) :=
  if i < array.length then array.set i (some value)
  else array ++ List.replicate (i - array.length) none ++ [some value]

section ComputeBoids

variable {Num : Type} [JSNumber Num]

/-- The constructor of `Particle`. -/
def Particle.new (pos vel : List Num) : Particle Num where
  pos := Float32Array.ofList pos
  vel := Float32Array.ofList vel

/-- The method `Particle.toFloat32Array`. -/
def Particle.toFloat32Array (self : Particle Num) : Float32Array Num :=
  let array := Float32Array.new 4
  let array := array.set 0 (self.pos.read 0)
  let array := array.set 1 (self.pos.read 1)
  let array := array.set 2 (self.vel.read 0)
  let array := array.set 3 (self.vel.read 1)
  array

/-- The constructor of `SimParams`. -/
def SimParams.new : SimParams Num where
  deltaT := JSNumber.ofRat (4 / 100)
  rule1Distance := JSNumber.ofRat (1 / 10)
  rule2Distance := JSNumber.ofRat (25 / 1000)
  rule3Distance := JSNumber.ofRat (25 / 1000)
  rule1Scale := JSNumber.ofRat (2 / 100)
  rule2Scale := JSNumber.ofRat (5 / 100)
  rule3Scale := JSNumber.ofRat (5 / 1000)
  particleCount := JSNumber.ofNat kNumParticles

/-- The method `SimParams.toFloat32Array`. -/
def SimParams.toFloat32Array (self : SimParams Num) : Float32Array Num :=
  let array := Float32Array.new 8
  let array := array.set 0 self.deltaT
  let array := array.set 1 self.rule1Distance
  let array := array.set 2 self.rule2Distance
  let array := array.set 3 self.rule3Distance
  let array := array.set 4 self.rule1Scale
  let array := array.set 5 self.rule2Scale
  let array := array.set 6 self.rule3Scale
  let array := array.set 7 self.particleCount
  array

/-- The constructor of `ComputeBoidsSample`. -/
def ComputeBoidsSample.new : ComputeBoidsSample where
  toSampleBase := SampleBase.new
  modelBuffer := none
  particleBuffers := []
  renderPipeline := none
  updateParams := none
  updatePipeline := none
  updateBGs := []
  pingpong := 0

/-- The value `Math.random() * 2 - 1`. -/
def ComputeBoidsSample.initBuffers.randomCoordinate : JS (Ctx Num ComputeBoidsSample) Num := do
  let r ← mathRandom
  pure (JSNumber.sub (JSNumber.mul r (JSNumber.ofRat 2)) (JSNumber.ofRat 1))

/-- The body of the loop of `initBuffers` that fills `initialParticles`. -/
def ComputeBoidsSample.initBuffers.pushParticle (_i : Nat) (initialParticles : List (Particle Num)) :
    JS (Ctx Num ComputeBoidsSample) (List (Particle Num)) := do
  let x ← ComputeBoidsSample.initBuffers.randomCoordinate
  let y ← ComputeBoidsSample.initBuffers.randomCoordinate
  let vx ← ComputeBoidsSample.initBuffers.randomCoordinate
  let vy ← ComputeBoidsSample.initBuffers.randomCoordinate
  let particle := Particle.new [x, y]
    [JSNumber.mul vx (JSNumber.ofRat (1 / 10)), JSNumber.mul vy (JSNumber.ofRat (1 / 10))]
  pure (initialParticles ++ [particle])

/-- The body of the loop of `initBuffers` that packs the particles into `particleData`; a
`RangeError` of `set` is the exception thrown. -/
def ComputeBoidsSample.initBuffers.packParticle (initialParticles : List (Particle Num)) (i : Nat)
    (particleData : Float32Array Num) : JS (Ctx Num ComputeBoidsSample) (Float32Array Num) := do
  let particle ← JS.deref "initialParticles[i]" (initialParticles[i]?)
  let particleArray := particle.toFloat32Array
  match particleData.setArray particleArray (i * 4) with
  | some packed => pure packed
  | none => JS.throw (JSError.operationError "RangeError: offset is out of bounds")

/-- The body of the loop of `initBuffers` that creates the two particle buffers. -/
def ComputeBoidsSample.initBuffers.createParticleBuffer (particleData : Float32Array Num)
    (i : Nat) : JS (Ctx Num ComputeBoidsSample) Unit := do
  let buffer ← createBuffer (← getSelf).device particleData.byteLength
    (GPUBufferUsage.STORAGE ||| GPUBufferUsage.VERTEX ||| GPUBufferUsage.COPY_DST)
  modifySelf fun t => { t with particleBuffers := arraySet t.particleBuffers i buffer }
  let mapped ← JS.deref "this.particleBuffers[i]" (arrayGet (← getSelf).particleBuffers i)
  fillMapped mapped particleData

/-- The method `ComputeBoidsSample.initBuffers`, for any value `numParticles` of the constant
`kNumParticles` in its loops. -/
def ComputeBoidsSample.initBuffersOf (numParticles : Nat) :
    JS (Ctx Num ComputeBoidsSample) Unit := do
  let model : Float32Array Num := Float32Array.ofList
    [ JSNumber.ofRat (-1 / 100), JSNumber.ofRat (-2 / 100),
      JSNumber.ofRat (1 / 100), JSNumber.ofRat (-2 / 100),
      JSNumber.ofRat 0, JSNumber.ofRat (2 / 100) ]
  let modelBuffer ← createBuffer (← getSelf).device model.byteLength
    (GPUBufferUsage.VERTEX ||| GPUBufferUsage.COPY_DST)
  modifySelf fun t => { t with modelBuffer := some modelBuffer }
  fillMapped (← JS.deref "this.modelBuffer" (← getSelf).modelBuffer) model
  let initialParticles ← JS.forRangeFold numParticles []
    ComputeBoidsSample.initBuffers.pushParticle
  let particleData ← JS.forRangeFold numParticles (Float32Array.new (numParticles * 4))
    (ComputeBoidsSample.initBuffers.packParticle initialParticles)
  JS.forRange 2 (ComputeBoidsSample.initBuffers.createParticleBuffer particleData)
  let simParams : SimParams Num := SimParams.new
  let paramsData := simParams.toFloat32Array
  let updateParams ← createBuffer (← getSelf).device paramsData.byteLength
    (GPUBufferUsage.UNIFORM ||| GPUBufferUsage.COPY_DST)
  modifySelf fun t => { t with updateParams := some updateParams }
  fillMapped (← JS.deref "this.updateParams" (← getSelf).updateParams) paramsData

/-- The method `ComputeBoidsSample.initBuffers`. -/
def ComputeBoidsSample.initBuffers : JS (Ctx Num ComputeBoidsSample) Unit :=
  ComputeBoidsSample.initBuffersOf kNumParticles

/-- The method `ComputeBoidsSample.initRender`. -/
def ComputeBoidsSample.initRender : JS (Ctx Num ComputeBoidsSample) Unit := do
  let vsModule ← createShaderModule (← getSelf).device ShaderSource.boidsVertex
  let fsModule ← createShaderModule (← getSelf).device ShaderSource.boidsFragment
  let renderPipelineDescriptor : GPURenderPipeline :=
    { id := 0
      layout := none
      vertexModule := vsModule
      vertexEntryPoint := "main"
      buffers :=
        [ ⟨4 * 4, "instance", [⟨0, 0, "float32x2"⟩, ⟨1, 2 * 4, "float32x2"⟩]⟩,
          ⟨2 * 4, "vertex", [⟨2, 0, "float32x2"⟩]⟩ ]
      fragmentModule := fsModule
      fragmentEntryPoint := "main"
      targetFormat := (← getSelf).preferredFormat
      topology := "triangle-list" }
  let renderPipeline ← createRenderPipeline (← getSelf).device renderPipelineDescriptor
  modifySelf fun t => { t with renderPipeline := some renderPipeline }

/-- The body of the loop of `initSim` that creates the two bind groups. -/
def ComputeBoidsSample.initSim.createUpdateBG (bindGroupLayout : GPUBindGroupLayout) (i : Nat) :
    JS (Ctx Num ComputeBoidsSample) Unit := do
  let updateParams ← JS.deref "this.updateParams" (← getSelf).updateParams
  let particlesA ← JS.deref "this.particleBuffers[i]" (arrayGet (← getSelf).particleBuffers i)
  let particlesB ← JS.deref "this.particleBuffers[(i + 1) % 2]"
    (arrayGet (← getSelf).particleBuffers ((i + 1) % 2))
  let bindGroup ← createBindGroup (← getSelf).device bindGroupLayout
    [ ⟨0, updateParams, 0, none⟩, ⟨1, particlesA, 0, none⟩, ⟨2, particlesB, 0, none⟩ ]
  modifySelf fun t => { t with updateBGs := arraySet t.updateBGs i bindGroup }

/-- The method `ComputeBoidsSample.initSim`. -/
def ComputeBoidsSample.initSim : JS (Ctx Num ComputeBoidsSample) Unit := do
  let computeModule ← createShaderModule (← getSelf).device ShaderSource.boidsCompute
  let bindGroupLayout ← createBindGroupLayout (← getSelf).device
    [ ⟨0, GPUShaderStage.COMPUTE, "uniform", false⟩,
      ⟨1, GPUShaderStage.COMPUTE, "storage", false⟩,
      ⟨2, GPUShaderStage.COMPUTE, "storage", false⟩ ]
  let pipelineLayout ← createPipelineLayout (← getSelf).device [bindGroupLayout]
  let updatePipeline ← createComputePipeline (← getSelf).device
    ⟨0, pipelineLayout, computeModule, "main"⟩
  modifySelf fun t => { t with updatePipeline := some updatePipeline }
  JS.forRange 2 (ComputeBoidsSample.initSim.createUpdateBG bindGroupLayout)

/-- The value `Math.ceil(n / d)` for integers `n` and `d > 0`. -/
def mathCeilDiv (n d : Nat) : Nat :=
  (n + d - 1) / d

/-- The method `ComputeBoidsSample.createCommandBuffer`. -/
def ComputeBoidsSample.createCommandBuffer (backbufferView : Handle) (i : Nat) :
    JS (Ctx Num ComputeBoidsSample) GPUCommandBuffer := do
  let bufferDst := arrayGet (← getSelf).particleBuffers ((i + 1) % 2)
  createCommandEncoder (← getSelf).device
  record Command.beginComputePass
  record (Command.setComputePipeline (← JS.deref "this.updatePipeline" (← getSelf).updatePipeline))
  record (Command.setBindGroup 0 (arrayGet (← getSelf).updateBGs i) [])
  record (Command.dispatchWorkgroups (mathCeilDiv kNumParticles 64))
  record Command.endPass
  record (Command.beginRenderPass backbufferView ⟨0, 0, 0, 1⟩ "clear" "store")
  record (Command.setRenderPipeline (← JS.deref "this.renderPipeline" (← getSelf).renderPipeline))
  record (Command.setVertexBuffer 0 bufferDst)
  record (Command.setVertexBuffer 1 (← getSelf).modelBuffer)
  record (Command.draw 3 kNumParticles)
  record Command.endPass
  finish

/-- The method `ComputeBoidsSample.setupImpl`. -/
def ComputeBoidsSample.setupImpl : JS (Ctx Num ComputeBoidsSample) Bool := do
  ComputeBoidsSample.initBuffers
  ComputeBoidsSample.initRender
  ComputeBoidsSample.initSim
  pure true

/-- The method `ComputeBoidsSample.frameImpl`. -/
def ComputeBoidsSample.frameImpl : JS (Ctx Num ComputeBoidsSample) Unit := do
  let view ← currentTextureView (← getSelf).context
  let commandBuffer ← ComputeBoidsSample.createCommandBuffer view (← getSelf).pingpong
  queueSubmit (← getSelf).device commandBuffer
  modifySelf fun t => { t with pingpong := (t.pingpong + 1) % 2 }

end ComputeBoids

/-! ## The method `run` and the function `main` -/

/-- The access of `run`, whose text is the same in the three classes, to the fields `device`,
`context`, `canvas` and `preferredFormat` of a sample class: reading them, and assigning them
without a change to the other fields. -/
class SampleClass (S : Type) where
  base : S → SampleBase
  withBase : S → SampleBase → S
  base_withBase : ∀ t b, base (withBase t b) = b
  withBase_withBase : ∀ t b1 b2, withBase (withBase t b1) b2 = withBase t b2
  withBase_base : ∀ t, withBase t (base t) = t

instance {Num : Type} : SampleClass (AnimometerSample Num) where
  base t := t.toSampleBase
  withBase t b := { t with toSampleBase := b }
  base_withBase _ _ := rfl
  withBase_withBase _ _ _ := rfl
  withBase_base _ := rfl

instance : SampleClass HelloTriangleSample where
  base t := t.toSampleBase
  withBase t b := { t with toSampleBase := b }
  base_withBase _ _ := rfl
  withBase_withBase _ _ _ := rfl
  withBase_base _ := rfl

instance : SampleClass ComputeBoidsSample where
  base t := t.toSampleBase
  withBase t b := { t with toSampleBase := b }
  base_withBase _ _ := rfl
  withBase_withBase _ _ _ := rfl
  withBase_base _ := rfl

section Run

variable {Num S : Type}

/-- The call `await adapter.requestDevice()`: the device, or the rejection thrown. -/
def requestDevice : JS (Ctx Num S) Handle :=
  fun c =>
    match c.world.requestDevice with
    | some device => (Except.ok device, c)
    | none => (Except.error (JSError.operationError "requestDevice"), c)

/-- The call `document.createElement('canvas')`: a canvas of the default size. -/
def createCanvas : JS (Ctx Num S) Canvas := do
  let id ← freshId
  pure ⟨id, 300, 150⟩

/-- The call `document.body.appendChild(canvas)`. -/
def appendToBody (canvas : Option Canvas) : JS (Ctx Num S) Unit := do
  let canvas ← JS.deref "canvas" canvas
  modifyWorld fun w => { w with body := w.body ++ [canvas] }

/-- The call `context.configure` with the device, the format and the alpha mode. -/
def configure (context device : Option Handle) (format : Option String) (alphaMode : String) :
    JS (Ctx Num S) Unit := do
  let context ← JS.deref "this.context" context
  let device ← JS.deref "device" device
  let format ← JS.deref "format" format
  modifyWorld fun w => { w with configured := w.configured ++ [⟨context, device, format, alphaMode⟩] }

/-- The function `renderLoop` of `run`: a frame, and the request for the next one. -/
def renderLoop (frameImpl : JS (Ctx Num S) Unit) : JS (Ctx Num S) Unit := do
  frameImpl
  requestAnimationFrame

/-- The part of `run` before `setupImpl`: the checks, the device, the canvas and its context. -/
def SampleClass.start [SampleClass S] : JS (Ctx Num S) Unit := do
  if (← getWorld).gpu = false then
    JS.throw (JSError.error "WebGPU not supported")
  let adapter := (← getWorld).adapter
  if adapter = none then
    JS.throw (JSError.error "No WebGPU adapter found")
  let device ← requestDevice
  modifySelf fun t => SampleClass.withBase t { SampleClass.base t with device := some device }
  let canvas ← createCanvas
  modifySelf fun t => SampleClass.withBase t { SampleClass.base t with canvas := some canvas }
  modifySelf fun t => SampleClass.withBase t { SampleClass.base t with
    canvas := (SampleClass.base t).canvas.map fun c => { c with width := 640 } }
  modifySelf fun t => SampleClass.withBase t { SampleClass.base t with
    canvas := (SampleClass.base t).canvas.map fun c => { c with height := 480 } }
  appendToBody (SampleClass.base (← getSelf)).canvas
  let context := (← getWorld).webgpuContext
  modifySelf fun t => SampleClass.withBase t { SampleClass.base t with context := context }
  let format := (← getWorld).preferredCanvasFormat
  modifySelf fun t => SampleClass.withBase t { SampleClass.base t with
    preferredFormat := some format }
  configure (SampleClass.base (← getSelf)).context (SampleClass.base (← getSelf)).device
    (SampleClass.base (← getSelf)).preferredFormat "opaque"

/-- The method `run` of a sample class with the given `setupImpl` and `frameImpl`. -/
def SampleClass.run [SampleClass S] (setupImpl : JS (Ctx Num S) Bool) (frameImpl : JS (Ctx Num S) Unit) :
    JS (Ctx Num S) Unit := do
  SampleClass.start
  let _ ← setupImpl
  renderLoop frameImpl

/-- A method called on the local variable `sample` of `main`. -/
def onSample {α : Type} (method : JS (Ctx Num S) α) : JS (Ctx Num (Option S)) α :=
  fun c =>
    match c.self with
    | none => (Except.error (JSError.typeError "sample"), c)
    | some sample =>
      match method ⟨c.world, sample⟩ with
      | (result, c1) => (result, ⟨c1.world, some c1.self⟩)

/-- The function `main` of a script: `construct` is the constructor of its sample class, `run`
the method `run`, `started` and `failed` the two messages.  The state holds the local variable
`sample`, `none` as long as no sample is constructed. -/
def sampleMain (construct : S) (run : JS (Ctx Num S) Unit) (started failed : String) :
    JS (Ctx Num (Option S)) Nat := do
  if (← getWorld).gpu = false then
    consoleError "WebGPU not supported"
    pure 1
  else
    JS.tryCatch
      (do
        modifySelf fun _ => some construct
        onSample run
        consoleLog started
        pure 0)
      (fun error => do
        consoleErrorWith failed error
        pure 1)

end Run

section Scripts

variable {Num : Type} [JSNumber Num]

/-- The method `HelloTriangleSample.run`. -/
def HelloTriangleSample.run : JS (Ctx Num HelloTriangleSample) Unit :=
  SampleClass.run HelloTriangleSample.setupImpl HelloTriangleSample.frameImpl

/-- The function `main` of HelloTriangle.js. -/
def HelloTriangle.main : JS (Ctx Num (Option HelloTriangleSample)) Nat :=
  sampleMain HelloTriangleSample.new HelloTriangleSample.run
    "HelloTriangle sample started successfully" "Failed to run HelloTriangle sample:"

/-- The method `AnimometerSample.run`. -/
def AnimometerSample.run : JS (Ctx Num (AnimometerSample Num)) Unit :=
  SampleClass.run AnimometerSample.setupImpl AnimometerSample.frameImpl

/-- The function `main` of Animometer.js. -/
def Animometer.main : JS (Ctx Num (Option (AnimometerSample Num))) Nat :=
  sampleMain AnimometerSample.new AnimometerSample.run
    "Animometer sample started successfully" "Failed to run Animometer sample:"

/-- The method `ComputeBoidsSample.run`. -/
def ComputeBoidsSample.run : JS (Ctx Num ComputeBoidsSample) Unit :=
  SampleClass.run ComputeBoidsSample.setupImpl ComputeBoidsSample.frameImpl

/-- The function `main` of ComputeBoids.js. -/
def ComputeBoids.main : JS (Ctx Num (Option ComputeBoidsSample)) Nat :=
  sampleMain ComputeBoidsSample.new ComputeBoidsSample.run
    "ComputeBoids sample started successfully" "Failed to run ComputeBoids sample:"

/-- A platform on which nothing has happened yet. -/
def World.initial (gpu : Bool) (adapter requestDevice webgpuContext : Option Handle)
    (preferredCanvasFormat : String) (random clock : Nat → Num) : World Num where
  gpu := gpu
  adapter := adapter
  requestDevice := requestDevice
  webgpuContext := webgpuContext
  preferredCanvasFormat := preferredCanvasFormat
  random := random
  clock := clock
  randomCalls := 0
  clockCalls := 0
  nextId := 0
  bufferData := fun _ => []
  encoder := []
  writes := []
  submitted := []
  console := []
  body := []
  configured := []
  animationRequests := 0

/-- A platform that has everything, for the examples: adapter 1, device 2, context 3. -/
def World.example : World ExactNumber :=
  World.initial true (some 1) (some 2) (some 3) "bgra8unorm"
    (fun k => ExactNumber.finite ((k % 7 : Nat) / 7)) (fun k => ExactNumber.finite (16 * k))

end Scripts

/-! ## Invariants and expected values, used to state the properties -/

section States

variable {Num : Type} [JSNumber Num]

/-- The state `setupImpl` of Animometer.js establishes and `frameImpl` keeps: device, context
and pipeline exist, `shaderData` has `numTriangles` elements, and the uniform buffer has
`numTriangles * 256` bytes. -/
def AnimometerSample.Ready (numTriangles : Nat) (c : Ctx Num (AnimometerSample Num)) : Prop :=
  c.self.device.isSome ∧ c.self.context.isSome ∧ c.self.pipeline.isSome ∧
  c.self.shaderData.length = numTriangles ∧
  ∃ u, c.self.ubo = some u ∧ u.size = numTriangles * 256 ∧
    (c.world.bufferData u.id).length = numTriangles * 64

/-- The `ShaderData` an iteration of the loop of `setupImpl` is expected to push when the calls
of `Math.random()` from the `first` on are its five. -/
def AnimometerSample.initialShaderData (random : Nat → Num) (first : Nat) : ShaderData Num :=
  { (ShaderData.new : ShaderData Num) with
    scale := randomFloat (random first) (JSNumber.ofRat (2 / 10)) (JSNumber.ofRat (4 / 10))
    time := JSNumber.ofRat 0
    offsetX :=
      randomFloat (random (first + 1)) (JSNumber.ofRat (-9 / 10)) (JSNumber.ofRat (9 / 10))
    offsetY :=
      randomFloat (random (first + 2)) (JSNumber.ofRat (-9 / 10)) (JSNumber.ofRat (9 / 10))
    scalar := randomFloat (random (first + 3)) (JSNumber.ofRat (5 / 10)) (JSNumber.ofRat 2)
    scalarOffset := randomFloat (random (first + 4)) (JSNumber.ofRat 0) (JSNumber.ofRat 10) }

/-- The commands the render pass of `AnimometerSample.frameImpl` is expected to record for
`n` triangles. -/
def AnimometerSample.frameCommands (view : Handle) (pipeline : GPURenderPipeline)
    (bindGroup : Option GPUBindGroup) (n : Nat) : GPUCommandBuffer :=
  [Command.beginRenderPass view ⟨0, 0, 0, 0⟩ "clear" "store", Command.setRenderPipeline pipeline]
    ++ ((List.range n).flatMap fun i =>
      [Command.setBindGroup 0 bindGroup [i * 256], Command.draw 3 1])
    ++ [Command.endPass]

/-- The particle an iteration of the first loop of `initBuffers` is expected to push when the
calls of `Math.random()` from the `first` on are its four. -/
def ComputeBoidsSample.initialParticle (random : Nat → Num) (first : Nat) : Particle Num :=
  Particle.new
    [ JSNumber.sub (JSNumber.mul (random first) (JSNumber.ofRat 2)) (JSNumber.ofRat 1),
      JSNumber.sub (JSNumber.mul (random (first + 1)) (JSNumber.ofRat 2)) (JSNumber.ofRat 1) ]
    [ JSNumber.mul
        (JSNumber.sub (JSNumber.mul (random (first + 2)) (JSNumber.ofRat 2)) (JSNumber.ofRat 1))
        (JSNumber.ofRat (1 / 10)),
      JSNumber.mul
        (JSNumber.sub (JSNumber.mul (random (first + 3)) (JSNumber.ofRat 2)) (JSNumber.ofRat 1))
        (JSNumber.ofRat (1 / 10)) ]

/-- The commands `ComputeBoidsSample.createCommandBuffer` is expected to record for the view
`backbufferView` and the index `i`, on a sample with the fields `t` and the two pipelines. -/
def ComputeBoidsSample.frameCommands (t : ComputeBoidsSample) (updatePipeline : GPUComputePipeline)
    (renderPipeline : GPURenderPipeline) (backbufferView : Handle) (i : Nat) : GPUCommandBuffer :=
  [ Command.beginComputePass,
    Command.setComputePipeline updatePipeline,
    Command.setBindGroup 0 (arrayGet t.updateBGs i) [],
    Command.dispatchWorkgroups (mathCeilDiv kNumParticles 64),
    Command.endPass,
    Command.beginRenderPass backbufferView ⟨0, 0, 0, 1⟩ "clear" "store",
    Command.setRenderPipeline renderPipeline,
    Command.setVertexBuffer 0 (arrayGet t.particleBuffers ((i + 1) % 2)),
    Command.setVertexBuffer 1 t.modelBuffer,
    Command.draw 3 kNumParticles,
    Command.endPass ]

/-- The buffer a bind group binds at a binding number. -/
def GPUBindGroup.bufferAt (bindGroup : GPUBindGroup) (binding : Nat) : Option GPUBuffer :=
  (bindGroup.entries.find? fun entry => entry.binding = binding).map fun entry => entry.buffer

/-- The byte lies in the range a queue write covers. -/
def BufferWrite.covers (write : BufferWrite) (byte : Nat) : Prop :=
  write.bufferOffset ≤ byte ∧ byte < write.bufferOffset + write.byteLength

/-- The test the comment of `frameImpl` gives for the C++ original: `frameCount % 60 == 0`. -/
def AnimometerCpp.logsFPS (frameCount : Nat) : Bool :=
  frameCount % 60 == 0

/-- The contents the comment of `frameImpl` gives for the C++ original, which writes the whole
array `shaderData` at once: each element is a `struct alignas(256)` of six floats, `scale`,
`time`, `offsetX`, `offsetY`, `scalar`, `scalarOffset`, and 58 floats of padding, zero. -/
def AnimometerCpp.uniformData (shaderData : List (ShaderData Num)) : List Num :=
  shaderData.flatMap fun data =>
    [ JSNumber.fround data.scale, JSNumber.fround data.time, JSNumber.fround data.offsetX,
      JSNumber.fround data.offsetY, JSNumber.fround data.scalar,
      JSNumber.fround data.scalarOffset ] ++ List.replicate 58 (JSNumber.ofRat 0)

/-- The method `run` and the animation callbacks after it, up to the `n`-th call of `frameImpl`:
`run` makes the first call of `renderLoop` itself, the browser the later ones. -/
def SampleClass.runFrames {S : Type} [SampleClass S] (setupImpl : JS (Ctx Num S) Bool)
    (frameImpl : JS (Ctx Num S) Unit) (n : Nat) : JS (Ctx Num S) Unit := do
  SampleClass.start
  let _ ← setupImpl
  JS.forRange n fun _ => renderLoop frameImpl

end States

/-! ## Documented values of ComputeBoids.cpp, and the layout of the uniform data -/

/-- The value the header comment of ComputeBoids.js and the comment at the constant give for
`kNumParticles`, in C++ and in JavaScript. -/
def ComputeBoidsCpp.kNumParticles : Nat := 1500

/-- The number of workgroups the comment of `createCommandBuffer` gives for the C++ original:
the integer quotient `kNumParticles / 64`. -/
def ComputeBoidsCpp.workgroupCount (numParticles : Nat) : Nat :=
  numParticles / 64

/-- The fields of the struct `SimParams` of the compute shader of ComputeBoids.js with their
types, in the order of their declaration. -/
def SimParamsWGSL.fields : List (String × String) :=
  [ ("deltaT", "f32"), ("rule1Distance", "f32"), ("rule2Distance", "f32"),
    ("rule3Distance", "f32"), ("rule1Scale", "f32"), ("rule2Scale", "f32"),
    ("rule3Scale", "f32"), ("particleCount", "u32") ]

/-- The field of a `SimParams` with the given name. -/
def SimParams.field? {Num : Type} (self : SimParams Num) (name : String) : Option Num :=
  if name = "deltaT" then some self.deltaT
  else if name = "rule1Distance" then some self.rule1Distance
  else if name = "rule2Distance" then some self.rule2Distance
  else if name = "rule3Distance" then some self.rule3Distance
  else if name = "rule1Scale" then some self.rule1Scale
  else if name = "rule2Scale" then some self.rule2Scale
  else if name = "rule3Scale" then some self.rule3Scale
  else if name = "particleCount" then some self.particleCount
  else none

/-- The exponent of the highest bit of `n`, found in at most `fuel` halvings. -/
def Float32.exponentOf : Nat → Nat → Nat
  | 0, _ => 0
  | fuel + 1, n => if n < 2 then 0 else Float32.exponentOf fuel (n / 2) + 1

/-- The 32 bits, read as an unsigned integer, of the IEEE 754 single precision number an
integer `n` with `0 < n < 2 ^ 24` is stored as in a `Float32Array`: sign 0, exponent
`127 + e` and the 23 bits of the fraction, where `2 ^ e ≤ n < 2 ^ (e + 1)`; zero has the
bits 0. -/
def Float32.bitsOfNat (n : Nat) : Nat :=
  if n = 0 then 0
  else
    (127 + Float32.exponentOf 32 n) * 2 ^ 23 +
      (n - 2 ^ Float32.exponentOf 32 n) * 2 ^ (23 - Float32.exponentOf 32 n)

/-! ## Effects on the fields of a sample -/

/-- Whatever the outcome of the computation, the fields of the sample before and after it are
related by `R`. -/
def JS.Keeps {Num S α : Type} (R : S → S → Prop) (m : JS (Ctx Num S) α) : Prop :=
  ∀ c, R c.self (m c).2.self

/-- A `ShaderData` with its time set to zero. -/
def ShaderData.withoutTime {Num : Type} [JSNumber Num] (data : ShaderData Num) : ShaderData Num :=
  { data with time := JSNumber.ofRat 0 }

/-- The fields of an `AnimometerSample` other than `frameCount`, `frameCountForFPS`, `lastTime`
and the time of the elements of `shaderData` are the same. -/
def AnimometerSample.SameButTime {Num : Type} [JSNumber Num] (t t1 : AnimometerSample Num) :
    Prop :=
  t1.toSampleBase = t.toSampleBase ∧ t1.pipeline = t.pipeline ∧ t1.bindGroup = t.bindGroup ∧
  t1.ubo = t.ubo ∧
  t1.shaderData.map ShaderData.withoutTime = t.shaderData.map ShaderData.withoutTime

/-- The fields of a `ComputeBoidsSample` other than `pingpong` are the same. -/
def ComputeBoidsSample.SameButPingpong (t t1 : ComputeBoidsSample) : Prop :=
  t1 = { t with pingpong := t1.pingpong }

/-! ## Typed arrays and `ShaderData` -/

section ShaderDataLayout

variable {Num : Type} [JSNumber Num]

theorem ShaderData.toFloat32Array_elems (d : ShaderData Num) :
    d.toFloat32Array.elems =
      [JSNumber.fround d.scale, JSNumber.fround d.time, JSNumber.fround d.offsetX,
        JSNumber.fround d.offsetY, JSNumber.fround d.scalar, JSNumber.fround d.scalarOffset]
        ++ List.replicate 58 (JSNumber.ofRat 0) := by
  rfl

theorem ShaderData.toFloat32Array_length (d : ShaderData Num) :
    d.toFloat32Array.elems.length = 64 := by
  rw [ShaderData.toFloat32Array_elems]
  simp

theorem ShaderData.toFloat32Array_padding (d : ShaderData Num) (k : Nat) (h6 : 6 ≤ k)
    (h64 : k < 64) : d.toFloat32Array.get? k = some (JSNumber.ofRat 0) := by
  unfold Float32Array.get?
  rw [ShaderData.toFloat32Array_elems]
  obtain ⟨j, rfl⟩ := Nat.exists_eq_add_of_le h6
  rw [List.getElem?_append_right (by simp)]
  simp only [List.length_cons, List.length_nil]
  rw [List.getElem?_replicate]
  simp
  omega

/-- C3. `ShaderData.toFloat32Array` returns an array of 64 elements, 256 bytes, whose elements 0 to
5 are `scale`, `time`, `offsetX`, `offsetY`, `scalar` and `scalarOffset` as 32-bit floats, in the
order of the fields of the struct `Constants` of the vertex shader, and whose elements 6 to 63
are zero whatever the field `_padding` holds. -/
theorem ShaderData.toFloat32Array_layout (d : ShaderData Num) :
    d.toFloat32Array.length = 64 ∧ d.toFloat32Array.byteLength = 256 ∧
    (∀ k name, Constants.fields[k]? = some name →
      d.toFloat32Array.get? k = (d.field? name).map JSNumber.fround) ∧
    d.toFloat32Array.get? 0 = some (JSNumber.fround d.scale) ∧
    d.toFloat32Array.get? 1 = some (JSNumber.fround d.time) ∧
    d.toFloat32Array.get? 2 = some (JSNumber.fround d.offsetX) ∧
    d.toFloat32Array.get? 3 = some (JSNumber.fround d.offsetY) ∧
    d.toFloat32Array.get? 4 = some (JSNumber.fround d.scalar) ∧
    d.toFloat32Array.get? 5 = some (JSNumber.fround d.scalarOffset) ∧
    (∀ k, 6 ≤ k → k < 64 → d.toFloat32Array.get? k = some (JSNumber.ofRat 0)) ∧
    (∀ p : Float32Array Num, ({ d with _padding := p }).toFloat32Array = d.toFloat32Array) := by
  refine ⟨?_, ?_, ?_, rfl, rfl, rfl, rfl, rfl, rfl, ?_, fun _ => rfl⟩
  · exact ShaderData.toFloat32Array_length d
  · simp [Float32Array.byteLength, ShaderData.toFloat32Array_length]
  · intro k name h
    match k, h with
    | 0, h => cases h; rfl
    | 1, h => cases h; rfl
    | 2, h => cases h; rfl
    | 3, h => cases h; rfl
    | 4, h => cases h; rfl
    | 5, h => cases h; rfl
    | k + 6, h => simp [Constants.fields] at h
  · exact ShaderData.toFloat32Array_padding d

end ShaderDataLayout

/-! ## Computations -/

section Computations

variable {σ α β : Type}

theorem JS.bind_apply (m : JS σ α) (f : α → JS σ β) (s : σ) :
    (m >>= f) s = JS.bind m f s := rfl

theorem JS.bind_ok {m : JS σ α} {f : α → JS σ β} {s s1 : σ} {a : α}
    (h : m s = (Except.ok a, s1)) : (m >>= f) s = f a s1 := by
  show JS.bind m f s = _
  unfold JS.bind
  rw [h]

theorem JS.bind_error {m : JS σ α} {f : α → JS σ β} {s s1 : σ} {e : JSError}
    (h : m s = (Except.error e, s1)) : (m >>= f) s = (Except.error e, s1) := by
  show JS.bind m f s = _
  unfold JS.bind
  rw [h]

theorem JS.bind_of_eq (m : JS σ α) (f : α → JS σ β) (s : σ) (a : α)
    (h : (m s).1 = Except.ok a) : (m >>= f) s = f a (m s).2 := by
  show JS.bind m f s = _
  unfold JS.bind
  rcases hm : m s with ⟨r, s1⟩
  rw [hm] at h
  cases h
  rfl

theorem JS.pure_apply (a : α) (s : σ) : (Pure.pure a : JS σ α) s = (Except.ok a, s) := rfl

/-- A loop whose body keeps an invariant and never throws ends normally with the invariant. -/
theorem JS.forFrom_inv (body : Nat → JS σ Unit) (P : Nat → σ → Prop) :
    ∀ (n i : Nat) (s : σ),
      (∀ j t, i ≤ j → j < i + n → P j t → ∃ t1, body j t = (Except.ok (), t1) ∧ P (j + 1) t1) →
      P i s → ∃ s1, JS.forFrom body n i s = (Except.ok (), s1) ∧ P (i + n) s1 := by
  intro n
  induction n with
  | zero =>
    intro i s _ hs
    exact ⟨s, rfl, by simpa using hs⟩
  | succ n ih =>
    intro i s hbody hs
    obtain ⟨t1, h1, hP1⟩ := hbody i s (Nat.le_refl i) (by omega) hs
    obtain ⟨s1, h2, hP2⟩ := ih (i + 1) t1
      (fun j t hij hjn hP => hbody j t (by omega) (by omega) hP) hP1
    refine ⟨s1, ?_, ?_⟩
    · show (match body i s with
        | (Except.ok _, s1) => JS.forFrom body n (i + 1) s1
        | (Except.error e, s1) => (Except.error e, s1)) = _
      rw [h1]
      exact h2
    · have : i + (n + 1) = i + 1 + n := by omega
      rw [this]
      exact hP2

theorem JS.forRange_inv (body : Nat → JS σ Unit) (P : Nat → σ → Prop) (n : Nat) (s : σ)
    (hbody : ∀ j t, j < n → P j t → ∃ t1, body j t = (Except.ok (), t1) ∧ P (j + 1) t1)
    (hs : P 0 s) : ∃ s1, JS.forRange n body s = (Except.ok (), s1) ∧ P n s1 := by
  have := JS.forFrom_inv body P n 0 s (fun j t _ hj hP => hbody j t (by omega) hP) hs
  simpa [JS.forRange] using this

/-- A loop with a local variable whose body keeps an invariant and never throws. -/
theorem JS.foldFrom_inv (body : Nat → β → JS σ β) (P : Nat → β → σ → Prop) :
    ∀ (n i : Nat) (acc : β) (s : σ),
      (∀ j b t, i ≤ j → j < i + n → P j b t →
        ∃ b1 t1, body j b t = (Except.ok b1, t1) ∧ P (j + 1) b1 t1) →
      P i acc s → ∃ b1 s1, JS.foldFrom body n i acc s = (Except.ok b1, s1) ∧ P (i + n) b1 s1 := by
  intro n
  induction n with
  | zero =>
    intro i acc s _ hs
    exact ⟨acc, s, rfl, by simpa using hs⟩
  | succ n ih =>
    intro i acc s hbody hs
    obtain ⟨b1, t1, h1, hP1⟩ := hbody i acc s (Nat.le_refl i) (by omega) hs
    obtain ⟨b2, s1, h2, hP2⟩ := ih (i + 1) b1 t1
      (fun j b t hij hjn hP => hbody j b t (by omega) (by omega) hP) hP1
    refine ⟨b2, s1, ?_, ?_⟩
    · show (match body i acc s with
        | (Except.ok acc1, s1) => JS.foldFrom body n (i + 1) acc1 s1
        | (Except.error e, s1) => (Except.error e, s1)) = _
      rw [h1]
      exact h2
    · have : i + (n + 1) = i + 1 + n := by omega
      rw [this]
      exact hP2

theorem JS.forRangeFold_inv (body : Nat → β → JS σ β) (P : Nat → β → σ → Prop) (n : Nat)
    (init : β) (s : σ)
    (hbody : ∀ j b t, j < n → P j b t →
      ∃ b1 t1, body j b t = (Except.ok b1, t1) ∧ P (j + 1) b1 t1)
    (hs : P 0 init s) :
    ∃ b1 s1, JS.forRangeFold n init body s = (Except.ok b1, s1) ∧ P n b1 s1 := by
  have := JS.foldFrom_inv body P n 0 init s (fun j b t _ hj hP => hbody j b t (by omega) hP) hs
  simpa [JS.forRangeFold] using this

/-- A loop with a local variable whose body keeps an invariant of that variable, never throws
and never changes the state: the value it ends with is the same in every state. -/
theorem JS.foldFrom_stateless (body : Nat → β → JS σ β) (Q : Nat → β → Prop) :
    ∀ (n i : Nat) (acc : β),
      (∀ j b, i ≤ j → j < i + n → Q j b →
        ∃ b1, Q (j + 1) b1 ∧ ∀ s, body j b s = (Except.ok b1, s)) →
      Q i acc → ∃ b1, Q (i + n) b1 ∧ ∀ s, JS.foldFrom body n i acc s = (Except.ok b1, s) := by
  intro n
  induction n with
  | zero =>
    intro i acc _ hs
    exact ⟨acc, by simpa using hs, fun _ => rfl⟩
  | succ n ih =>
    intro i acc hbody hs
    obtain ⟨b1, hQ1, h1⟩ := hbody i acc (Nat.le_refl i) (by omega) hs
    obtain ⟨b2, hQ2, h2⟩ := ih (i + 1) b1
      (fun j b hij hjn hQ => hbody j b (by omega) (by omega) hQ) hQ1
    refine ⟨b2, ?_, fun s => ?_⟩
    · have : i + (n + 1) = i + 1 + n := by omega
      rw [this]
      exact hQ2
    · show (match body i acc s with
        | (Except.ok acc1, s1) => JS.foldFrom body n (i + 1) acc1 s1
        | (Except.error e, s1) => (Except.error e, s1)) = _
      rw [h1 s]
      exact h2 s

theorem JS.forRangeFold_stateless (body : Nat → β → JS σ β) (Q : Nat → β → Prop) (n : Nat)
    (init : β)
    (hbody : ∀ j b, j < n → Q j b → ∃ b1, Q (j + 1) b1 ∧ ∀ s, body j b s = (Except.ok b1, s))
    (hs : Q 0 init) :
    ∃ b1, Q n b1 ∧ ∀ s, JS.forRangeFold n init body s = (Except.ok b1, s) := by
  have := JS.foldFrom_stateless body Q n 0 init (fun j b _ hj hQ => hbody j b (by omega) hQ) hs
  simpa [JS.forRangeFold] using this

theorem JS.forRange_two (body : Nat → JS σ Unit) (s s1 s2 : σ)
    (h1 : body 0 s = (Except.ok (), s1)) (h2 : body 1 s1 = (Except.ok (), s2)) :
    JS.forRange 2 body s = (Except.ok (), s2) := by
  simp [JS.forRange, JS.forFrom, h1, h2, JS.pure]

end Computations

/-! ## Buffer contents -/

section Buffers

variable {Num : Type}

theorem writeInto_length (buffer : GPUBuffer) (old data : List Num) (bufferOffset : Nat) :
    (writeInto buffer old bufferOffset data).length = old.length := by
  unfold writeInto
  split
  · rename_i h
    simp only [List.length_append, List.length_take, List.length_drop]
    omega
  · rfl

theorem writeInto_getElem? (buffer : GPUBuffer) (old data : List Num) (a m : Nat)
    (hsize : 4 * a + 4 * data.length ≤ buffer.size) (hold : a + data.length ≤ old.length) :
    (writeInto buffer old (4 * a) data)[m]? =
      if a ≤ m ∧ m < a + data.length then data[m - a]? else old[m]? := by
  unfold writeInto
  have h4 : 4 * a / 4 = a := by omega
  rw [if_pos ⟨by omega, hsize, by omega⟩, h4]
  by_cases h1 : m < a
  · rw [if_neg (by omega), List.append_assoc, List.getElem?_append_left (by simp; omega)]
    simp [List.getElem?_take, h1]
  · by_cases h2 : m < a + data.length
    · rw [if_pos ⟨by omega, h2⟩, List.append_assoc,
        List.getElem?_append_right (by simp; omega),
        List.getElem?_append_left (by simp; omega)]
      simp
      congr 1
      omega
    · rw [if_neg (by omega), List.append_assoc,
        List.getElem?_append_right (by simp; omega),
        List.getElem?_append_right (by simp; omega)]
      simp
      congr 1
      omega

end Buffers

section AnimometerFrame

variable {Num : Type} [JSNumber Num]

theorem AnimometerSample.frameImpl.writeShaderData_ok (c : Ctx Num (AnimometerSample Num))
    (i : Nat) (dev : Handle) (u : GPUBuffer) (d : ShaderData Num)
    (hdev : c.self.device = some dev) (hubo : c.self.ubo = some u)
    (hd : c.self.shaderData[i]? = some d) :
    AnimometerSample.frameImpl.writeShaderData i c = (Except.ok (),
      { c with world := { c.world with
          writes := c.world.writes ++ [⟨u.id, i * 256, 256⟩]
          bufferData := Function.update c.world.bufferData u.id
            (writeInto u (c.world.bufferData u.id) (i * 256) d.toFloat32Array.elems) } }) := by
  simp [AnimometerSample.frameImpl.writeShaderData, JS.bind_apply, JS.bind, getSelf, JS.deref,
    hd, hdev, hubo, queueWriteBuffer, modifyWorld, JS.pure, Float32Array.byteLength,
    ShaderData.toFloat32Array_length]

/-- The write loop of `frameImpl`, for any number `n` of elements that `shaderData` has and the
buffer holds. -/
theorem AnimometerSample.frameImpl.upload (c : Ctx Num (AnimometerSample Num)) (n : Nat)
    (dev : Handle) (u : GPUBuffer)
    (hdev : c.self.device = some dev) (hubo : c.self.ubo = some u)
    (hsize : n * 256 ≤ u.size) (hlen : n * 64 ≤ (c.world.bufferData u.id).length)
    (hsd : n ≤ c.self.shaderData.length) :
    ∃ bd : Handle → List Num,
      JS.forRange n AnimometerSample.frameImpl.writeShaderData c = (Except.ok (),
        { c with world := { c.world with
            writes := c.world.writes ++ (List.range n).map fun i => ⟨u.id, i * 256, 256⟩
            bufferData := bd } }) ∧
      (bd u.id).length = (c.world.bufferData u.id).length ∧
      (∀ h, h ≠ u.id → bd h = c.world.bufferData h) ∧
      (∀ m, n * 64 ≤ m → (bd u.id)[m]? = (c.world.bufferData u.id)[m]?) ∧
      ∀ i k d, i < n → c.self.shaderData[i]? = some d → k < 64 →
        (bd u.id)[64 * i + k]? = d.toFloat32Array.elems[k]? := by
  have key := JS.forRange_inv AnimometerSample.frameImpl.writeShaderData
    (fun j s => ∃ bd : Handle → List Num,
      s = { c with world := { c.world with
            writes := c.world.writes ++ (List.range j).map fun i => ⟨u.id, i * 256, 256⟩
            bufferData := bd } } ∧
      (bd u.id).length = (c.world.bufferData u.id).length ∧
      (∀ h, h ≠ u.id → bd h = c.world.bufferData h) ∧
      (∀ m, j * 64 ≤ m → (bd u.id)[m]? = (c.world.bufferData u.id)[m]?) ∧
      ∀ i k d, i < j → c.self.shaderData[i]? = some d → k < 64 →
        (bd u.id)[64 * i + k]? = d.toFloat32Array.elems[k]?)
    n c ?_ ?_
  · obtain ⟨s1, h1, bd, rfl, hbd⟩ := key
    exact ⟨bd, h1, hbd⟩
  · rintro j t hj ⟨bd, rfl, hl, hother, hrest, hdone⟩
    obtain ⟨d, hd⟩ : ∃ d, c.self.shaderData[j]? = some d :=
      ⟨c.self.shaderData[j], List.getElem?_eq_getElem (by omega)⟩
    refine ⟨_, AnimometerSample.frameImpl.writeShaderData_ok _ j dev u d hdev hubo hd, ?_⟩
    have hwrite : ∀ m, (writeInto u (bd u.id) (j * 256) d.toFloat32Array.elems)[m]? =
        if 64 * j ≤ m ∧ m < 64 * j + 64 then d.toFloat32Array.elems[m - 64 * j]?
        else (bd u.id)[m]? := by
      intro m
      have := writeInto_getElem? u (bd u.id) d.toFloat32Array.elems (64 * j) m
        (by rw [ShaderData.toFloat32Array_length]; omega)
        (by rw [ShaderData.toFloat32Array_length]; omega)
      rw [ShaderData.toFloat32Array_length] at this
      have e : j * 256 = 4 * (64 * j) := by omega
      rw [e]
      exact this
    refine ⟨Function.update bd u.id
      (writeInto u (bd u.id) (j * 256) d.toFloat32Array.elems), ?_, ?_, ?_, ?_, ?_⟩
    · simp [List.range_succ]
    · simp [writeInto_length, hl]
    · intro h hne
      simp [Function.update_noteq hne, hother h hne]
    · intro m hm
      simp only [Function.update_same]
      rw [hwrite, if_neg (by omega)]
      exact hrest m (by omega)
    · intro i k d1 hi hd1 hk
      simp only [Function.update_same]
      rw [hwrite]
      by_cases hij : i = j
      · subst hij
        rw [if_pos ⟨by omega, by omega⟩]
        rw [hd] at hd1
        cases hd1
        congr 1
        omega
      · rw [if_neg (by omega)]
        exact hdone i k d1 (by omega) hd1 hk
  · exact ⟨c.world.bufferData, by simp, rfl, fun _ _ => rfl, fun _ _ => rfl,
      fun i k d hi => absurd hi (by omega)⟩

omit [JSNumber Num] in
theorem AnimometerSample.frameImpl.drawTriangles (c : Ctx Num (AnimometerSample Num)) (n : Nat) :
    JS.forRange n AnimometerSample.frameImpl.drawTriangle c = (Except.ok (),
      { c with world := { c.world with
          encoder := c.world.encoder ++ (List.range n).flatMap fun i =>
            [Command.setBindGroup 0 c.self.bindGroup [i * 256], Command.draw 3 1] } }) := by
  have key := JS.forRange_inv AnimometerSample.frameImpl.drawTriangle
    (fun j s => s = { c with world := { c.world with
          encoder := c.world.encoder ++ (List.range j).flatMap fun i =>
            [Command.setBindGroup 0 c.self.bindGroup [i * 256], Command.draw 3 1] } })
    n c ?_ ?_
  · obtain ⟨s1, h1, rfl⟩ := key
    exact h1
  · rintro j t hj rfl
    refine ⟨_, rfl, ?_⟩
    simp [List.range_succ, List.flatMap_append]
  · simp

omit [JSNumber Num] in
theorem AnimometerSample.frameImpl.renderOf_ok (n : Nat) (c : Ctx Num (AnimometerSample Num))
    (dev ctx : Handle) (p : GPURenderPipeline)
    (hdev : c.self.device = some dev) (hctx : c.self.context = some ctx)
    (hp : c.self.pipeline = some p) :
    AnimometerSample.frameImpl.renderOf n c = (Except.ok (),
      { c with world := { c.world with
          nextId := c.world.nextId + 2
          encoder := AnimometerSample.frameCommands (c.world.nextId + 1) p c.self.bindGroup n
          submitted := c.world.submitted ++
            [AnimometerSample.frameCommands (c.world.nextId + 1) p c.self.bindGroup n] } }) := by
  simp [AnimometerSample.frameImpl.renderOf, JS.bind_apply, JS.bind, getSelf, currentTextureView,
    hctx, JS.deref, freshId, createCommandEncoder, hdev, record, modifyWorld, hp,
    AnimometerSample.frameImpl.drawTriangles, finish, queueSubmit, JS.pure,
    AnimometerSample.frameCommands]

theorem AnimometerSample.frameImpl.reportFPS_ok (c : Ctx Num (AnimometerSample Num)) :
    AnimometerSample.frameImpl.reportFPS c = (Except.ok (),
      if c.self.frameCountForFPS % 60 = 0 then
        { world := { c.world with
            clockCalls := c.world.clockCalls + 1
            console := c.world.console ++ [ConsoleEntry.logNumber "FPS: "
              (JSNumber.div (JSNumber.ofRat 60)
                (JSNumber.div (JSNumber.sub (c.world.clock c.world.clockCalls) c.self.lastTime)
                  (JSNumber.ofRat 1000)))] }
          self := { c.self with
            lastTime := c.world.clock c.world.clockCalls
            frameCountForFPS := 0 } }
      else c) := by
  by_cases h : c.self.frameCountForFPS % 60 = 0
  · simp [AnimometerSample.frameImpl.reportFPS, JS.bind_apply, JS.bind, getSelf, h,
      performanceNow, consoleLogNumber, modifyWorld, modifySelf]
  · simp [AnimometerSample.frameImpl.reportFPS, JS.bind_apply, JS.bind, getSelf, h,
      JS.pure_apply]

theorem AnimometerSample.frameImpl.updateTime_ok (c : Ctx Num (AnimometerSample Num)) :
    AnimometerSample.frameImpl.updateTime c = (Except.ok (),
      { c with self := { c.self with
          frameCount := c.self.frameCount + 1
          frameCountForFPS := c.self.frameCountForFPS + 1
          shaderData := c.self.shaderData.map fun d =>
            { d with time :=
                JSNumber.div (JSNumber.ofNat (c.self.frameCount + 1)) (JSNumber.ofRat 60) } } }) :=
  rfl

/-- A frame of Animometer.js in a state that is set up: it ends normally, and the state it
leaves is the one given. -/
theorem AnimometerSample.frameImplOf_ready (n : Nat) (c : Ctx Num (AnimometerSample Num))
    (h : AnimometerSample.Ready n c) :
    ∃ (bd : Handle → List Num) (u : GPUBuffer) (p : GPURenderPipeline),
      c.self.ubo = some u ∧ c.self.pipeline = some p ∧
      AnimometerSample.frameImplOf n c = (Except.ok (),
        { world := { c.world with
            nextId := c.world.nextId + 2
            writes := c.world.writes ++ (List.range n).map fun i => ⟨u.id, i * 256, 256⟩
            bufferData := bd
            encoder := AnimometerSample.frameCommands (c.world.nextId + 1) p c.self.bindGroup n
            submitted := c.world.submitted ++
              [AnimometerSample.frameCommands (c.world.nextId + 1) p c.self.bindGroup n]
            clockCalls :=
              if (c.self.frameCountForFPS + 1) % 60 = 0 then c.world.clockCalls + 1
              else c.world.clockCalls
            console :=
              if (c.self.frameCountForFPS + 1) % 60 = 0 then
                c.world.console ++ [ConsoleEntry.logNumber "FPS: "
                  (JSNumber.div (JSNumber.ofRat 60)
                    (JSNumber.div
                      (JSNumber.sub (c.world.clock c.world.clockCalls) c.self.lastTime)
                      (JSNumber.ofRat 1000)))]
              else c.world.console }
          self := { c.self with
            frameCount := c.self.frameCount + 1
            frameCountForFPS :=
              if (c.self.frameCountForFPS + 1) % 60 = 0 then 0 else c.self.frameCountForFPS + 1
            lastTime :=
              if (c.self.frameCountForFPS + 1) % 60 = 0 then c.world.clock c.world.clockCalls
              else c.self.lastTime
            shaderData := c.self.shaderData.map fun d =>
              { d with time :=
                  JSNumber.div (JSNumber.ofNat (c.self.frameCount + 1)) (JSNumber.ofRat 60) } } })
      ∧ (bd u.id).length = n * 64
      ∧ (∀ h, h ≠ u.id → bd h = c.world.bufferData h)
      ∧ ∀ i k d, c.self.shaderData[i]? = some d → k < 64 →
          (bd u.id)[64 * i + k]? =
            ({ d with time :=
                JSNumber.div (JSNumber.ofNat (c.self.frameCount + 1)) (JSNumber.ofRat 60) }
              : ShaderData Num).toFloat32Array.elems[k]? := by
  obtain ⟨hdev, hctx, hp, hsd, u, hubo, hsize, hlen⟩ := h
  obtain ⟨dev, hdev⟩ := Option.isSome_iff_exists.mp hdev
  obtain ⟨ctx, hctx⟩ := Option.isSome_iff_exists.mp hctx
  obtain ⟨p, hp⟩ := Option.isSome_iff_exists.mp hp
  have h1 := AnimometerSample.frameImpl.updateTime_ok c
  obtain ⟨bd, h2, hbdlen, hbdother, -, hbd⟩ := AnimometerSample.frameImpl.upload
    { c with self := { c.self with
          frameCount := c.self.frameCount + 1
          frameCountForFPS := c.self.frameCountForFPS + 1
          shaderData := c.self.shaderData.map fun d =>
            { d with time :=
                JSNumber.div (JSNumber.ofNat (c.self.frameCount + 1)) (JSNumber.ofRat 60) } } }
    n dev u hdev hubo (by omega) (by simp only; omega) (by simp [hsd])
  have h3 := AnimometerSample.frameImpl.renderOf_ok n
    { c with
      world := { c.world with
        writes := c.world.writes ++ (List.range n).map fun i => ⟨u.id, i * 256, 256⟩
        bufferData := bd }
      self := { c.self with
          frameCount := c.self.frameCount + 1
          frameCountForFPS := c.self.frameCountForFPS + 1
          shaderData := c.self.shaderData.map fun d =>
            { d with time :=
                JSNumber.div (JSNumber.ofNat (c.self.frameCount + 1)) (JSNumber.ofRat 60) } } }
    dev ctx p hdev hctx hp
  refine ⟨bd, u, p, hubo, hp, ?_, ?_, hbdother, ?_⟩
  · unfold AnimometerSample.frameImplOf
    rw [JS.bind_ok h1, JS.bind_ok h2, JS.bind_ok h3, AnimometerSample.frameImpl.reportFPS_ok]
    by_cases hfps : (c.self.frameCountForFPS + 1) % 60 = 0
    · simp [hfps]
    · simp [hfps]
  · rw [hbdlen]
    exact hlen
  · intro i k d hd hk
    have hi : i < n := by
      have := (List.getElem?_eq_some.mp hd).1
      omega
    exact hbd i k _ hi (by simp [List.getElem?_map, hd]) hk

end AnimometerFrame

section AnimometerSetup

variable {Num : Type} [JSNumber Num]

theorem AnimometerSample.setupImpl.pushShaderData_ok (c : Ctx Num (AnimometerSample Num))
    (i : Nat) :
    AnimometerSample.setupImpl.pushShaderData i c = (Except.ok (),
      { world := { c.world with randomCalls := c.world.randomCalls + 5 }
        self := { c.self with
          shaderData := c.self.shaderData ++
            [AnimometerSample.initialShaderData c.world.random c.world.randomCalls] } }) :=
  rfl

theorem AnimometerSample.setupImpl.pushAllShaderData (c : Ctx Num (AnimometerSample Num)) (n : Nat) :
    JS.forRange n AnimometerSample.setupImpl.pushShaderData c = (Except.ok (),
      { world := { c.world with randomCalls := c.world.randomCalls + 5 * n }
        self := { c.self with
          shaderData := c.self.shaderData ++ (List.range n).map fun i =>
            AnimometerSample.initialShaderData c.world.random (c.world.randomCalls + 5 * i) } })
    := by
  have key := JS.forRange_inv AnimometerSample.setupImpl.pushShaderData
    (fun j s => s =
      { world := { c.world with randomCalls := c.world.randomCalls + 5 * j }
        self := { c.self with
          shaderData := c.self.shaderData ++ (List.range j).map fun i =>
            AnimometerSample.initialShaderData c.world.random (c.world.randomCalls + 5 * i) } })
    n c ?_ ?_
  · obtain ⟨s1, h1, rfl⟩ := key
    exact h1
  · rintro j t hj rfl
    refine ⟨_, AnimometerSample.setupImpl.pushShaderData_ok _ j, ?_⟩
    simp [List.range_succ, Nat.mul_add, Nat.add_assoc]
  · simp

/-- The method `setupImpl` of Animometer.js on a sample that has a device: it ends normally and
leaves the state given. -/
theorem AnimometerSample.setupImplOf_ok (n : Nat) (c : Ctx Num (AnimometerSample Num))
    (dev : Handle) (hdev : c.self.device = some dev) :
    AnimometerSample.setupImplOf n c = (Except.ok true,
      { world := { c.world with
          nextId := c.world.nextId + 7
          randomCalls := c.world.randomCalls + 5 * n
          clockCalls := c.world.clockCalls + 1
          bufferData := Function.update c.world.bufferData (c.world.nextId + 5)
            (List.replicate (n * 256 / 4) (JSNumber.ofRat 0)) }
        self := { c.self with
          pipeline := some
            { id := c.world.nextId + 4
              layout := some ⟨c.world.nextId + 3,
                [⟨c.world.nextId + 2, [⟨0, GPUShaderStage.VERTEX, "uniform", true⟩]⟩]⟩
              vertexModule := ⟨c.world.nextId, ShaderSource.animometerVertex⟩
              vertexEntryPoint := "main"
              buffers := []
              fragmentModule := ⟨c.world.nextId + 1, ShaderSource.animometerFragment⟩
              fragmentEntryPoint := "main"
              targetFormat := c.self.preferredFormat
              topology := "triangle-list" }
          shaderData := (List.range n).map fun i =>
            AnimometerSample.initialShaderData c.world.random (c.world.randomCalls + 5 * i)
          ubo := some ⟨c.world.nextId + 5, n * 256,
            GPUBufferUsage.COPY_DST ||| GPUBufferUsage.UNIFORM⟩
          bindGroup := some
            { id := c.world.nextId + 6
              layout := ⟨c.world.nextId + 2, [⟨0, GPUShaderStage.VERTEX, "uniform", true⟩]⟩
              entries := [⟨0, ⟨c.world.nextId + 5, n * 256,
                GPUBufferUsage.COPY_DST ||| GPUBufferUsage.UNIFORM⟩, 0, some 256⟩] }
          lastTime := c.world.clock c.world.clockCalls
          frameCountForFPS := 0 } }) := by
  simp [AnimometerSample.setupImplOf, JS.bind_apply, JS.bind, getSelf, hdev, JS.deref,
    createShaderModule, createBindGroupLayout, createPipelineLayout, createRenderPipeline,
    createBuffer, createBindGroup, freshId, modifySelf, modifyWorld, performanceNow, JS.pure,
    AnimometerSample.setupImpl.pushAllShaderData, JS.pure_apply]

end AnimometerSetup

section RunAndMain

variable {Num S : Type}

/-- The first check of `run`: without `navigator.gpu` it throws and changes nothing, whatever
`setupImpl` and `frameImpl` are. -/
theorem SampleClass.run_no_gpu [SampleClass S] (setupImpl : JS (Ctx Num S) Bool)
    (frameImpl : JS (Ctx Num S) Unit) (c : Ctx Num S) (hgpu : c.world.gpu = false) :
    SampleClass.run setupImpl frameImpl c =
      (Except.error (JSError.error "WebGPU not supported"), c) := by
  simp [SampleClass.run, SampleClass.start, JS.bind_apply, JS.bind, getWorld, hgpu, JS.throw]

/-- The second check of `run`: without an adapter it throws and changes nothing, whatever
`setupImpl` and `frameImpl` are. -/
theorem SampleClass.run_no_adapter [SampleClass S] (setupImpl : JS (Ctx Num S) Bool)
    (frameImpl : JS (Ctx Num S) Unit) (c : Ctx Num S) (hgpu : c.world.gpu = true)
    (hadapter : c.world.adapter = none) :
    SampleClass.run setupImpl frameImpl c =
      (Except.error (JSError.error "No WebGPU adapter found"), c) := by
  simp [SampleClass.run, SampleClass.start, JS.bind_apply, JS.bind, getWorld, hgpu, hadapter,
    JS.throw, JS.pure_apply]

/-- The part of `run` before `setupImpl` on a platform that has everything. -/
theorem SampleClass.start_ok [SampleClass S] (c : Ctx Num S) (adapter dev ctx : Handle)
    (hgpu : c.world.gpu = true) (hadapter : c.world.adapter = some adapter)
    (hdev : c.world.requestDevice = some dev) (hctx : c.world.webgpuContext = some ctx) :
    SampleClass.start c = (Except.ok (),
      { world := { c.world with
          nextId := c.world.nextId + 1
          body := c.world.body ++ [⟨c.world.nextId, 640, 480⟩]
          configured := c.world.configured ++
            [⟨ctx, dev, c.world.preferredCanvasFormat, "opaque"⟩] }
        self := SampleClass.withBase c.self
          ⟨some dev, some ctx, some ⟨c.world.nextId, 640, 480⟩,
            some c.world.preferredCanvasFormat⟩ }) := by
  simp [SampleClass.start, JS.bind_apply, JS.bind, getWorld, hgpu, hadapter, hdev, hctx,
    JS.throw, JS.pure_apply, requestDevice, modifySelf, createCanvas, freshId, appendToBody,
    getSelf, JS.deref, JS.pure, modifyWorld, configure, SampleClass.base_withBase,
    SampleClass.withBase_withBase]

/-- The function `main` without `navigator.gpu`: it logs the error and returns 1; the local
variable `sample` is not assigned. -/
theorem sampleMain_no_gpu (construct : S) (run : JS (Ctx Num S) Unit) (started failed : String)
    (c : Ctx Num (Option S)) (hgpu : c.world.gpu = false) :
    sampleMain construct run started failed c = (Except.ok 1,
      { c with world := { c.world with
          console := c.world.console ++ [ConsoleEntry.error "WebGPU not supported"] } }) := by
  simp [sampleMain, JS.bind_apply, JS.bind, getWorld, hgpu, consoleError, modifyWorld,
    JS.pure_apply]

/-- The function `main` with `navigator.gpu`, when `run` ends normally: it returns 0. -/
theorem sampleMain_run_ok (construct : S) (run : JS (Ctx Num S) Unit) (started failed : String)
    (c : Ctx Num (Option S)) (c1 : Ctx Num S) (hgpu : c.world.gpu = true)
    (hrun : run ⟨c.world, construct⟩ = (Except.ok (), c1)) :
    sampleMain construct run started failed c = (Except.ok 0,
      { world := { c1.world with console := c1.world.console ++ [ConsoleEntry.log started] }
        self := some c1.self }) := by
  simp [sampleMain, JS.bind_apply, JS.bind, getWorld, hgpu, JS.tryCatch, modifySelf, onSample,
    hrun, consoleLog, modifyWorld, JS.pure_apply]

/-- The function `main` with `navigator.gpu`, when `run` throws: it logs the exception and
returns 1. -/
theorem sampleMain_run_throws (construct : S) (run : JS (Ctx Num S) Unit)
    (started failed : String) (c : Ctx Num (Option S)) (c1 : Ctx Num S) (e : JSError)
    (hgpu : c.world.gpu = true) (hrun : run ⟨c.world, construct⟩ = (Except.error e, c1)) :
    sampleMain construct run started failed c = (Except.ok 1,
      { world := { c1.world with
          console := c1.world.console ++ [ConsoleEntry.errorWith failed e] }
        self := some c1.self }) := by
  simp [sampleMain, JS.bind_apply, JS.bind, getWorld, hgpu, JS.tryCatch, modifySelf, onSample,
    hrun, consoleErrorWith, modifyWorld, JS.pure_apply]

/-- The exit code of `main`: 1 without `navigator.gpu`, else 0 exactly when `run` ends normally
and 1 exactly when it throws; `main` itself never throws. -/
theorem sampleMain_exit (construct : S) (run : JS (Ctx Num S) Unit) (started failed : String)
    (c : Ctx Num (Option S)) :
    (c.world.gpu = false →
      (sampleMain construct run started failed c).1 = Except.ok 1 ∧
      (sampleMain construct run started failed c).2.self = c.self) ∧
    (c.world.gpu = true →
      ((sampleMain construct run started failed c).1 = Except.ok 0 ↔
        (run ⟨c.world, construct⟩).1 = Except.ok ()) ∧
      ((sampleMain construct run started failed c).1 = Except.ok 1 ↔
        ∃ e, (run ⟨c.world, construct⟩).1 = Except.error e)) ∧
    ((sampleMain construct run started failed c).1 = Except.ok 0 ∨
      (sampleMain construct run started failed c).1 = Except.ok 1) := by
  cases hgpu : c.world.gpu with
  | false =>
    rw [sampleMain_no_gpu construct run started failed c hgpu]
    simp
  | true =>
    rcases hrun : run ⟨c.world, construct⟩ with ⟨r, c1⟩
    cases r with
    | ok u =>
      cases u
      rw [sampleMain_run_ok construct run started failed c c1 hgpu hrun]
      simp
    | error e =>
      rw [sampleMain_run_throws construct run started failed c c1 e hgpu hrun]
      simp

end RunAndMain

section Boids

variable {Num : Type} [JSNumber Num]

omit [JSNumber Num] in
theorem Float32Array.setArray_some (target source : Float32Array Num) (offset : Nat)
    (h : offset + source.elems.length ≤ target.elems.length) :
    ∃ packed, target.setArray source offset = some packed ∧
      packed.elems.length = target.elems.length ∧
      ∀ m, packed.elems[m]? =
        if offset ≤ m ∧ m < offset + source.elems.length then source.elems[m - offset]?
        else target.elems[m]? := by
  refine ⟨_, if_pos h, ?_, ?_⟩
  · simp only [List.length_append, List.length_take, List.length_drop]
    omega
  · intro m
    show (target.elems.take offset ++ source.elems ++
      target.elems.drop (offset + source.elems.length))[m]? = _
    by_cases h1 : m < offset
    · rw [if_neg (by omega), List.append_assoc, List.getElem?_append_left (by simp; omega)]
      simp [List.getElem?_take, h1]
    · by_cases h2 : m < offset + source.elems.length
      · rw [if_pos ⟨by omega, h2⟩, List.append_assoc,
          List.getElem?_append_right (by simp; omega),
          List.getElem?_append_left (by simp; omega)]
        simp
        congr 1
        omega
      · rw [if_neg (by omega), List.append_assoc,
          List.getElem?_append_right (by simp; omega),
          List.getElem?_append_right (by simp; omega)]
        simp
        congr 1
        omega

theorem Particle.packed_length (p : Particle Num) :
    p.toFloat32Array.elems.length = 4 := by
  simp [Particle.toFloat32Array, Float32Array.set, Float32Array.new]

theorem ComputeBoidsSample.initBuffers.pushParticle_ok (c : Ctx Num ComputeBoidsSample)
    (i : Nat) (ps : List (Particle Num)) :
    ComputeBoidsSample.initBuffers.pushParticle i ps c = (Except.ok
      (ps ++ [ComputeBoidsSample.initialParticle c.world.random c.world.randomCalls]),
      { c with world := { c.world with randomCalls := c.world.randomCalls + 4 } }) :=
  rfl

theorem ComputeBoidsSample.initBuffers.pushAllParticles (c : Ctx Num ComputeBoidsSample) (n : Nat) :
    JS.forRangeFold n [] ComputeBoidsSample.initBuffers.pushParticle c = (Except.ok
      ((List.range n).map fun i =>
        ComputeBoidsSample.initialParticle c.world.random (c.world.randomCalls + 4 * i)),
      { c with world := { c.world with randomCalls := c.world.randomCalls + 4 * n } }) := by
  have key := JS.forRangeFold_inv ComputeBoidsSample.initBuffers.pushParticle
    (fun j ps s =>
      ps = ((List.range j).map fun i =>
        ComputeBoidsSample.initialParticle c.world.random (c.world.randomCalls + 4 * i)) ∧
      s = { c with world := { c.world with randomCalls := c.world.randomCalls + 4 * j } })
    n [] c ?_ ?_
  · obtain ⟨ps, s1, h1, rfl, rfl⟩ := key
    exact h1
  · rintro j ps t hj ⟨rfl, rfl⟩
    refine ⟨_, _, ComputeBoidsSample.initBuffers.pushParticle_ok _ j _, ?_, ?_⟩
    · simp [List.range_succ]
    · simp [Nat.mul_add, Nat.add_assoc]
  · simp

/-- The packing loop of `initBuffers`: it ends normally, changes no state, and the array it
returns holds the four numbers of particle `i` from index `4 * i` on. -/
theorem ComputeBoidsSample.initBuffers.packAll (n : Nat) (ps : List (Particle Num))
    (hps : n ≤ ps.length) :
    ∃ particleData : Float32Array Num,
      (∀ c : Ctx Num ComputeBoidsSample,
        JS.forRangeFold n (Float32Array.new (n * 4))
          (ComputeBoidsSample.initBuffers.packParticle ps) c = (Except.ok particleData, c)) ∧
      particleData.elems.length = n * 4 ∧
      ∀ i k p, i < n → ps[i]? = some p → k < 4 →
        particleData.elems[4 * i + k]? = p.toFloat32Array.elems[k]? := by
  have key := JS.forRangeFold_stateless (σ := Ctx Num ComputeBoidsSample)
    (ComputeBoidsSample.initBuffers.packParticle ps)
    (fun j (data : Float32Array Num) => data.elems.length = n * 4 ∧
      ∀ i k p, i < j → ps[i]? = some p → k < 4 →
        data.elems[4 * i + k]? = p.toFloat32Array.elems[k]?)
    n (Float32Array.new (n * 4)) ?_ ?_
  · obtain ⟨data, ⟨hlen, hdata⟩, h1⟩ := key
    exact ⟨data, h1, hlen, hdata⟩
  · rintro j data hj ⟨hlen, hdone⟩
    obtain ⟨p, hp⟩ : ∃ p, ps[j]? = some p := ⟨ps[j], List.getElem?_eq_getElem (by omega)⟩
    obtain ⟨packed, hpacked, hplen, hget⟩ := Float32Array.setArray_some data p.toFloat32Array
      (j * 4) (by rw [Particle.packed_length]; omega)
    refine ⟨packed, ⟨by omega, ?_⟩, fun s => ?_⟩
    · intro i k q hi hq hk
      rw [hget, Particle.packed_length]
      by_cases hij : i = j
      · subst hij
        rw [if_pos ⟨by omega, by omega⟩]
        rw [hp] at hq
        cases hq
        congr 1
        omega
      · rw [if_neg (by omega)]
        exact hdone i k q (by omega) hq hk
    · simp [ComputeBoidsSample.initBuffers.packParticle, JS.bind_apply, JS.bind, hp, JS.deref,
        JS.pure, hpacked, JS.pure_apply]
  · exact ⟨by simp [Float32Array.new], fun i k p hi => absurd hi (by omega)⟩

end Boids

section Boids

variable {Num : Type} [JSNumber Num]

theorem ComputeBoidsSample.initBuffersOf_ok (n : Nat) (c : Ctx Num ComputeBoidsSample)
    (dev : Handle) (hdev : c.self.device = some dev) (hpb : c.self.particleBuffers = []) :
    ∃ (particleData : Float32Array Num) (bd : Handle → List Num),
      particleData.elems.length = n * 4 ∧
      (∀ i k, i < n → k < 4 → particleData.elems[4 * i + k]? =
        (ComputeBoidsSample.initialParticle c.world.random
          (c.world.randomCalls + 4 * i)).toFloat32Array.elems[k]?) ∧
      ComputeBoidsSample.initBuffersOf n c = (Except.ok (),
        { world := { c.world with
            nextId := c.world.nextId + 4
            randomCalls := c.world.randomCalls + 4 * n
            bufferData := bd }
          self := { c.self with
            modelBuffer := some ⟨c.world.nextId, 24,
              GPUBufferUsage.VERTEX ||| GPUBufferUsage.COPY_DST⟩
            particleBuffers :=
              [ some ⟨c.world.nextId + 1, 4 * (n * 4),
                  GPUBufferUsage.STORAGE ||| GPUBufferUsage.VERTEX ||| GPUBufferUsage.COPY_DST⟩,
                some ⟨c.world.nextId + 2, 4 * (n * 4),
                  GPUBufferUsage.STORAGE ||| GPUBufferUsage.VERTEX ||| GPUBufferUsage.COPY_DST⟩ ]
            updateParams := some ⟨c.world.nextId + 3, 32,
              GPUBufferUsage.UNIFORM ||| GPUBufferUsage.COPY_DST⟩ } }) := by
  obtain ⟨data, hfold, hlen, hdata⟩ := ComputeBoidsSample.initBuffers.packAll n
    ((List.range n).map fun i =>
      ComputeBoidsSample.initialParticle c.world.random (c.world.randomCalls + 4 * i))
    (by simp)
  refine ⟨data, (ComputeBoidsSample.initBuffersOf n c).2.world.bufferData, hlen, ?_, ?_⟩
  · intro i k hi hk
    exact hdata i k _ hi (by simp [List.getElem?_map, List.getElem?_range hi]) hk
  · simp only [ComputeBoidsSample.initBuffersOf, JS.bind_apply, JS.bind, getSelf, hdev, JS.deref,
      createBuffer, freshId, modifySelf, modifyWorld, JS.pure, fillMapped, JS.pure_apply,
      ComputeBoidsSample.initBuffers.pushAllParticles, hfold]
    simp [JS.forRange, JS.forFrom, JS.bind_apply, JS.bind, getSelf, hdev, JS.deref,
      createBuffer, freshId, modifySelf, modifyWorld, JS.pure, fillMapped, JS.pure_apply,
      ComputeBoidsSample.initBuffers.createParticleBuffer, hpb, arraySet, arrayGet,
      Float32Array.byteLength, hlen, Float32Array.ofList, SimParams.toFloat32Array,
      Float32Array.set, Float32Array.new]

omit [JSNumber Num] in
theorem ComputeBoidsSample.initRender_ok (c : Ctx Num ComputeBoidsSample) (dev : Handle)
    (hdev : c.self.device = some dev) :
    ComputeBoidsSample.initRender c = (Except.ok (),
      { world := { c.world with nextId := c.world.nextId + 3 }
        self := { c.self with
          renderPipeline := some
            { id := c.world.nextId + 2
              layout := none
              vertexModule := ⟨c.world.nextId, ShaderSource.boidsVertex⟩
              vertexEntryPoint := "main"
              buffers :=
                [ ⟨4 * 4, "instance", [⟨0, 0, "float32x2"⟩, ⟨1, 2 * 4, "float32x2"⟩]⟩,
                  ⟨2 * 4, "vertex", [⟨2, 0, "float32x2"⟩]⟩ ]
              fragmentModule := ⟨c.world.nextId + 1, ShaderSource.boidsFragment⟩
              fragmentEntryPoint := "main"
              targetFormat := c.self.preferredFormat
              topology := "triangle-list" } } }) := by
  simp [ComputeBoidsSample.initRender, JS.bind_apply, JS.bind, getSelf, hdev, JS.deref,
    createShaderModule, createRenderPipeline, freshId, modifySelf, JS.pure, JS.pure_apply]

omit [JSNumber Num] in
/-- The method `initSim` on a sample that has a device, the uniform buffer and the two particle
buffers, and no bind group yet. -/
theorem ComputeBoidsSample.initSim_ok (c : Ctx Num ComputeBoidsSample) (dev : Handle)
    (params a b : GPUBuffer)
    (hdev : c.self.device = some dev) (hparams : c.self.updateParams = some params)
    (hbuffers : c.self.particleBuffers = [some a, some b]) (hbgs : c.self.updateBGs = []) :
    ComputeBoidsSample.initSim c = (Except.ok (),
      { world := { c.world with nextId := c.world.nextId + 6 }
        self := { c.self with
          updatePipeline := some
            { id := c.world.nextId + 3
              layout := ⟨c.world.nextId + 2, [⟨c.world.nextId + 1,
                [ ⟨0, GPUShaderStage.COMPUTE, "uniform", false⟩,
                  ⟨1, GPUShaderStage.COMPUTE, "storage", false⟩,
                  ⟨2, GPUShaderStage.COMPUTE, "storage", false⟩ ]⟩]⟩
              module := ⟨c.world.nextId, ShaderSource.boidsCompute⟩
              entryPoint := "main" }
          updateBGs :=
            [ some
                { id := c.world.nextId + 4
                  layout := ⟨c.world.nextId + 1,
                    [ ⟨0, GPUShaderStage.COMPUTE, "uniform", false⟩,
                      ⟨1, GPUShaderStage.COMPUTE, "storage", false⟩,
                      ⟨2, GPUShaderStage.COMPUTE, "storage", false⟩ ]⟩
                  entries := [⟨0, params, 0, none⟩, ⟨1, a, 0, none⟩, ⟨2, b, 0, none⟩] },
              some
                { id := c.world.nextId + 5
                  layout := ⟨c.world.nextId + 1,
                    [ ⟨0, GPUShaderStage.COMPUTE, "uniform", false⟩,
                      ⟨1, GPUShaderStage.COMPUTE, "storage", false⟩,
                      ⟨2, GPUShaderStage.COMPUTE, "storage", false⟩ ]⟩
                  entries := [⟨0, params, 0, none⟩, ⟨1, b, 0, none⟩, ⟨2, a, 0, none⟩] } ] } }) := by
  simp [ComputeBoidsSample.initSim, JS.bind_apply, JS.bind, getSelf, hdev, JS.deref,
    createShaderModule, createBindGroupLayout, createPipelineLayout, createComputePipeline,
    createBindGroup, freshId, modifySelf, JS.pure, JS.pure_apply, JS.forRange, JS.forFrom,
    ComputeBoidsSample.initSim.createUpdateBG, hparams, hbuffers, hbgs, arrayGet, arraySet]

omit [JSNumber Num] in
theorem ComputeBoidsSample.createCommandBuffer_ok (c : Ctx Num ComputeBoidsSample)
    (dev : Handle) (up : GPUComputePipeline) (rp : GPURenderPipeline) (view i : Nat)
    (hdev : c.self.device = some dev) (hup : c.self.updatePipeline = some up)
    (hrp : c.self.renderPipeline = some rp) :
    ComputeBoidsSample.createCommandBuffer view i c = (Except.ok
      (ComputeBoidsSample.frameCommands c.self up rp view i),
      { c with world := { c.world with
          encoder := ComputeBoidsSample.frameCommands c.self up rp view i } }) := by
  simp [ComputeBoidsSample.createCommandBuffer, JS.bind_apply, JS.bind, getSelf, hdev, JS.deref,
    createCommandEncoder, record, modifyWorld, hup, hrp, JS.pure, finish,
    ComputeBoidsSample.frameCommands]

omit [JSNumber Num] in
/-- A frame of ComputeBoids.js on a sample that has a device, a context and the two pipelines. -/
theorem ComputeBoidsSample.frameImpl_ok (c : Ctx Num ComputeBoidsSample)
    (dev ctx : Handle) (up : GPUComputePipeline) (rp : GPURenderPipeline)
    (hdev : c.self.device = some dev) (hctx : c.self.context = some ctx)
    (hup : c.self.updatePipeline = some up) (hrp : c.self.renderPipeline = some rp) :
    ComputeBoidsSample.frameImpl c = (Except.ok (),
      { world := { c.world with
          nextId := c.world.nextId + 2
          encoder :=
            ComputeBoidsSample.frameCommands c.self up rp (c.world.nextId + 1) c.self.pingpong
          submitted := c.world.submitted ++
            [ComputeBoidsSample.frameCommands c.self up rp (c.world.nextId + 1) c.self.pingpong] }
        self := { c.self with pingpong := (c.self.pingpong + 1) % 2 } }) := by
  have h := ComputeBoidsSample.createCommandBuffer_ok
    (⟨{ c.world with nextId := c.world.nextId + 1 + 1 }, c.self⟩ : Ctx Num ComputeBoidsSample)
    dev up rp (c.world.nextId + 1) c.self.pingpong hdev hup hrp
  simp [ComputeBoidsSample.frameImpl, JS.bind_apply, JS.bind, getSelf, hdev, hctx, JS.deref,
    currentTextureView, freshId, JS.pure, h, queueSubmit, modifyWorld, modifySelf]

/-- The method `setupImpl` of ComputeBoids.js on a sample that has a device and whose arrays are
empty, as the constructor leaves them. -/
theorem ComputeBoidsSample.setupImpl_ok (c : Ctx Num ComputeBoidsSample) (dev : Handle)
    (hdev : c.self.device = some dev) (hpb : c.self.particleBuffers = [])
    (hbgs : c.self.updateBGs = []) :
    ∃ (bd : Handle → List Num) (up : GPUComputePipeline) (rp : GPURenderPipeline)
      (params a b : GPUBuffer) (layout : GPUBindGroupLayout),
      a.id = c.world.nextId + 1 ∧ b.id = c.world.nextId + 2 ∧
      ComputeBoidsSample.setupImpl c = (Except.ok true,
        { world := { c.world with
            nextId := c.world.nextId + 13
            randomCalls := c.world.randomCalls + 4 * kNumParticles
            bufferData := bd }
          self := { c.self with
            modelBuffer := some ⟨c.world.nextId, 24,
              GPUBufferUsage.VERTEX ||| GPUBufferUsage.COPY_DST⟩
            particleBuffers := [some a, some b]
            renderPipeline := some rp
            updateParams := some params
            updatePipeline := some up
            updateBGs :=
              [ some ⟨c.world.nextId + 11, layout,
                  [⟨0, params, 0, none⟩, ⟨1, a, 0, none⟩, ⟨2, b, 0, none⟩]⟩,
                some ⟨c.world.nextId + 12, layout,
                  [⟨0, params, 0, none⟩, ⟨1, b, 0, none⟩, ⟨2, a, 0, none⟩]⟩ ] } }) := by
  obtain ⟨data, bd, -, -, h1⟩ := ComputeBoidsSample.initBuffersOf_ok kNumParticles c dev hdev hpb
  refine ⟨bd,
    { id := c.world.nextId + 10
      layout := ⟨c.world.nextId + 9, [⟨c.world.nextId + 8,
        [ ⟨0, GPUShaderStage.COMPUTE, "uniform", false⟩,
          ⟨1, GPUShaderStage.COMPUTE, "storage", false⟩,
          ⟨2, GPUShaderStage.COMPUTE, "storage", false⟩ ]⟩]⟩
      module := ⟨c.world.nextId + 7, ShaderSource.boidsCompute⟩
      entryPoint := "main" },
    { id := c.world.nextId + 6
      layout := none
      vertexModule := ⟨c.world.nextId + 4, ShaderSource.boidsVertex⟩
      vertexEntryPoint := "main"
      buffers :=
        [ ⟨4 * 4, "instance", [⟨0, 0, "float32x2"⟩, ⟨1, 2 * 4, "float32x2"⟩]⟩,
          ⟨2 * 4, "vertex", [⟨2, 0, "float32x2"⟩]⟩ ]
      fragmentModule := ⟨c.world.nextId + 5, ShaderSource.boidsFragment⟩
      fragmentEntryPoint := "main"
      targetFormat := c.self.preferredFormat
      topology := "triangle-list" },
    ⟨c.world.nextId + 3, 32, GPUBufferUsage.UNIFORM ||| GPUBufferUsage.COPY_DST⟩,
    ⟨c.world.nextId + 1, 4 * (kNumParticles * 4),
      GPUBufferUsage.STORAGE ||| GPUBufferUsage.VERTEX ||| GPUBufferUsage.COPY_DST⟩,
    ⟨c.world.nextId + 2, 4 * (kNumParticles * 4),
      GPUBufferUsage.STORAGE ||| GPUBufferUsage.VERTEX ||| GPUBufferUsage.COPY_DST⟩,
    ⟨c.world.nextId + 8,
      [ ⟨0, GPUShaderStage.COMPUTE, "uniform", false⟩,
        ⟨1, GPUShaderStage.COMPUTE, "storage", false⟩,
        ⟨2, GPUShaderStage.COMPUTE, "storage", false⟩ ]⟩,
    rfl, rfl, ?_⟩
  have h2 := ComputeBoidsSample.initRender_ok (ComputeBoidsSample.initBuffersOf kNumParticles c).2
    dev (by rw [h1]; exact hdev)
  have h3 := ComputeBoidsSample.initSim_ok
    (ComputeBoidsSample.initRender (ComputeBoidsSample.initBuffersOf kNumParticles c).2).2
    dev _ _ _ (by rw [h2, h1]; exact hdev) (by rw [h2, h1]) (by rw [h2, h1])
    (by rw [h2, h1]; exact hbgs)
  unfold ComputeBoidsSample.setupImpl ComputeBoidsSample.initBuffers
  rw [JS.bind_of_eq (ComputeBoidsSample.initBuffersOf kNumParticles) _ c () (by rw [h1]),
    JS.bind_of_eq ComputeBoidsSample.initRender _ _ () (by rw [h2]),
    JS.bind_of_eq ComputeBoidsSample.initSim _ _ () (by rw [h3]), h3, h2, h1]
  simp [JS.pure_apply, Nat.add_assoc]

end Boids

section BoidsFrames

variable {Num : Type} [JSNumber Num]

omit [JSNumber Num] in
/-- The frames of ComputeBoids.js from a state that is set up and has `pingpong = 0`: they end
normally, `pingpong` alternates, and frame `k` submits the commands of index `k % 2`. -/
theorem ComputeBoidsSample.boids_frames_ok (c1 : Ctx Num ComputeBoidsSample)
    (dev ctx : Handle) (up : GPUComputePipeline) (rp : GPURenderPipeline)
    (hdev : c1.self.device = some dev) (hctx : c1.self.context = some ctx)
    (hup : c1.self.updatePipeline = some up) (hrp : c1.self.renderPipeline = some rp)
    (hpp : c1.self.pingpong = 0) (n : Nat) :
    ∃ s, JS.forRange n (fun _ => renderLoop ComputeBoidsSample.frameImpl) c1 = (Except.ok (), s) ∧
      s.self = { c1.self with pingpong := n % 2 } ∧
      s.world.nextId = c1.world.nextId + 2 * n ∧
      s.world.submitted = c1.world.submitted ++ (List.range n).map fun k =>
        ComputeBoidsSample.frameCommands c1.self up rp (c1.world.nextId + 2 * k + 1) (k % 2) := by
  have key := JS.forRange_inv (fun _ => renderLoop ComputeBoidsSample.frameImpl)
    (fun j (s : Ctx Num ComputeBoidsSample) =>
      s.self = { c1.self with pingpong := j % 2 } ∧
      s.world.nextId = c1.world.nextId + 2 * j ∧
      s.world.submitted = c1.world.submitted ++ (List.range j).map fun k =>
        ComputeBoidsSample.frameCommands c1.self up rp (c1.world.nextId + 2 * k + 1) (k % 2))
    n c1 ?_ ?_
  · exact key
  · rintro j t hj ⟨hself, hid, hsub⟩
    have hframe := ComputeBoidsSample.frameImpl_ok t dev ctx up rp
      (by rw [hself]; exact hdev) (by rw [hself]; exact hctx)
      (by rw [hself]; exact hup) (by rw [hself]; exact hrp)
    have hloop : renderLoop ComputeBoidsSample.frameImpl t =
        (Except.ok (), (renderLoop ComputeBoidsSample.frameImpl t).2) := by
      unfold renderLoop
      rw [JS.bind_ok hframe]
      rfl
    have hstate : (renderLoop ComputeBoidsSample.frameImpl t).2 =
        { world := { t.world with
            nextId := t.world.nextId + 2
            encoder :=
              ComputeBoidsSample.frameCommands t.self up rp (t.world.nextId + 1) t.self.pingpong
            submitted := t.world.submitted ++
              [ComputeBoidsSample.frameCommands t.self up rp (t.world.nextId + 1) t.self.pingpong]
            animationRequests := t.world.animationRequests + 1 }
          self := { t.self with pingpong := (t.self.pingpong + 1) % 2 } } := by
      unfold renderLoop
      rw [JS.bind_ok hframe]
      rfl
    refine ⟨_, hloop, ?_⟩
    rw [hstate]
    refine ⟨?_, ?_, ?_⟩
    · simp only [hself]
      congr 1
      omega
    · simp only [hid]
      omega
    · simp only [hsub, hid, hself, List.range_succ, List.map_append, List.map_cons,
        List.map_nil, List.append_assoc]
      rfl
  · refine ⟨?_, rfl, by simp⟩
    rcases c1 with ⟨w, t⟩
    cases t
    simp only at hpp
    subst hpp
    rfl

end BoidsFrames

section BoidsClaims

variable {Num : Type} [JSNumber Num]

/-- C2. After `setupImpl` of ComputeBoids.js on a sample that has a device and the empty arrays of
the constructor, for each `i` in `{0, 1}` the bind group `updateBGs[i]` built by `initSim` binds
`particleBuffers[i]` at binding 1 and `particleBuffers[(i + 1) % 2]` at binding 2, and these two
buffers are different objects. -/
theorem ComputeBoidsSample.updateBGs_read_and_write_distinct (c : Ctx Num ComputeBoidsSample)
    (dev : Handle) (hdev : c.self.device = some dev) (hpb : c.self.particleBuffers = [])
    (hbgs : c.self.updateBGs = []) :
    ∃ c1, ComputeBoidsSample.setupImpl c = (Except.ok true, c1) ∧
      c1.self.updateBGs.length = 2 ∧ c1.self.particleBuffers.length = 2 ∧
      ∀ i, i < 2 → ∃ bindGroup particlesA particlesB,
        arrayGet c1.self.updateBGs i = some bindGroup ∧
        arrayGet c1.self.particleBuffers i = some particlesA ∧
        arrayGet c1.self.particleBuffers ((i + 1) % 2) = some particlesB ∧
        bindGroup.bufferAt 1 = some particlesA ∧
        bindGroup.bufferAt 2 = some particlesB ∧
        particlesA.id ≠ particlesB.id ∧ particlesA ≠ particlesB := by
  obtain ⟨bd, up, rp, params, a, b, layout, ha, hb, h⟩ :=
    ComputeBoidsSample.setupImpl_ok c dev hdev hpb hbgs
  refine ⟨_, h, rfl, rfl, ?_⟩
  have hab : a.id ≠ b.id := by
    rw [ha, hb]
    exact Nat.ne_of_lt (Nat.lt_succ_self _)
  intro i hi
  match i, hi with
  | 0, _ =>
    exact ⟨_, a, b, rfl, rfl, rfl, rfl, rfl, hab, fun e => hab (congrArg GPUBuffer.id e)⟩
  | 1, _ =>
    exact ⟨_, b, a, rfl, rfl, rfl, rfl, rfl, fun e => hab e.symm,
      fun e => hab (congrArg GPUBuffer.id e).symm⟩

/-- The state of ComputeBoids.js after the part of `run` before the first frame, on a platform
that has everything. -/
theorem ComputeBoidsSample.boids_ready_after_setup (w : World Num) (adapter dev ctx : Handle)
    (hgpu : w.gpu = true) (hadapter : w.adapter = some adapter)
    (hdev : w.requestDevice = some dev) (hctx : w.webgpuContext = some ctx) :
    ∃ (c1 : Ctx Num ComputeBoidsSample) (up : GPUComputePipeline) (rp : GPURenderPipeline)
      (bg0 bg1 : GPUBindGroup),
      (SampleClass.start >>= fun _ => ComputeBoidsSample.setupImpl)
        ⟨w, ComputeBoidsSample.new⟩ = (Except.ok true, c1) ∧
      c1.self.device = some dev ∧ c1.self.context = some ctx ∧
      c1.self.updatePipeline = some up ∧ c1.self.renderPipeline = some rp ∧
      c1.self.pingpong = 0 ∧ c1.self.updateBGs = [some bg0, some bg1] ∧ bg0.id ≠ bg1.id ∧
      c1.world.submitted = w.submitted := by
  have h0 := SampleClass.start_ok (S := ComputeBoidsSample)
    ⟨w, ComputeBoidsSample.new⟩ adapter dev ctx hgpu hadapter hdev hctx
  obtain ⟨bd, up, rp, params, a, b, layout, ha, hb, h⟩ :=
    ComputeBoidsSample.setupImpl_ok (SampleClass.start (S := ComputeBoidsSample)
      ⟨w, ComputeBoidsSample.new⟩).2 dev (by rw [h0]; rfl) (by rw [h0]; rfl) (by rw [h0]; rfl)
  refine ⟨(ComputeBoidsSample.setupImpl (SampleClass.start (S := ComputeBoidsSample)
      ⟨w, ComputeBoidsSample.new⟩).2).2, up, rp,
    ⟨(SampleClass.start (S := ComputeBoidsSample) ⟨w, ComputeBoidsSample.new⟩).2.world.nextId + 11,
      layout, [⟨0, params, 0, none⟩, ⟨1, a, 0, none⟩, ⟨2, b, 0, none⟩]⟩,
    ⟨(SampleClass.start (S := ComputeBoidsSample) ⟨w, ComputeBoidsSample.new⟩).2.world.nextId + 12,
      layout, [⟨0, params, 0, none⟩, ⟨1, b, 0, none⟩, ⟨2, a, 0, none⟩]⟩, ?_, ?_⟩
  · rw [JS.bind_of_eq SampleClass.start _ _ () (by rw [h0]), h]
  · rw [h, h0]
    exact ⟨rfl, rfl, rfl, rfl, rfl, rfl, Nat.ne_of_lt (Nat.lt_succ_self _), rfl⟩

omit [JSNumber Num] in
theorem ComputeBoidsSample.frameCommands_ne (t : ComputeBoidsSample) (up : GPUComputePipeline)
    (rp : GPURenderPipeline) (view k : Nat) (bg0 bg1 : GPUBindGroup)
    (hbgs : t.updateBGs = [some bg0, some bg1]) (hne : bg0.id ≠ bg1.id) :
    ComputeBoidsSample.frameCommands t up rp view (k % 2) ≠
      ComputeBoidsSample.frameCommands t up rp view ((k + 1) % 2) := by
  have hbg : bg0 ≠ bg1 := fun e => hne (congrArg GPUBindGroup.id e)
  rcases Nat.mod_two_eq_zero_or_one k with h | h
  · have h1 : (k + 1) % 2 = 1 := by omega
    rw [h, h1]
    simp [ComputeBoidsSample.frameCommands, hbgs, arrayGet, hbg]
  · have h1 : (k + 1) % 2 = 0 := by omega
    rw [h, h1]
    simp [ComputeBoidsSample.frameCommands, hbgs, arrayGet, Ne.symm hbg]

/-- C1. On a platform that has everything, a freshly constructed `ComputeBoidsSample` is run and
`frameImpl` is called `n` times: all calls end normally, `pingpong` is `n % 2` after them and so
0 or 1, the `k`-th frame (from 0) submits the command buffer `createCommandBuffer` returns for
`i = k % 2` and not the one for the other index, and two further frames restore `pingpong`. -/
theorem ComputeBoidsSample.pingpong_after_frames (w : World Num) (adapter dev ctx : Handle)
    (hgpu : w.gpu = true) (hadapter : w.adapter = some adapter)
    (hdev : w.requestDevice = some dev) (hctx : w.webgpuContext = some ctx) (n : Nat) :
    ∃ c : Ctx Num ComputeBoidsSample,
      SampleClass.runFrames ComputeBoidsSample.setupImpl ComputeBoidsSample.frameImpl n
        ⟨w, ComputeBoidsSample.new⟩ = (Except.ok (), c) ∧
      (ComputeBoidsSample.new).pingpong = 0 ∧
      c.self.pingpong = n % 2 ∧
      (c.self.pingpong = 0 ∨ c.self.pingpong = 1) ∧
      c.world.submitted.length = w.submitted.length + n ∧
      (∀ k, k < n → ∃ view commands,
        c.world.submitted[w.submitted.length + k]? = some commands ∧
        (ComputeBoidsSample.createCommandBuffer view (k % 2) c).1 = Except.ok commands ∧
        (ComputeBoidsSample.createCommandBuffer view ((k + 1) % 2) c).1 ≠ Except.ok commands) ∧
      ∃ c2, JS.forRange 2 (fun _ => ComputeBoidsSample.frameImpl) c = (Except.ok (), c2) ∧
        c2.self.pingpong = c.self.pingpong := by
  obtain ⟨c1, up, rp, bg0, bg1, hsetup, hd, hc, hup, hrp, hpp, hbgs, hne, hsub1⟩ :=
    ComputeBoidsSample.boids_ready_after_setup w adapter dev ctx hgpu hadapter hdev hctx
  obtain ⟨c, hframes, hself, -, hsub⟩ :=
    ComputeBoidsSample.boids_frames_ok c1 dev ctx up rp hd hc hup hrp hpp n
  have hcd : c.self.device = some dev := by rw [hself]; exact hd
  have hcc : c.self.context = some ctx := by rw [hself]; exact hc
  have hcup : c.self.updatePipeline = some up := by rw [hself]; exact hup
  have hcrp : c.self.renderPipeline = some rp := by rw [hself]; exact hrp
  have hcpp : c.self.pingpong = n % 2 := by rw [hself]
  have hcmd : ∀ view i, ComputeBoidsSample.frameCommands c.self up rp view i =
      ComputeBoidsSample.frameCommands c1.self up rp view i := by
    intro view i
    rw [hself]
    rfl
  refine ⟨c, ?_, rfl, hcpp, ?_, ?_, ?_, ?_⟩
  · unfold SampleClass.runFrames
    have hstart : ∃ s0, SampleClass.start (⟨w, ComputeBoidsSample.new⟩ :
        Ctx Num ComputeBoidsSample) = (Except.ok (), s0) :=
      ⟨_, SampleClass.start_ok _ adapter dev ctx hgpu hadapter hdev hctx⟩
    obtain ⟨s0, hs0⟩ := hstart
    rw [JS.bind_ok hs0] at hsetup
    rw [JS.bind_ok hs0, JS.bind_ok hsetup]
    exact hframes
  · rw [hcpp]
    exact Nat.mod_two_eq_zero_or_one n
  · rw [hsub, hsub1]
    simp
  · intro k hk
    refine ⟨c1.world.nextId + 2 * k + 1,
      ComputeBoidsSample.frameCommands c1.self up rp (c1.world.nextId + 2 * k + 1) (k % 2),
      ?_, ?_, ?_⟩
    · rw [hsub, hsub1, List.getElem?_append_right (by omega)]
      simp [List.getElem?_map, List.getElem?_range hk]
    · rw [ComputeBoidsSample.createCommandBuffer_ok c dev up rp _ _ hcd hcup hcrp, hcmd]
    · rw [ComputeBoidsSample.createCommandBuffer_ok c dev up rp _ _ hcd hcup hcrp, hcmd]
      intro e
      exact ComputeBoidsSample.frameCommands_ne c1.self up rp _ k bg0 bg1 hbgs hne
        (Except.ok.inj e).symm
  · have f1 := ComputeBoidsSample.frameImpl_ok c dev ctx up rp hcd hcc hcup hcrp
    have f2 := ComputeBoidsSample.frameImpl_ok (ComputeBoidsSample.frameImpl c).2 dev ctx up rp
      (by rw [f1]; exact hcd) (by rw [f1]; exact hcc) (by rw [f1]; exact hcup)
      (by rw [f1]; exact hcrp)
    refine ⟨(ComputeBoidsSample.frameImpl (ComputeBoidsSample.frameImpl c).2).2, ?_, ?_⟩
    · exact JS.forRange_two _ c _ _ (Prod.ext (by rw [f1]) rfl) (Prod.ext (by rw [f2]) rfl)
    · rw [f2, f1]
      show ((c.self.pingpong + 1) % 2 + 1) % 2 = c.self.pingpong
      rw [hcpp]
      omega

end BoidsClaims

section AnimometerFrames

variable {Num : Type} [JSNumber Num]

/-- The state of Animometer.js after the part of `run` before the first frame, on a platform
that has everything. -/
theorem AnimometerSample.animometer_ready_after_setup (N : Nat) (w : World Num) (adapter dev ctx : Handle)
    (hgpu : w.gpu = true) (hadapter : w.adapter = some adapter)
    (hdev : w.requestDevice = some dev) (hctx : w.webgpuContext = some ctx) :
    ∃ (c1 : Ctx Num (AnimometerSample Num)) (u : GPUBuffer),
      (SampleClass.start >>= fun _ => AnimometerSample.setupImplOf N)
        ⟨w, AnimometerSample.new⟩ = (Except.ok true, c1) ∧
      AnimometerSample.Ready N c1 ∧
      c1.self.frameCount = 0 ∧ c1.self.frameCountForFPS = 0 ∧
      c1.self.ubo = some u ∧
      c1.self.bindGroup = some ⟨w.nextId + 7,
        ⟨w.nextId + 3, [⟨0, GPUShaderStage.VERTEX, "uniform", true⟩]⟩, [⟨0, u, 0, some 256⟩]⟩ ∧
      u.size = N * 256 ∧
      c1.world.console = w.console ∧ c1.world.writes = w.writes ∧
      c1.world.submitted = w.submitted ∧ c1.world.clockCalls = w.clockCalls + 1 := by
  have h0 := SampleClass.start_ok (S := AnimometerSample Num)
    ⟨w, AnimometerSample.new⟩ adapter dev ctx hgpu hadapter hdev hctx
  have h1 := AnimometerSample.setupImplOf_ok N
    (SampleClass.start (S := AnimometerSample Num) ⟨w, AnimometerSample.new⟩).2 dev
    (by rw [h0]; rfl)
  refine ⟨(AnimometerSample.setupImplOf N
    (SampleClass.start (S := AnimometerSample Num) ⟨w, AnimometerSample.new⟩).2).2,
    ⟨w.nextId + 6, N * 256, GPUBufferUsage.COPY_DST ||| GPUBufferUsage.UNIFORM⟩, ?_, ?_⟩
  · rw [JS.bind_of_eq SampleClass.start _ _ () (by rw [h0]), h1]
  · rw [h1, h0]
    refine ⟨⟨rfl, rfl, rfl, by simp, _, rfl, rfl, ?_⟩, rfl, rfl, rfl, rfl, rfl, rfl, rfl, rfl,
      rfl⟩
    simp only [Function.update_same, List.length_replicate]
    omega

/-- The frames of Animometer.js from a state that is set up and has both counters zero: they
end normally, the state stays set up, `frameCount` counts the frames, `frameCountForFPS` is
`frameCount` modulo 60, every `ShaderData` has the time of the last frame, and the console has
a line for every sixtieth frame. -/
theorem AnimometerSample.animometer_frames_ok (N : Nat) (c1 : Ctx Num (AnimometerSample Num))
    (hready : AnimometerSample.Ready N c1) (hfc : c1.self.frameCount = 0)
    (hfps : c1.self.frameCountForFPS = 0) (m : Nat) :
    ∃ s, JS.forRange m (fun _ => renderLoop (AnimometerSample.frameImplOf N)) c1 =
        (Except.ok (), s) ∧
      AnimometerSample.Ready N s ∧
      s.self.frameCount = m ∧ s.self.frameCountForFPS = m % 60 ∧
      s.self.ubo = c1.self.ubo ∧ s.self.bindGroup = c1.self.bindGroup ∧
      s.self.pipeline = c1.self.pipeline ∧
      (1 ≤ m → ∀ d ∈ s.self.shaderData,
        d.time = JSNumber.div (JSNumber.ofNat m) (JSNumber.ofRat 60)) ∧
      s.world.console.length = c1.world.console.length + m / 60 ∧
      s.world.clockCalls = c1.world.clockCalls + m / 60 ∧
      s.world.writes.length = c1.world.writes.length + m * N ∧
      s.world.submitted.length = c1.world.submitted.length + m := by
  have key := JS.forRange_inv (fun _ => renderLoop (AnimometerSample.frameImplOf N))
    (fun j (s : Ctx Num (AnimometerSample Num)) =>
      AnimometerSample.Ready N s ∧
      s.self.frameCount = j ∧ s.self.frameCountForFPS = j % 60 ∧
      s.self.ubo = c1.self.ubo ∧ s.self.bindGroup = c1.self.bindGroup ∧
      s.self.pipeline = c1.self.pipeline ∧
      (1 ≤ j → ∀ d ∈ s.self.shaderData,
        d.time = JSNumber.div (JSNumber.ofNat j) (JSNumber.ofRat 60)) ∧
      s.world.console.length = c1.world.console.length + j / 60 ∧
      s.world.clockCalls = c1.world.clockCalls + j / 60 ∧
      s.world.writes.length = c1.world.writes.length + j * N ∧
      s.world.submitted.length = c1.world.submitted.length + j)
    m c1 ?_ ?_
  · exact key
  · rintro j t hj ⟨hr, hfc, hfps, hubo, hbg, hp, -, hcon, hclk, hwr, hsub⟩
    obtain ⟨bd, u, p, hu, hpp, hframe, hbdlen, -, -⟩ := AnimometerSample.frameImplOf_ready N t hr
    have hloop : renderLoop (AnimometerSample.frameImplOf N) t =
        (Except.ok (), (renderLoop (AnimometerSample.frameImplOf N) t).2) := by
      unfold renderLoop
      rw [JS.bind_ok hframe]
      rfl
    refine ⟨_, hloop, ?_⟩
    have hstate : (renderLoop (AnimometerSample.frameImplOf N) t).2 =
        { world := { (AnimometerSample.frameImplOf N t).2.world with
            animationRequests := (AnimometerSample.frameImplOf N t).2.world.animationRequests + 1 }
          self := (AnimometerSample.frameImplOf N t).2.self } := by
      unfold renderLoop
      rw [JS.bind_ok hframe, hframe]
      rfl
    rw [hstate, hframe]
    obtain ⟨hr1, hr2, hr3, hr4, u', hu', hr5, hr6⟩ := hr
    have huu : u' = u := by
      rw [hu] at hu'
      exact (Option.some.inj hu').symm
    subst huu
    have hcase : (j + 1) % 60 = 0 ∨ (j + 1) % 60 ≠ 0 := Nat.eq_zero_or_pos _ |>.imp id (by omega)
    refine ⟨⟨hr1, hr2, hr3, by simp [hr4], u', hu, hr5, hbdlen⟩, by simp [hfc], ?_, hubo, hbg, hp,
      ?_, ?_, ?_, ?_, ?_⟩
    · simp only [hfps]
      have e : (j % 60 + 1) % 60 = (j + 1) % 60 := by omega
      rw [e]
      rcases hcase with h | h
      · simp [h]
      · rw [if_neg h]
        omega
    · intro _ d hd
      simp only [List.mem_map] at hd
      obtain ⟨d0, -, rfl⟩ := hd
      simp [hfc]
    · simp only [hfps]
      have e : (j % 60 + 1) % 60 = (j + 1) % 60 := by omega
      rw [e]
      rcases hcase with h | h
      · simp only [h, if_true, List.length_append, List.length_singleton, hcon]
        omega
      · simp only [if_neg h, hcon]
        omega
    · simp only [hfps]
      have e : (j % 60 + 1) % 60 = (j + 1) % 60 := by omega
      rw [e]
      rcases hcase with h | h
      · simp only [h, if_true, hclk]
        omega
      · simp only [if_neg h, hclk]
        omega
    · simp only [List.length_append, List.length_map, List.length_range, hwr, Nat.add_mul]
      omega
    · simp [hsub]
      omega
  · exact ⟨hready, hfc, hfps, rfl, rfl, rfl, fun h => absurd h (by omega), by simp, by simp,
      by simp, by simp⟩

end AnimometerFrames

section AnimometerClaims

variable {Num : Type} [JSNumber Num]

/-- The state of Animometer.js after `run` and the animation callbacks up to the `n`-th call of
`frameImpl`, on a platform that has everything. -/
theorem AnimometerSample.runFrames_ok (N : Nat) (w : World Num) (adapter dev ctx : Handle)
    (hgpu : w.gpu = true) (hadapter : w.adapter = some adapter)
    (hdev : w.requestDevice = some dev) (hctx : w.webgpuContext = some ctx) (n : Nat) :
    ∃ (c : Ctx Num (AnimometerSample Num)) (u : GPUBuffer) (bg : GPUBindGroup),
      SampleClass.runFrames (AnimometerSample.setupImplOf N) (AnimometerSample.frameImplOf N) n
        ⟨w, AnimometerSample.new⟩ = (Except.ok (), c) ∧
      AnimometerSample.Ready N c ∧
      c.self.frameCount = n ∧ c.self.frameCountForFPS = n % 60 ∧
      c.self.ubo = some u ∧ u.size = N * 256 ∧
      c.self.bindGroup = some bg ∧ bg.entries = [⟨0, u, 0, some 256⟩] ∧
      (1 ≤ n → ∀ d ∈ c.self.shaderData,
        d.time = JSNumber.div (JSNumber.ofNat n) (JSNumber.ofRat 60)) ∧
      c.world.console.length = w.console.length + n / 60 ∧
      c.world.writes.length = w.writes.length + n * N ∧
      c.world.submitted.length = w.submitted.length + n := by
  obtain ⟨c1, u, hsetup, hready, hfc, hfps, hubo, hbg, husize, hcon, hwr, hsub, -⟩ :=
    AnimometerSample.animometer_ready_after_setup N w adapter dev ctx hgpu hadapter hdev hctx
  obtain ⟨c, hframes, hr, h1, h2, h3, h4, -, h5, h6, -, h7, h8⟩ :=
    AnimometerSample.animometer_frames_ok N c1 hready hfc hfps n
  refine ⟨c, u, _, ?_, hr, h1, h2, h3.trans hubo, husize, h4.trans hbg, rfl, h5,
    by rw [h6, hcon], by rw [h7, hwr], by rw [h8, hsub]⟩
  unfold SampleClass.runFrames
  have hstart : ∃ s0, SampleClass.start (⟨w, AnimometerSample.new⟩ :
      Ctx Num (AnimometerSample Num)) = (Except.ok (), s0) :=
    ⟨_, SampleClass.start_ok _ adapter dev ctx hgpu hadapter hdev hctx⟩
  obtain ⟨s0, hs0⟩ := hstart
  rw [JS.bind_ok hs0] at hsetup
  rw [JS.bind_ok hs0, JS.bind_ok hsetup]
  exact hframes

/-- The time of the frames, for any number `N` of triangles. -/
theorem AnimometerSample.time_after_frames_of (N : Nat) (w : World Num)
    (adapter dev ctx : Handle)
    (hgpu : w.gpu = true) (hadapter : w.adapter = some adapter)
    (hdev : w.requestDevice = some dev) (hctx : w.webgpuContext = some ctx)
    (n : Nat) (hn : 1 ≤ n) :
    ∃ c : Ctx Num (AnimometerSample Num),
      SampleClass.runFrames (AnimometerSample.setupImplOf N) (AnimometerSample.frameImplOf N) n
        ⟨w, AnimometerSample.new⟩ = (Except.ok (), c) ∧
      (AnimometerSample.new : AnimometerSample Num).frameCount = 0 ∧
      c.self.frameCount = n ∧
      c.self.shaderData.length = N ∧
      ∀ d ∈ c.self.shaderData, d.time = JSNumber.div (JSNumber.ofNat n) (JSNumber.ofRat 60) := by
  obtain ⟨c, u, bg, hrun, hr, h1, -, -, -, -, -, h5, -⟩ :=
    AnimometerSample.runFrames_ok N w adapter dev ctx hgpu hadapter hdev hctx n
  exact ⟨c, hrun, rfl, h1, hr.2.2.2.1, h5 hn⟩

/-- C9. On a platform that has everything, a freshly constructed `AnimometerSample`
(`frameCount = 0`) is run; after the `n`-th call of `frameImpl`, `n ≥ 1`, all calls have ended
normally, `frameCount` is `n`, and each of the `kNumTriangles` elements of `shaderData` has the
time `n / 60`. -/
theorem AnimometerSample.time_after_frames (w : World Num) (adapter dev ctx : Handle)
    (hgpu : w.gpu = true) (hadapter : w.adapter = some adapter)
    (hdev : w.requestDevice = some dev) (hctx : w.webgpuContext = some ctx)
    (n : Nat) (hn : 1 ≤ n) :
    ∃ c : Ctx Num (AnimometerSample Num),
      SampleClass.runFrames AnimometerSample.setupImpl AnimometerSample.frameImpl n
        ⟨w, AnimometerSample.new⟩ = (Except.ok (), c) ∧
      (AnimometerSample.new : AnimometerSample Num).frameCount = 0 ∧
      c.self.frameCount = n ∧
      c.self.shaderData.length = kNumTriangles ∧
      ∀ d ∈ c.self.shaderData, d.time = JSNumber.div (JSNumber.ofNat n) (JSNumber.ofRat 60) :=
  AnimometerSample.time_after_frames_of kNumTriangles w adapter dev ctx hgpu hadapter hdev hctx
    n hn

end AnimometerClaims

section AnimometerClaims2

variable {Num : Type} [JSNumber Num]

/-- The frame rate branch, for any number `N` of triangles. -/
theorem AnimometerSample.fps_branch_of (N : Nat) (w : World Num) (adapter dev ctx : Handle)
    (hgpu : w.gpu = true) (hadapter : w.adapter = some adapter)
    (hdev : w.requestDevice = some dev) (hctx : w.webgpuContext = some ctx)
    (n : Nat) (hn : 1 ≤ n) :
    ∃ c c1 : Ctx Num (AnimometerSample Num),
      SampleClass.runFrames (AnimometerSample.setupImplOf N) (AnimometerSample.frameImplOf N)
        (n - 1) ⟨w, AnimometerSample.new⟩ = (Except.ok (), c) ∧
      AnimometerSample.frameImplOf N c = (Except.ok (), c1) ∧
      (n % 60 = 0 →
        (∃ fps, c1.world.console = c.world.console ++ [ConsoleEntry.logNumber "FPS: " fps]) ∧
        c1.world.clockCalls = c.world.clockCalls + 1 ∧
        c1.self.lastTime = c.world.clock c.world.clockCalls) ∧
      (n % 60 ≠ 0 →
        c1.world.console = c.world.console ∧ c1.world.clockCalls = c.world.clockCalls ∧
        c1.self.lastTime = c.self.lastTime) ∧
      ((c.self.frameCountForFPS + 1) % 60 = 0 ↔ n % 60 = 0) ∧
      (AnimometerCpp.logsFPS c1.self.frameCount = true ↔ n % 60 = 0) ∧
      c1.self.frameCount = n ∧
      c1.self.frameCountForFPS = c1.self.frameCount % 60 ∧
      c1.self.frameCountForFPS < 60 := by
  obtain ⟨c, u, bg, hrun, hr, h1, h2, -⟩ :=
    AnimometerSample.runFrames_ok N w adapter dev ctx hgpu hadapter hdev hctx (n - 1)
  obtain ⟨bd, u1, p, -, -, hframe, -⟩ := AnimometerSample.frameImplOf_ready N c hr
  have e : (c.self.frameCountForFPS + 1) % 60 = n % 60 := by
    rw [h2]
    omega
  refine ⟨c, _, hrun, hframe, ?_, ?_, ?_, ?_, ?_, ?_, ?_⟩
  · intro h
    have h60 : (c.self.frameCountForFPS + 1) % 60 = 0 := by rw [e, h]
    refine ⟨⟨JSNumber.div (JSNumber.ofRat 60)
      (JSNumber.div (JSNumber.sub (c.world.clock c.world.clockCalls) c.self.lastTime)
        (JSNumber.ofRat 1000)), ?_⟩, ?_, ?_⟩
    · exact if_pos h60
    · exact if_pos h60
    · exact if_pos h60
  · intro h
    have h60 : ¬ (c.self.frameCountForFPS + 1) % 60 = 0 := by rw [e]; exact h
    refine ⟨?_, ?_, ?_⟩
    · exact if_neg h60
    · exact if_neg h60
    · exact if_neg h60
  · rw [e]
  · simp only [AnimometerCpp.logsFPS, h1, beq_iff_eq]
    have : n - 1 + 1 = n := by omega
    rw [this]
  · simp only [h1]
    omega
  · simp only [h1, e]
    by_cases h : n % 60 = 0
    · simp only [h, if_true]
      omega
    · simp only [h, if_false, h2]
      omega
  · simp only [e]
    by_cases h : n % 60 = 0
    · simp [h]
    · simp only [h, if_false, h2]
      omega

/-- C10. On a platform that has everything, a freshly constructed `AnimometerSample` is run.
The `n`-th call of `frameImpl`, `n ≥ 1`, ends normally, and it takes the frame rate branch (a
line on the console, a reading of the clock, a new `lastTime`) if `n % 60 = 0` and not
otherwise: the test `frameCountForFPS % 60 === 0` of the script agrees with the test
`frameCount % 60 == 0` of the C++ original.  After the call `frameCountForFPS` is `frameCount`
modulo 60, so below 60. -/
theorem AnimometerSample.fps_branch (w : World Num) (adapter dev ctx : Handle)
    (hgpu : w.gpu = true) (hadapter : w.adapter = some adapter)
    (hdev : w.requestDevice = some dev) (hctx : w.webgpuContext = some ctx)
    (n : Nat) (hn : 1 ≤ n) :
    ∃ c c1 : Ctx Num (AnimometerSample Num),
      SampleClass.runFrames AnimometerSample.setupImpl AnimometerSample.frameImpl
        (n - 1) ⟨w, AnimometerSample.new⟩ = (Except.ok (), c) ∧
      AnimometerSample.frameImpl c = (Except.ok (), c1) ∧
      (n % 60 = 0 →
        (∃ fps, c1.world.console = c.world.console ++ [ConsoleEntry.logNumber "FPS: " fps]) ∧
        c1.world.clockCalls = c.world.clockCalls + 1 ∧
        c1.self.lastTime = c.world.clock c.world.clockCalls) ∧
      (n % 60 ≠ 0 →
        c1.world.console = c.world.console ∧ c1.world.clockCalls = c.world.clockCalls ∧
        c1.self.lastTime = c.self.lastTime) ∧
      ((c.self.frameCountForFPS + 1) % 60 = 0 ↔ n % 60 = 0) ∧
      (AnimometerCpp.logsFPS c1.self.frameCount = true ↔ n % 60 = 0) ∧
      c1.self.frameCount = n ∧
      c1.self.frameCountForFPS = c1.self.frameCount % 60 ∧
      c1.self.frameCountForFPS < 60 :=
  AnimometerSample.fps_branch_of kNumTriangles w adapter dev ctx hgpu hadapter hdev hctx n hn

/-- The queue writes of a frame, for any number `N` of triangles. -/
theorem AnimometerSample.frame_writes_of (N : Nat) (w : World Num) (adapter dev ctx : Handle)
    (hgpu : w.gpu = true) (hadapter : w.adapter = some adapter)
    (hdev : w.requestDevice = some dev) (hctx : w.webgpuContext = some ctx) (n : Nat) :
    ∃ (c c1 : Ctx Num (AnimometerSample Num)) (u : GPUBuffer),
      SampleClass.runFrames (AnimometerSample.setupImplOf N) (AnimometerSample.frameImplOf N)
        n ⟨w, AnimometerSample.new⟩ = (Except.ok (), c) ∧
      AnimometerSample.frameImplOf N c = (Except.ok (), c1) ∧
      c.self.ubo = some u ∧ u.size = N * 256 ∧
      c1.world.writes = c.world.writes ++
        (List.range N).map (fun i => (⟨u.id, i * 256, 256⟩ : BufferWrite)) ∧
      (∀ i, i < N → (c1.world.writes.drop c.world.writes.length)[i]? =
        some ⟨u.id, i * 256, 256⟩) ∧
      (∀ i, i < N → i * 256 + 256 ≤ u.size) ∧
      (∀ i j byte, i < N → j < N →
        (⟨u.id, i * 256, 256⟩ : BufferWrite).covers byte →
        (⟨u.id, j * 256, 256⟩ : BufferWrite).covers byte → i = j) ∧
      (∀ byte, byte < u.size →
        ∃ i, i < N ∧ (⟨u.id, i * 256, 256⟩ : BufferWrite).covers byte) := by
  obtain ⟨c, u, bg, hrun, hr, -, -, hubo, husize, -⟩ :=
    AnimometerSample.runFrames_ok N w adapter dev ctx hgpu hadapter hdev hctx n
  obtain ⟨bd, u1, p, hu1, -, hframe, -⟩ := AnimometerSample.frameImplOf_ready N c hr
  have huu : u1 = u := by
    rw [hubo] at hu1
    exact (Option.some.inj hu1).symm
  subst huu
  refine ⟨c, _, u1, hrun, hframe, hubo, husize, rfl, ?_, ?_, ?_, ?_⟩
  · intro i hi
    simp [List.getElem?_map, List.getElem?_range hi]
  · intro i hi
    omega
  · intro i j byte _ _ hi hj
    simp only [BufferWrite.covers] at hi hj
    omega
  · intro byte hb
    refine ⟨byte / 256, ?_, ?_⟩
    · omega
    · simp only [BufferWrite.covers]
      omega

/-- C4. On a platform that has everything, a freshly constructed `AnimometerSample` is run and
`frameImpl` is called after `n` earlier calls.  The call ends normally, and its queue writes are,
for `i = 0, ..., kNumTriangles - 1` in this order, 256 bytes at offset `i * 256` of the uniform
buffer, which has `kNumTriangles * 256` bytes: each range lies inside the buffer, two ranges
with a common byte are the same range, and every byte of the buffer is in a range. -/
theorem AnimometerSample.frame_writes (w : World Num) (adapter dev ctx : Handle)
    (hgpu : w.gpu = true) (hadapter : w.adapter = some adapter)
    (hdev : w.requestDevice = some dev) (hctx : w.webgpuContext = some ctx) (n : Nat) :
    ∃ (c c1 : Ctx Num (AnimometerSample Num)) (u : GPUBuffer),
      SampleClass.runFrames AnimometerSample.setupImpl AnimometerSample.frameImpl
        n ⟨w, AnimometerSample.new⟩ = (Except.ok (), c) ∧
      AnimometerSample.frameImpl c = (Except.ok (), c1) ∧
      c.self.ubo = some u ∧ u.size = kNumTriangles * 256 ∧
      c1.world.writes = c.world.writes ++
        (List.range kNumTriangles).map (fun i => (⟨u.id, i * 256, 256⟩ : BufferWrite)) ∧
      (∀ i, i < kNumTriangles → (c1.world.writes.drop c.world.writes.length)[i]? =
        some ⟨u.id, i * 256, 256⟩) ∧
      (∀ i, i < kNumTriangles → i * 256 + 256 ≤ u.size) ∧
      (∀ i j byte, i < kNumTriangles → j < kNumTriangles →
        (⟨u.id, i * 256, 256⟩ : BufferWrite).covers byte →
        (⟨u.id, j * 256, 256⟩ : BufferWrite).covers byte → i = j) ∧
      (∀ byte, byte < u.size →
        ∃ i, i < kNumTriangles ∧ (⟨u.id, i * 256, 256⟩ : BufferWrite).covers byte) :=
  AnimometerSample.frame_writes_of kNumTriangles w adapter dev ctx hgpu hadapter hdev hctx n

end AnimometerClaims2

section Chunks

variable {α β : Type}

theorem List.length_flatMap_const (f : α → List β) (L : Nat) (hf : ∀ x, (f x).length = L) :
    ∀ l : List α, (l.flatMap f).length = L * l.length := by
  intro l
  induction l with
  | nil => simp
  | cons x xs ih =>
    rw [List.flatMap_cons, List.length_append, ih, hf, List.length_cons, Nat.mul_succ]
    omega

theorem List.getElem?_flatMap_const (f : α → List β) (L : Nat) (hf : ∀ x, (f x).length = L) :
    ∀ (l : List α) (i k : Nat), k < L →
      (l.flatMap f)[L * i + k]? = (l[i]?).bind fun x => (f x)[k]? := by
  intro l
  induction l with
  | nil => intro i k _; simp
  | cons x xs ih =>
    intro i k hk
    rw [List.flatMap_cons]
    cases i with
    | zero =>
      rw [List.getElem?_append_left (by rw [hf]; omega)]
      simp
    | succ i =>
      rw [List.getElem?_append_right (by rw [hf, Nat.mul_succ]; omega), hf]
      have e : L * (i + 1) + k - L = L * i + k := by
        rw [Nat.mul_succ]
        omega
      rw [e, ih i k hk]
      simp

end Chunks

section AnimometerClaims3

variable {Num : Type} [JSNumber Num]

theorem AnimometerCpp.uniformData_eq (shaderData : List (ShaderData Num)) :
    AnimometerCpp.uniformData shaderData =
      shaderData.flatMap fun d => d.toFloat32Array.elems := by
  unfold AnimometerCpp.uniformData
  congr 1

/-- The contents of the uniform buffer after a frame, for any number `N` of triangles. -/
theorem AnimometerSample.frame_uploads_of (N : Nat) (w : World Num) (adapter dev ctx : Handle)
    (hgpu : w.gpu = true) (hadapter : w.adapter = some adapter)
    (hdev : w.requestDevice = some dev) (hctx : w.webgpuContext = some ctx) (n : Nat) :
    ∃ (c c1 : Ctx Num (AnimometerSample Num)) (u : GPUBuffer),
      SampleClass.runFrames (AnimometerSample.setupImplOf N) (AnimometerSample.frameImplOf N)
        n ⟨w, AnimometerSample.new⟩ = (Except.ok (), c) ∧
      AnimometerSample.frameImplOf N c = (Except.ok (), c1) ∧
      c1.self.ubo = some u ∧ c1.self.shaderData.length = N ∧
      c1.world.bufferData u.id = AnimometerCpp.uniformData c1.self.shaderData ∧
      (c1.world.bufferData u.id).length = 64 * N ∧
      ∀ i d, c1.self.shaderData[i]? = some d →
        (c1.world.bufferData u.id)[64 * i]? = some (JSNumber.fround d.scale) ∧
        (c1.world.bufferData u.id)[64 * i + 1]? = some (JSNumber.fround d.time) ∧
        (c1.world.bufferData u.id)[64 * i + 2]? = some (JSNumber.fround d.offsetX) ∧
        (c1.world.bufferData u.id)[64 * i + 3]? = some (JSNumber.fround d.offsetY) ∧
        (c1.world.bufferData u.id)[64 * i + 4]? = some (JSNumber.fround d.scalar) ∧
        (c1.world.bufferData u.id)[64 * i + 5]? = some (JSNumber.fround d.scalarOffset) ∧
        ∀ k, 6 ≤ k → k < 64 →
          (c1.world.bufferData u.id)[64 * i + k]? = some (JSNumber.ofRat 0) := by
  obtain ⟨c, u, bg, hrun, hr, -, -, hubo, husize, -⟩ :=
    AnimometerSample.runFrames_ok N w adapter dev ctx hgpu hadapter hdev hctx n
  obtain ⟨bd, u1, p, hu1, -, hframe, hbdlen, -, hbd⟩ := AnimometerSample.frameImplOf_ready N c hr
  have huu : u1 = u := by
    rw [hubo] at hu1
    exact (Option.some.inj hu1).symm
  subst huu
  have hlen : c.self.shaderData.length = N := hr.2.2.2.1
  have hget : ∀ i k d, (AnimometerSample.frameImplOf N c).2.self.shaderData[i]? = some d →
      k < 64 → (bd u1.id)[64 * i + k]? = d.toFloat32Array.elems[k]? := by
    intro i k d hd hk
    rw [hframe] at hd
    simp only [List.getElem?_map] at hd
    cases h0 : c.self.shaderData[i]? with
    | none => rw [h0] at hd; cases hd
    | some d0 =>
      rw [h0] at hd
      cases hd
      exact hbd i k d0 h0 hk
  have hlen1 : (AnimometerSample.frameImplOf N c).2.self.shaderData.length = N := by
    rw [hframe]
    simp [hlen]
  have hbuf : (AnimometerSample.frameImplOf N c).2.world.bufferData u1.id = bd u1.id := by
    rw [hframe]
  have hubo1 : (AnimometerSample.frameImplOf N c).2.self.ubo = some u1 := by
    rw [hframe]
    exact hubo
  refine ⟨c, (AnimometerSample.frameImplOf N c).2, u1, hrun, by rw [hframe], hubo1, hlen1, ?_,
    by rw [hbuf, hbdlen]; omega, ?_⟩
  · rw [hbuf, AnimometerCpp.uniformData_eq]
    apply List.ext_getElem?
    intro m
    by_cases hm : m < 64 * N
    · have e : m = 64 * (m / 64) + m % 64 := by omega
      rw [e, List.getElem?_flatMap_const _ 64 ShaderData.toFloat32Array_length _ _ _ (by omega)]
      obtain ⟨d, hd⟩ : ∃ d,
          (AnimometerSample.frameImplOf N c).2.self.shaderData[m / 64]? = some d := by
        refine ⟨_, List.getElem?_eq_getElem ?_⟩
        rw [hlen1]
        omega
      rw [hget _ _ d hd (by omega)]
      simp only [hd, Option.some_bind]
    · rw [List.getElem?_eq_none (by omega), List.getElem?_eq_none]
      rw [List.length_flatMap_const _ 64 ShaderData.toFloat32Array_length, hlen1]
      omega
  · intro i d hd
    have h := fun k hk => hget i k d hd hk
    have hk := fun k (h6 : 6 ≤ k) (h64 : k < 64) =>
      ShaderData.toFloat32Array_padding d k h6 h64
    rw [hbuf]
    refine ⟨?_, ?_, ?_, ?_, ?_, ?_, ?_⟩
    · exact h 0 (by omega)
    · exact h 1 (by omega)
    · exact h 2 (by omega)
    · exact h 3 (by omega)
    · exact h 4 (by omega)
    · exact h 5 (by omega)
    · intro k h6 h64
      rw [h k h64]
      exact hk k h6 h64

end AnimometerClaims3

section AnimometerClaims4

variable {Num : Type} [JSNumber Num]

/-- C5. On a platform that has everything, a freshly constructed `AnimometerSample` is run and
`frameImpl` is called after `n` earlier calls.  The call ends normally, and after it the uniform
buffer holds what the single write of the C++ original uploads for the `shaderData` of that
moment: for every element `i`, the floats at `64 * i`, ..., `64 * i + 5` are its `scale`, `time`,
`offsetX`, `offsetY`, `scalar`, `scalarOffset` as 32-bit floats, and the floats at `64 * i + k`,
`6 ≤ k < 64`, are zero. -/
theorem AnimometerSample.frame_uploads (w : World Num) (adapter dev ctx : Handle)
    (hgpu : w.gpu = true) (hadapter : w.adapter = some adapter)
    (hdev : w.requestDevice = some dev) (hctx : w.webgpuContext = some ctx) (n : Nat) :
    ∃ (c c1 : Ctx Num (AnimometerSample Num)) (u : GPUBuffer),
      SampleClass.runFrames AnimometerSample.setupImpl AnimometerSample.frameImpl
        n ⟨w, AnimometerSample.new⟩ = (Except.ok (), c) ∧
      AnimometerSample.frameImpl c = (Except.ok (), c1) ∧
      c1.self.ubo = some u ∧ c1.self.shaderData.length = kNumTriangles ∧
      c1.world.bufferData u.id = AnimometerCpp.uniformData c1.self.shaderData ∧
      (c1.world.bufferData u.id).length = 64 * kNumTriangles ∧
      ∀ i d, c1.self.shaderData[i]? = some d →
        (c1.world.bufferData u.id)[64 * i]? = some (JSNumber.fround d.scale) ∧
        (c1.world.bufferData u.id)[64 * i + 1]? = some (JSNumber.fround d.time) ∧
        (c1.world.bufferData u.id)[64 * i + 2]? = some (JSNumber.fround d.offsetX) ∧
        (c1.world.bufferData u.id)[64 * i + 3]? = some (JSNumber.fround d.offsetY) ∧
        (c1.world.bufferData u.id)[64 * i + 4]? = some (JSNumber.fround d.scalar) ∧
        (c1.world.bufferData u.id)[64 * i + 5]? = some (JSNumber.fround d.scalarOffset) ∧
        ∀ k, 6 ≤ k → k < 64 →
          (c1.world.bufferData u.id)[64 * i + k]? = some (JSNumber.ofRat 0) :=
  AnimometerSample.frame_uploads_of kNumTriangles w adapter dev ctx hgpu hadapter hdev hctx n

omit [JSNumber Num] in
theorem AnimometerSample.mem_frameCommands (view : Handle) (p : GPURenderPipeline)
    (bindGroup : Option GPUBindGroup) (N index : Nat) (group : Option GPUBindGroup)
    (offsets : List Nat) :
    Command.setBindGroup index group offsets ∈
        AnimometerSample.frameCommands view p bindGroup N ↔
      ∃ i, i < N ∧ index = 0 ∧ group = bindGroup ∧ offsets = [i * 256] := by
  simp only [AnimometerSample.frameCommands, List.mem_append, List.mem_cons, List.mem_flatMap,
    List.mem_range, List.mem_singleton, List.not_mem_nil, or_false, reduceCtorEq, false_or,
    Command.setBindGroup.injEq]

/-- The dynamic offsets of a frame, for any number `N` of triangles whose buffer has less than
`2 ^ 32` bytes. -/
theorem AnimometerSample.frame_offsets_of (N : Nat) (hN : N * 256 ≤ 2 ^ 32) (w : World Num)
    (adapter dev ctx : Handle)
    (hgpu : w.gpu = true) (hadapter : w.adapter = some adapter)
    (hdev : w.requestDevice = some dev) (hctx : w.webgpuContext = some ctx) (n : Nat) :
    ∃ (c c1 : Ctx Num (AnimometerSample Num)) (u : GPUBuffer) (bg : GPUBindGroup)
      (commands : GPUCommandBuffer),
      SampleClass.runFrames (AnimometerSample.setupImplOf N) (AnimometerSample.frameImplOf N)
        n ⟨w, AnimometerSample.new⟩ = (Except.ok (), c) ∧
      AnimometerSample.frameImplOf N c = (Except.ok (), c1) ∧
      c.self.ubo = some u ∧ u.size = N * 256 ∧
      c.self.bindGroup = some bg ∧ bg.entries = [⟨0, u, 0, some 256⟩] ∧
      c1.world.submitted = c.world.submitted ++ [commands] ∧
      (∀ index group offsets, Command.setBindGroup index group offsets ∈ commands →
        index = 0 ∧ group = some bg ∧
        ∃ i, i < N ∧ offsets = [i * 256] ∧ i * 256 % 256 = 0 ∧ i * 256 < 2 ^ 32 ∧
          i * 256 + 256 ≤ u.size) ∧
      ∀ i, i < N → Command.setBindGroup 0 (some bg) [i * 256] ∈ commands := by
  obtain ⟨c, u, bg, hrun, hr, -, -, hubo, husize, hbg, hentries, -⟩ :=
    AnimometerSample.runFrames_ok N w adapter dev ctx hgpu hadapter hdev hctx n
  obtain ⟨bd, u1, p, -, -, hframe, -⟩ := AnimometerSample.frameImplOf_ready N c hr
  refine ⟨c, _, u, bg, _, hrun, hframe, hubo, husize, hbg, hentries, rfl, ?_, ?_⟩
  · intro index group offsets hmem
    obtain ⟨i, hi, h0, hg, ho⟩ := (AnimometerSample.mem_frameCommands _ _ _ _ _ _ _).mp hmem
    refine ⟨h0, hg.trans hbg, i, hi, ho, ?_, ?_, ?_⟩
    · omega
    · omega
    · omega
  · intro i hi
    rw [AnimometerSample.mem_frameCommands]
    exact ⟨i, hi, rfl, hbg.symm, rfl⟩

theorem kNumTriangles_fits : kNumTriangles * 256 ≤ 2 ^ 32 := by
  decide

/-- C6. On a platform that has everything, a freshly constructed `AnimometerSample` is run and
`frameImpl` is called after `n` earlier calls.  The call ends normally and submits one command
buffer; every `setBindGroup` in it has index 0, the bind group of the sample, which binds 256
bytes of the uniform buffer, and one dynamic offset `i * 256` with `i < kNumTriangles`: a
multiple of 256, below `2 ^ 32`, and with `offset + 256` within the `kNumTriangles * 256` bytes
of the buffer; every such `i` occurs. -/
theorem AnimometerSample.frame_offsets (w : World Num) (adapter dev ctx : Handle)
    (hgpu : w.gpu = true) (hadapter : w.adapter = some adapter)
    (hdev : w.requestDevice = some dev) (hctx : w.webgpuContext = some ctx) (n : Nat) :
    ∃ (c c1 : Ctx Num (AnimometerSample Num)) (u : GPUBuffer) (bg : GPUBindGroup)
      (commands : GPUCommandBuffer),
      SampleClass.runFrames AnimometerSample.setupImpl AnimometerSample.frameImpl
        n ⟨w, AnimometerSample.new⟩ = (Except.ok (), c) ∧
      AnimometerSample.frameImpl c = (Except.ok (), c1) ∧
      c.self.ubo = some u ∧ u.size = kNumTriangles * 256 ∧
      c.self.bindGroup = some bg ∧ bg.entries = [⟨0, u, 0, some 256⟩] ∧
      c1.world.submitted = c.world.submitted ++ [commands] ∧
      (∀ index group offsets, Command.setBindGroup index group offsets ∈ commands →
        index = 0 ∧ group = some bg ∧
        ∃ i, i < kNumTriangles ∧ offsets = [i * 256] ∧ i * 256 % 256 = 0 ∧ i * 256 < 2 ^ 32 ∧
          i * 256 + 256 ≤ u.size) ∧
      ∀ i, i < kNumTriangles → Command.setBindGroup 0 (some bg) [i * 256] ∈ commands :=
  AnimometerSample.frame_offsets_of kNumTriangles kNumTriangles_fits w adapter dev ctx hgpu
    hadapter hdev hctx n

end AnimometerClaims4

section MainClaims

variable {Num : Type} [JSNumber Num]

/-- C7. In each of the three scripts, on any platform, `main` called with no sample constructed
returns 1 and constructs no sample when `navigator.gpu` is absent; when it is present, `main`
returns 0 exactly when `run` on the newly constructed sample ends normally and 1 exactly when
that `run` throws.  In every case `main` ends normally, with 0 or 1. -/
theorem main_exit_codes (w : World Num) :
    ((w.gpu = false →
        (HelloTriangle.main ⟨w, none⟩).1 = Except.ok 1 ∧
        (HelloTriangle.main ⟨w, none⟩).2.self = none) ∧
      (w.gpu = true →
        ((HelloTriangle.main ⟨w, none⟩).1 = Except.ok 0 ↔
          (HelloTriangleSample.run ⟨w, HelloTriangleSample.new⟩).1 = Except.ok ()) ∧
        ((HelloTriangle.main ⟨w, none⟩).1 = Except.ok 1 ↔
          ∃ e, (HelloTriangleSample.run ⟨w, HelloTriangleSample.new⟩).1 = Except.error e)) ∧
      ((HelloTriangle.main ⟨w, none⟩).1 = Except.ok 0 ∨
        (HelloTriangle.main ⟨w, none⟩).1 = Except.ok 1)) ∧
    ((w.gpu = false →
        (Animometer.main ⟨w, none⟩).1 = Except.ok 1 ∧
        (Animometer.main ⟨w, none⟩).2.self = none) ∧
      (w.gpu = true →
        ((Animometer.main ⟨w, none⟩).1 = Except.ok 0 ↔
          (AnimometerSample.run ⟨w, AnimometerSample.new⟩).1 = Except.ok ()) ∧
        ((Animometer.main ⟨w, none⟩).1 = Except.ok 1 ↔
          ∃ e, (AnimometerSample.run ⟨w, AnimometerSample.new⟩).1 = Except.error e)) ∧
      ((Animometer.main ⟨w, none⟩).1 = Except.ok 0 ∨
        (Animometer.main ⟨w, none⟩).1 = Except.ok 1)) ∧
    ((w.gpu = false →
        (ComputeBoids.main ⟨w, none⟩).1 = Except.ok 1 ∧
        (ComputeBoids.main ⟨w, none⟩).2.self = none) ∧
      (w.gpu = true →
        ((ComputeBoids.main ⟨w, none⟩).1 = Except.ok 0 ↔
          (ComputeBoidsSample.run ⟨w, ComputeBoidsSample.new⟩).1 = Except.ok ()) ∧
        ((ComputeBoids.main ⟨w, none⟩).1 = Except.ok 1 ↔
          ∃ e, (ComputeBoidsSample.run ⟨w, ComputeBoidsSample.new⟩).1 = Except.error e)) ∧
      ((ComputeBoids.main ⟨w, none⟩).1 = Except.ok 0 ∨
        (ComputeBoids.main ⟨w, none⟩).1 = Except.ok 1)) :=
  ⟨sampleMain_exit HelloTriangleSample.new HelloTriangleSample.run _ _ ⟨w, none⟩,
    sampleMain_exit AnimometerSample.new AnimometerSample.run _ _ ⟨w, none⟩,
    sampleMain_exit ComputeBoidsSample.new ComputeBoidsSample.run _ _ ⟨w, none⟩⟩

/-- C8. In each of the three classes, `run` on a freshly constructed sample throws
`Error('WebGPU not supported')` when `navigator.gpu` is absent and
`Error('No WebGPU adapter found')` when `requestAdapter` yields `null`; the platform and the
sample are then as before the call, so `device`, `canvas`, `context` and `preferredFormat` are
still `null`.  The same holds for every `setupImpl` and `frameImpl` in place of those of the
class and for every state of the sample: neither is called. -/
theorem run_throws_before_setup (w : World Num) :
    (w.gpu = false →
      HelloTriangleSample.run ⟨w, HelloTriangleSample.new⟩ =
        (Except.error (JSError.error "WebGPU not supported"), ⟨w, HelloTriangleSample.new⟩) ∧
      AnimometerSample.run ⟨w, AnimometerSample.new⟩ =
        (Except.error (JSError.error "WebGPU not supported"), ⟨w, AnimometerSample.new⟩) ∧
      ComputeBoidsSample.run ⟨w, ComputeBoidsSample.new⟩ =
        (Except.error (JSError.error "WebGPU not supported"), ⟨w, ComputeBoidsSample.new⟩)) ∧
    (w.gpu = true → w.adapter = none →
      HelloTriangleSample.run ⟨w, HelloTriangleSample.new⟩ =
        (Except.error (JSError.error "No WebGPU adapter found"), ⟨w, HelloTriangleSample.new⟩) ∧
      AnimometerSample.run ⟨w, AnimometerSample.new⟩ =
        (Except.error (JSError.error "No WebGPU adapter found"), ⟨w, AnimometerSample.new⟩) ∧
      ComputeBoidsSample.run ⟨w, ComputeBoidsSample.new⟩ =
        (Except.error (JSError.error "No WebGPU adapter found"), ⟨w, ComputeBoidsSample.new⟩)) ∧
    (HelloTriangleSample.new.toSampleBase = ⟨none, none, none, none⟩ ∧
      (AnimometerSample.new : AnimometerSample Num).toSampleBase = ⟨none, none, none, none⟩ ∧
      ComputeBoidsSample.new.toSampleBase = ⟨none, none, none, none⟩) ∧
    ∀ (S : Type) (_ : SampleClass S) (setupImpl : JS (Ctx Num S) Bool)
      (frameImpl : JS (Ctx Num S) Unit) (t : S),
      (w.gpu = false →
        SampleClass.run setupImpl frameImpl ⟨w, t⟩ =
          (Except.error (JSError.error "WebGPU not supported"), ⟨w, t⟩)) ∧
      (w.gpu = true → w.adapter = none →
        SampleClass.run setupImpl frameImpl ⟨w, t⟩ =
          (Except.error (JSError.error "No WebGPU adapter found"), ⟨w, t⟩)) := by
  refine ⟨fun h => ⟨?_, ?_, ?_⟩, fun h h1 => ⟨?_, ?_, ?_⟩, ⟨rfl, rfl, rfl⟩, ?_⟩
  · exact SampleClass.run_no_gpu _ _ ⟨w, HelloTriangleSample.new⟩ h
  · exact SampleClass.run_no_gpu _ _ ⟨w, AnimometerSample.new⟩ h
  · exact SampleClass.run_no_gpu _ _ ⟨w, ComputeBoidsSample.new⟩ h
  · exact SampleClass.run_no_adapter _ _ ⟨w, HelloTriangleSample.new⟩ h h1
  · exact SampleClass.run_no_adapter _ _ ⟨w, AnimometerSample.new⟩ h h1
  · exact SampleClass.run_no_adapter _ _ ⟨w, ComputeBoidsSample.new⟩ h h1
  · intro S _ setupImpl frameImpl t
    exact ⟨fun h => SampleClass.run_no_gpu _ _ ⟨w, t⟩ h,
      fun h h1 => SampleClass.run_no_adapter _ _ ⟨w, t⟩ h h1⟩

end MainClaims

/-! ## Examples on a concrete platform -/

section Witnesses

/-- Three frames of ComputeBoids.js on the example platform leave `pingpong = 1`. -/
theorem ComputeBoidsSample.pingpong_after_frames_witness :
    World.example.gpu = true ∧ World.example.adapter = some 1 ∧
    World.example.requestDevice = some 2 ∧ World.example.webgpuContext = some 3 ∧
    ∃ c : Ctx ExactNumber ComputeBoidsSample,
      SampleClass.runFrames ComputeBoidsSample.setupImpl ComputeBoidsSample.frameImpl 3
        ⟨World.example, ComputeBoidsSample.new⟩ = (Except.ok (), c) ∧
      c.self.pingpong = 1 ∧ c.world.submitted.length = 3 := by
  refine ⟨rfl, rfl, rfl, rfl, ?_⟩
  obtain ⟨c, hrun, -, hpp, -, hlen, -⟩ :=
    ComputeBoidsSample.pingpong_after_frames World.example 1 2 3 rfl rfl rfl rfl 3
  exact ⟨c, hrun, hpp, hlen⟩

/-- The bind groups of ComputeBoids.js on the example platform, for a sample with device 2. -/
theorem ComputeBoidsSample.updateBGs_read_and_write_distinct_witness :
    ∃ c1 : Ctx ExactNumber ComputeBoidsSample,
      ComputeBoidsSample.setupImpl
        ⟨World.example, { ComputeBoidsSample.new with device := some 2 }⟩ = (Except.ok true, c1) ∧
      c1.self.updateBGs.length = 2 ∧ c1.self.particleBuffers.length = 2 := by
  obtain ⟨c1, h, h1, h2, -⟩ := ComputeBoidsSample.updateBGs_read_and_write_distinct
    (⟨World.example, { ComputeBoidsSample.new with device := some 2 }⟩ :
      Ctx ExactNumber ComputeBoidsSample) 2 rfl rfl rfl
  exact ⟨c1, h, h1, h2⟩

/-- The first frame of Animometer.js on the example platform writes `kNumTriangles` ranges. -/
theorem AnimometerSample.frame_writes_witness :
    World.example.gpu = true ∧ World.example.adapter = some 1 ∧
    World.example.requestDevice = some 2 ∧ World.example.webgpuContext = some 3 ∧
    ∃ (c c1 : Ctx ExactNumber (AnimometerSample ExactNumber)) (u : GPUBuffer),
      SampleClass.runFrames AnimometerSample.setupImpl AnimometerSample.frameImpl 0
        ⟨World.example, AnimometerSample.new⟩ = (Except.ok (), c) ∧
      AnimometerSample.frameImpl c = (Except.ok (), c1) ∧
      (c1.world.writes.drop c.world.writes.length)[9999]? = some ⟨u.id, 9999 * 256, 256⟩ := by
  refine ⟨rfl, rfl, rfl, rfl, ?_⟩
  obtain ⟨c, c1, u, hrun, hframe, -, -, -, h, -⟩ :=
    AnimometerSample.frame_writes World.example 1 2 3 rfl rfl rfl rfl 0
  exact ⟨c, c1, u, hrun, hframe, h 9999 (by decide)⟩

/-- The first frame of Animometer.js on the example platform fills the uniform buffer. -/
theorem AnimometerSample.frame_uploads_witness :
    World.example.gpu = true ∧ World.example.adapter = some 1 ∧
    World.example.requestDevice = some 2 ∧ World.example.webgpuContext = some 3 ∧
    ∃ (c c1 : Ctx ExactNumber (AnimometerSample ExactNumber)) (u : GPUBuffer),
      SampleClass.runFrames AnimometerSample.setupImpl AnimometerSample.frameImpl 0
        ⟨World.example, AnimometerSample.new⟩ = (Except.ok (), c) ∧
      AnimometerSample.frameImpl c = (Except.ok (), c1) ∧
      c1.world.bufferData u.id = AnimometerCpp.uniformData c1.self.shaderData := by
  refine ⟨rfl, rfl, rfl, rfl, ?_⟩
  obtain ⟨c, c1, u, hrun, hframe, -, -, h, -⟩ :=
    AnimometerSample.frame_uploads World.example 1 2 3 rfl rfl rfl rfl 0
  exact ⟨c, c1, u, hrun, hframe, h⟩

/-- The first frame of Animometer.js on the example platform binds at offset `9999 * 256`. -/
theorem AnimometerSample.frame_offsets_witness :
    World.example.gpu = true ∧ World.example.adapter = some 1 ∧
    World.example.requestDevice = some 2 ∧ World.example.webgpuContext = some 3 ∧
    ∃ (c c1 : Ctx ExactNumber (AnimometerSample ExactNumber)) (bg : GPUBindGroup)
      (commands : GPUCommandBuffer),
      SampleClass.runFrames AnimometerSample.setupImpl AnimometerSample.frameImpl 0
        ⟨World.example, AnimometerSample.new⟩ = (Except.ok (), c) ∧
      AnimometerSample.frameImpl c = (Except.ok (), c1) ∧
      c1.world.submitted = c.world.submitted ++ [commands] ∧
      Command.setBindGroup 0 (some bg) [9999 * 256] ∈ commands := by
  refine ⟨rfl, rfl, rfl, rfl, ?_⟩
  obtain ⟨c, c1, u, bg, commands, hrun, hframe, -, -, -, -, hsub, -, h⟩ :=
    AnimometerSample.frame_offsets World.example 1 2 3 rfl rfl rfl rfl 0
  exact ⟨c, c1, bg, commands, hrun, hframe, hsub, h 9999 (by decide)⟩

/-- After two frames of Animometer.js on the example platform `frameCount` is 2. -/
theorem AnimometerSample.time_after_frames_witness :
    World.example.gpu = true ∧ World.example.adapter = some 1 ∧
    World.example.requestDevice = some 2 ∧ World.example.webgpuContext = some 3 ∧ 1 ≤ 2 ∧
    ∃ c : Ctx ExactNumber (AnimometerSample ExactNumber),
      SampleClass.runFrames AnimometerSample.setupImpl AnimometerSample.frameImpl 2
        ⟨World.example, AnimometerSample.new⟩ = (Except.ok (), c) ∧
      c.self.frameCount = 2 ∧
      ∀ d ∈ c.self.shaderData, d.time = ExactNumber.finite (2 / 60) := by
  refine ⟨rfl, rfl, rfl, rfl, by decide, ?_⟩
  obtain ⟨c, hrun, -, hfc, -, htime⟩ :=
    AnimometerSample.time_after_frames World.example 1 2 3 rfl rfl rfl rfl 2 (by decide)
  refine ⟨c, hrun, hfc, fun d hd => ?_⟩
  rw [htime d hd]
  simp [JSNumber.div, JSNumber.ofNat, JSNumber.ofRat, ExactNumber.lift]

/-- The sixtieth frame of Animometer.js on the example platform logs the frame rate. -/
theorem AnimometerSample.fps_branch_witness :
    World.example.gpu = true ∧ World.example.adapter = some 1 ∧
    World.example.requestDevice = some 2 ∧ World.example.webgpuContext = some 3 ∧ 1 ≤ 60 ∧
    ∃ c c1 : Ctx ExactNumber (AnimometerSample ExactNumber),
      SampleClass.runFrames AnimometerSample.setupImpl AnimometerSample.frameImpl 59
        ⟨World.example, AnimometerSample.new⟩ = (Except.ok (), c) ∧
      AnimometerSample.frameImpl c = (Except.ok (), c1) ∧
      c1.world.clockCalls = c.world.clockCalls + 1 ∧ c1.self.frameCountForFPS = 0 := by
  refine ⟨rfl, rfl, rfl, rfl, by decide, ?_⟩
  obtain ⟨c, c1, hrun, hframe, h60, -, -, -, hfc, hfps, -⟩ :=
    AnimometerSample.fps_branch World.example 1 2 3 rfl rfl rfl rfl 60 (by decide)
  refine ⟨c, c1, hrun, hframe, (h60 (by decide)).2.1, ?_⟩
  rw [hfps, hfc]

end Witnesses

/-! ## What a frame leaves unchanged -/

section Keeps

variable {Num S α β : Type}

theorem JS.Keeps.bind {R : S → S → Prop} (htrans : ∀ a b c, R a b → R b c → R a c)
    {m : JS (Ctx Num S) α} {f : α → JS (Ctx Num S) β}
    (hm : JS.Keeps R m) (hf : ∀ a, JS.Keeps R (f a)) : JS.Keeps R (m >>= f) := by
  intro c
  show R c.self (JS.bind m f c).2.self
  unfold JS.bind
  have h1 := hm c
  rcases hmc : m c with ⟨r, c1⟩
  rw [hmc] at h1
  cases r with
  | ok a => exact htrans _ _ _ h1 (hf a c1)
  | error e => exact h1

theorem JS.Keeps.of_unchanged {R : S → S → Prop} (hrefl : ∀ a, R a a)
    {m : JS (Ctx Num S) α} (h : ∀ c, (m c).2.self = c.self) : JS.Keeps R m := by
  intro c
  rw [h c]
  exact hrefl _

theorem JS.forFrom_succ_ok {σ : Type} (body : Nat → JS σ Unit) (n i : Nat) (s s1 : σ) (a : Unit)
    (h : body i s = (Except.ok a, s1)) :
    JS.forFrom body (n + 1) i s = JS.forFrom body n (i + 1) s1 := by
  show (match body i s with
    | (Except.ok _, s1) => JS.forFrom body n (i + 1) s1
    | (Except.error e, s1) => (Except.error e, s1)) = _
  rw [h]

theorem JS.forFrom_succ_error {σ : Type} (body : Nat → JS σ Unit) (n i : Nat) (s s1 : σ)
    (e : JSError) (h : body i s = (Except.error e, s1)) :
    JS.forFrom body (n + 1) i s = (Except.error e, s1) := by
  show (match body i s with
    | (Except.ok _, s1) => JS.forFrom body n (i + 1) s1
    | (Except.error e, s1) => (Except.error e, s1)) = _
  rw [h]

theorem JS.Keeps.forFrom {R : S → S → Prop} (hrefl : ∀ a, R a a)
    (htrans : ∀ a b c, R a b → R b c → R a c) (body : Nat → JS (Ctx Num S) Unit)
    (hbody : ∀ i, JS.Keeps R (body i)) : ∀ n i, JS.Keeps R (JS.forFrom body n i) := by
  intro n
  induction n with
  | zero => intro i c; exact hrefl _
  | succ n ih =>
    intro i c
    have h1 := hbody i c
    rcases hb : body i c with ⟨r, c1⟩
    rw [hb] at h1
    cases r with
    | ok a =>
      rw [JS.forFrom_succ_ok body n i c c1 a hb]
      exact htrans _ _ _ h1 (ih (i + 1) c1)
    | error e =>
      rw [JS.forFrom_succ_error body n i c c1 e hb]
      exact h1

theorem JS.Keeps.forRange {R : S → S → Prop} (hrefl : ∀ a, R a a)
    (htrans : ∀ a b c, R a b → R b c → R a c) (body : Nat → JS (Ctx Num S) Unit)
    (hbody : ∀ i, JS.Keeps R (body i)) (n : Nat) : JS.Keeps R (JS.forRange n body) :=
  JS.Keeps.forFrom hrefl htrans body hbody n 0

/-- The operations on the platform change no field of the sample. -/
theorem unchanged_deref (what : String) (o : Option α) (c : Ctx Num S) :
    ((JS.deref what o : JS (Ctx Num S) α) c).2.self = c.self := by
  cases o <;> rfl

theorem unchanged_queueWriteBuffer (device : Option Handle) (buffer : Option GPUBuffer)
    (offset : Nat) (data : Float32Array Num) (c : Ctx Num S) :
    (queueWriteBuffer device buffer offset data c).2.self = c.self := by
  cases device <;> cases buffer <;> rfl

theorem unchanged_queueSubmit (device : Option Handle) (commands : GPUCommandBuffer)
    (c : Ctx Num S) : (queueSubmit device commands c).2.self = c.self := by
  cases device <;> rfl

theorem unchanged_currentTextureView (context : Option Handle) (c : Ctx Num S) :
    (currentTextureView context c).2.self = c.self := by
  cases context <;> rfl

theorem unchanged_createCommandEncoder (device : Option Handle) (c : Ctx Num S) :
    (createCommandEncoder device c).2.self = c.self := by
  cases device <;> rfl

end Keeps

section FrameEffects

variable {Num : Type} [JSNumber Num]

theorem AnimometerSample.SameButTime.refl (t : AnimometerSample Num) :
    AnimometerSample.SameButTime t t :=
  ⟨rfl, rfl, rfl, rfl, rfl⟩

theorem AnimometerSample.SameButTime.trans (a b c : AnimometerSample Num)
    (hab : AnimometerSample.SameButTime a b) (hbc : AnimometerSample.SameButTime b c) :
    AnimometerSample.SameButTime a c :=
  ⟨hbc.1.trans hab.1, hbc.2.1.trans hab.2.1, hbc.2.2.1.trans hab.2.2.1,
    hbc.2.2.2.1.trans hab.2.2.2.1, hbc.2.2.2.2.trans hab.2.2.2.2⟩

theorem AnimometerSample.frameImpl.updateTime_keeps :
    JS.Keeps AnimometerSample.SameButTime
      (AnimometerSample.frameImpl.updateTime : JS (Ctx Num (AnimometerSample Num)) Unit) := by
  unfold AnimometerSample.frameImpl.updateTime
  refine JS.Keeps.bind AnimometerSample.SameButTime.trans ?_ (fun _ => ?_)
  · intro c; exact ⟨rfl, rfl, rfl, rfl, rfl⟩
  refine JS.Keeps.bind AnimometerSample.SameButTime.trans ?_ (fun _ => ?_)
  · intro c; exact ⟨rfl, rfl, rfl, rfl, rfl⟩
  · intro c
    refine ⟨rfl, rfl, rfl, rfl, ?_⟩
    show List.map ShaderData.withoutTime (List.map _ c.self.shaderData) = _
    rw [List.map_map]
    rfl

theorem AnimometerSample.frameImpl.writeShaderData_keeps (i : Nat) :
    JS.Keeps AnimometerSample.SameButTime
      (AnimometerSample.frameImpl.writeShaderData i : JS (Ctx Num (AnimometerSample Num)) Unit) := by
  apply JS.Keeps.of_unchanged AnimometerSample.SameButTime.refl
  intro c
  unfold AnimometerSample.frameImpl.writeShaderData
  simp only [JS.bind_apply, JS.bind, getSelf]
  cases c.self.shaderData[i]? with
  | none => rfl
  | some d => exact unchanged_queueWriteBuffer _ _ _ _ _

omit [JSNumber Num] in
theorem JS.Keeps.eq_bind {S α β : Type} {m : JS (Ctx Num S) α} {f : α → JS (Ctx Num S) β}
    (hm : JS.Keeps (fun t t1 => t1 = t) m) (hf : ∀ a, JS.Keeps (fun t t1 => t1 = t) (f a)) :
    JS.Keeps (fun t t1 => t1 = t) (m >>= f) :=
  JS.Keeps.bind (fun _ _ _ hab hbc => hbc.trans hab) hm hf

omit [JSNumber Num] in
theorem JS.Keeps.eq_forRange {S : Type} (body : Nat → JS (Ctx Num S) Unit)
    (hbody : ∀ i, JS.Keeps (fun t t1 => t1 = t) (body i)) (n : Nat) :
    JS.Keeps (fun t t1 => t1 = t) (JS.forRange n body) :=
  JS.Keeps.forRange (R := fun t t1 => t1 = t) (fun _ => rfl)
    (fun _ _ _ hab hbc => Eq.trans hbc hab) body hbody n

omit [JSNumber Num] in
theorem JS.Keeps.of_eq {S α : Type} {R : S → S → Prop} (hrefl : ∀ a, R a a)
    {m : JS (Ctx Num S) α} (h : JS.Keeps (fun t t1 => t1 = t) m) : JS.Keeps R m :=
  JS.Keeps.of_unchanged hrefl h

omit [JSNumber Num] in
theorem AnimometerSample.frameImpl.drawTriangle_unchanged (i : Nat) :
    JS.Keeps (fun t t1 => t1 = t)
      (AnimometerSample.frameImpl.drawTriangle i : JS (Ctx Num (AnimometerSample Num)) Unit) := by
  intro c
  rfl

omit [JSNumber Num] in
theorem AnimometerSample.frameImpl.renderOf_unchanged (N : Nat) :
    JS.Keeps (fun t t1 => t1 = t)
      (AnimometerSample.frameImpl.renderOf N : JS (Ctx Num (AnimometerSample Num)) Unit) := by
  unfold AnimometerSample.frameImpl.renderOf
  refine JS.Keeps.eq_bind (fun _ => rfl) (fun t => ?_)
  refine JS.Keeps.eq_bind (unchanged_currentTextureView _) (fun view => ?_)
  refine JS.Keeps.eq_bind (fun _ => rfl) (fun t => ?_)
  refine JS.Keeps.eq_bind (unchanged_createCommandEncoder _) (fun _ => ?_)
  refine JS.Keeps.eq_bind (fun _ => rfl) (fun _ => ?_)
  refine JS.Keeps.eq_bind (fun _ => rfl) (fun t => ?_)
  refine JS.Keeps.eq_bind (unchanged_deref _ _) (fun pipeline => ?_)
  refine JS.Keeps.eq_bind (fun _ => rfl) (fun _ => ?_)
  refine JS.Keeps.eq_bind
    (JS.Keeps.eq_forRange _ AnimometerSample.frameImpl.drawTriangle_unchanged N) (fun _ => ?_)
  refine JS.Keeps.eq_bind (fun _ => rfl) (fun _ => ?_)
  refine JS.Keeps.eq_bind (fun _ => rfl) (fun commands => ?_)
  refine JS.Keeps.eq_bind (fun _ => rfl) (fun t => ?_)
  exact unchanged_queueSubmit _ _

theorem AnimometerSample.frameImpl.reportFPS_keeps :
    JS.Keeps AnimometerSample.SameButTime
      (AnimometerSample.frameImpl.reportFPS : JS (Ctx Num (AnimometerSample Num)) Unit) := by
  intro c
  unfold AnimometerSample.frameImpl.reportFPS
  simp only [JS.bind_apply, JS.bind, getSelf]
  split
  · exact ⟨rfl, rfl, rfl, rfl, rfl⟩
  · exact ⟨rfl, rfl, rfl, rfl, rfl⟩

theorem AnimometerSample.frameImplOf_keeps (N : Nat) :
    JS.Keeps AnimometerSample.SameButTime
      (AnimometerSample.frameImplOf N : JS (Ctx Num (AnimometerSample Num)) Unit) := by
  unfold AnimometerSample.frameImplOf
  refine JS.Keeps.bind AnimometerSample.SameButTime.trans
    AnimometerSample.frameImpl.updateTime_keeps (fun _ => ?_)
  refine JS.Keeps.bind AnimometerSample.SameButTime.trans
    (JS.Keeps.forRange AnimometerSample.SameButTime.refl AnimometerSample.SameButTime.trans _
      AnimometerSample.frameImpl.writeShaderData_keeps N) (fun _ => ?_)
  refine JS.Keeps.bind AnimometerSample.SameButTime.trans
    (JS.Keeps.of_eq AnimometerSample.SameButTime.refl
      (AnimometerSample.frameImpl.renderOf_unchanged N)) (fun _ => ?_)
  exact AnimometerSample.frameImpl.reportFPS_keeps

theorem AnimometerSample.SameButTime.elements {t t1 : AnimometerSample Num}
    (h : AnimometerSample.SameButTime t t1) :
    t1.shaderData.length = t.shaderData.length ∧
    ∀ (i : Nat) (d : ShaderData Num), t.shaderData[i]? = some d →
      ∃ d1 : ShaderData Num, t1.shaderData[i]? = some d1 ∧
      d1.scale = d.scale ∧ d1.offsetX = d.offsetX ∧ d1.offsetY = d.offsetY ∧
      d1.scalar = d.scalar ∧ d1.scalarOffset = d.scalarOffset ∧ d1._padding = d._padding := by
  have hlen : t1.shaderData.length = t.shaderData.length := by
    have := congrArg List.length h.2.2.2.2
    simpa using this
  refine ⟨hlen, ?_⟩
  intro i d hd
  have hi : i < t.shaderData.length := by
    by_contra hcon
    rw [List.getElem?_eq_none (by omega)] at hd
    cases hd
  have hi1 : i < t1.shaderData.length := by omega
  refine ⟨t1.shaderData[i], List.getElem?_eq_getElem hi1, ?_⟩
  have hmap := congrArg (fun l => l[i]?) h.2.2.2.2
  simp only [List.getElem?_map, hd, List.getElem?_eq_getElem hi1, Option.map_some'] at hmap
  have hw := Option.some.inj hmap
  unfold ShaderData.withoutTime at hw
  injection hw with h1 h2 h3 h4 h5 h6 h7
  exact ⟨h1, h3, h4, h5, h6, h7⟩

omit [JSNumber Num] in
theorem ComputeBoidsSample.createCommandBuffer_unchanged (view : Handle) (i : Nat) :
    JS.Keeps (fun t t1 => t1 = t)
      (ComputeBoidsSample.createCommandBuffer view i :
        JS (Ctx Num ComputeBoidsSample) GPUCommandBuffer) := by
  unfold ComputeBoidsSample.createCommandBuffer
  repeat' first
    | exact fun _ => rfl
    | exact unchanged_deref _ _
    | exact unchanged_createCommandEncoder _
    | refine JS.Keeps.eq_bind ?_ (fun _ => ?_)

omit [JSNumber Num] in
theorem ComputeBoidsSample.frameImpl_keeps :
    JS.Keeps ComputeBoidsSample.SameButPingpong
      (ComputeBoidsSample.frameImpl : JS (Ctx Num ComputeBoidsSample) Unit) := by
  have hrefl : ∀ a : ComputeBoidsSample, ComputeBoidsSample.SameButPingpong a a := fun _ => rfl
  have htrans : ∀ a b c : ComputeBoidsSample, ComputeBoidsSample.SameButPingpong a b →
      ComputeBoidsSample.SameButPingpong b c → ComputeBoidsSample.SameButPingpong a c := by
    intro a b c hab hbc
    unfold ComputeBoidsSample.SameButPingpong at *
    rw [hbc, hab]
  unfold ComputeBoidsSample.frameImpl
  refine JS.Keeps.bind htrans (JS.Keeps.of_unchanged hrefl (fun _ => rfl)) (fun t => ?_)
  refine JS.Keeps.bind htrans
    (JS.Keeps.of_unchanged hrefl (unchanged_currentTextureView _)) (fun view => ?_)
  refine JS.Keeps.bind htrans (JS.Keeps.of_unchanged hrefl (fun _ => rfl)) (fun t => ?_)
  refine JS.Keeps.bind htrans
    (JS.Keeps.of_eq hrefl (ComputeBoidsSample.createCommandBuffer_unchanged _ _)) (fun cb => ?_)
  refine JS.Keeps.bind htrans (JS.Keeps.of_unchanged hrefl (fun _ => rfl)) (fun t => ?_)
  refine JS.Keeps.bind htrans
    (JS.Keeps.of_unchanged hrefl (unchanged_queueSubmit _ _)) (fun _ => ?_)
  intro c
  rfl

omit [JSNumber Num] in
theorem HelloTriangleSample.frameImpl_unchanged :
    JS.Keeps (fun t t1 => t1 = t)
      (HelloTriangleSample.frameImpl : JS (Ctx Num HelloTriangleSample) Unit) := by
  unfold HelloTriangleSample.frameImpl
  repeat' first
    | exact fun _ => rfl
    | exact unchanged_deref _ _
    | exact unchanged_createCommandEncoder _
    | exact unchanged_currentTextureView _
    | exact unchanged_queueSubmit _ _
    | refine JS.Keeps.eq_bind ?_ (fun _ => ?_)

end FrameEffects

section BoidsClaims

variable {Num : Type} [JSNumber Num]

/-- C16. Whatever the state `AnimometerSample.frameImpl` is called in and whether it ends normally
or throws, `device`, `context`, `canvas`, `preferredFormat`, `pipeline`, `bindGroup` and `ubo`
are after the call what they were before, `shaderData` has the same length, and every element
of `shaderData` has the same `scale`, `offsetX`, `offsetY`, `scalar`, `scalarOffset` and
`_padding`: only `frameCount`, `frameCountForFPS`, `lastTime` and the `time` of the elements
can differ. -/
theorem AnimometerSample.frameImpl_changes_only_time (c : Ctx Num (AnimometerSample Num)) :
    (AnimometerSample.frameImpl c).2.self.device = c.self.device ∧
    (AnimometerSample.frameImpl c).2.self.context = c.self.context ∧
    (AnimometerSample.frameImpl c).2.self.canvas = c.self.canvas ∧
    (AnimometerSample.frameImpl c).2.self.preferredFormat = c.self.preferredFormat ∧
    (AnimometerSample.frameImpl c).2.self.pipeline = c.self.pipeline ∧
    (AnimometerSample.frameImpl c).2.self.bindGroup = c.self.bindGroup ∧
    (AnimometerSample.frameImpl c).2.self.ubo = c.self.ubo ∧
    (AnimometerSample.frameImpl c).2.self.shaderData.length = c.self.shaderData.length ∧
    ∀ (i : Nat) (d : ShaderData Num), c.self.shaderData[i]? = some d →
      ∃ d1 : ShaderData Num, (AnimometerSample.frameImpl c).2.self.shaderData[i]? = some d1 ∧
        d1.scale = d.scale ∧ d1.offsetX = d.offsetX ∧ d1.offsetY = d.offsetY ∧
        d1.scalar = d.scalar ∧ d1.scalarOffset = d.scalarOffset ∧ d1._padding = d._padding :=
  have h := AnimometerSample.frameImplOf_keeps kNumTriangles c
  ⟨congrArg SampleBase.device h.1, congrArg SampleBase.context h.1,
    congrArg SampleBase.canvas h.1, congrArg SampleBase.preferredFormat h.1,
    h.2.1, h.2.2.1, h.2.2.2.1, (AnimometerSample.SameButTime.elements h).1,
    (AnimometerSample.SameButTime.elements h).2⟩

omit [JSNumber Num] in
/-- C17. Whatever the state it is called in and whether it ends normally or throws,
`ComputeBoidsSample.frameImpl` leaves every field of the sample other than `pingpong` as it was
(`device`, `context`, `canvas`, `preferredFormat`, `modelBuffer`, `particleBuffers`,
`updateParams`, `renderPipeline`, `updatePipeline`, `updateBGs`), and
`HelloTriangleSample.frameImpl` leaves all fields of the sample as they were. -/
theorem frameImpl_keeps_resources (c : Ctx Num ComputeBoidsSample)
    (h : Ctx Num HelloTriangleSample) :
    (ComputeBoidsSample.frameImpl c).2.self =
      { c.self with pingpong := (ComputeBoidsSample.frameImpl c).2.self.pingpong } ∧
    (ComputeBoidsSample.frameImpl c).2.self.toSampleBase = c.self.toSampleBase ∧
    (ComputeBoidsSample.frameImpl c).2.self.modelBuffer = c.self.modelBuffer ∧
    (ComputeBoidsSample.frameImpl c).2.self.particleBuffers = c.self.particleBuffers ∧
    (ComputeBoidsSample.frameImpl c).2.self.updateParams = c.self.updateParams ∧
    (ComputeBoidsSample.frameImpl c).2.self.renderPipeline = c.self.renderPipeline ∧
    (ComputeBoidsSample.frameImpl c).2.self.updatePipeline = c.self.updatePipeline ∧
    (ComputeBoidsSample.frameImpl c).2.self.updateBGs = c.self.updateBGs ∧
    (HelloTriangleSample.frameImpl h).2.self = h.self := by
  have hb : ComputeBoidsSample.SameButPingpong c.self (ComputeBoidsSample.frameImpl c).2.self :=
    ComputeBoidsSample.frameImpl_keeps c
  unfold ComputeBoidsSample.SameButPingpong at hb
  refine ⟨hb, ?_, ?_, ?_, ?_, ?_, ?_, ?_, HelloTriangleSample.frameImpl_unchanged h⟩
  · exact (congrArg ComputeBoidsSample.toSampleBase hb).trans rfl
  · exact (congrArg ComputeBoidsSample.modelBuffer hb).trans rfl
  · exact (congrArg ComputeBoidsSample.particleBuffers hb).trans rfl
  · exact (congrArg ComputeBoidsSample.updateParams hb).trans rfl
  · exact (congrArg ComputeBoidsSample.renderPipeline hb).trans rfl
  · exact (congrArg ComputeBoidsSample.updatePipeline hb).trans rfl
  · exact (congrArg ComputeBoidsSample.updateBGs hb).trans rfl

/-- C11. The constant `kNumParticles` of ComputeBoids.js is 1024, and the value the comments of
the file give for it, that of the C++ constant, is 1500: the two differ. -/
theorem kNumParticles_differs_from_documented :
    kNumParticles = 1024 ∧ ComputeBoidsCpp.kNumParticles = 1500 ∧
    kNumParticles ≠ ComputeBoidsCpp.kNumParticles := by
  decide

/-- C12. Element 7 of the array `toFloat32Array` returns for a default-constructed `SimParams` is
`kNumParticles` as a 32-bit float, and the four bytes of that float, read as an unsigned
integer as the field `particleCount : u32` of the shader reads them, are 1149239296, not
`kNumParticles`. -/
theorem SimParams.particleCount_read_as_u32 :
    (SimParams.new : SimParams Num).toFloat32Array.get? 7 =
      some (JSNumber.fround (JSNumber.ofNat kNumParticles)) ∧
    Float32.bitsOfNat kNumParticles = 1149239296 ∧
    Float32.bitsOfNat kNumParticles ≠ kNumParticles := by
  refine ⟨rfl, ?_, ?_⟩
  · decide
  · decide

/-- C13. `SimParams.toFloat32Array` returns an array of 8 elements, 32 bytes, whose element `k` is
the field of the `SimParams` that the struct `SimParams` of the compute shader declares at
place `k`, as a 32-bit float: `deltaT`, `rule1Distance`, `rule2Distance`, `rule3Distance`,
`rule1Scale`, `rule2Scale`, `rule3Scale`, `particleCount`; for a default-constructed
`SimParams` the elements are 0.04, 0.1, 0.025, 0.025, 0.02, 0.05, 0.005 and `kNumParticles` as
32-bit floats. -/
theorem SimParams.uniform_layout (p : SimParams Num) :
    p.toFloat32Array.length = 8 ∧ p.toFloat32Array.byteLength = 32 ∧
    p.toFloat32Array.elems =
      [ JSNumber.fround p.deltaT, JSNumber.fround p.rule1Distance,
        JSNumber.fround p.rule2Distance, JSNumber.fround p.rule3Distance,
        JSNumber.fround p.rule1Scale, JSNumber.fround p.rule2Scale,
        JSNumber.fround p.rule3Scale, JSNumber.fround p.particleCount ] ∧
    SimParamsWGSL.fields.map Prod.fst =
      [ "deltaT", "rule1Distance", "rule2Distance", "rule3Distance", "rule1Scale",
        "rule2Scale", "rule3Scale", "particleCount" ] ∧
    (∀ (k : Nat) (name type : String), SimParamsWGSL.fields[k]? = some (name, type) →
      p.toFloat32Array.get? k = (p.field? name).map JSNumber.fround) ∧
    (SimParams.new : SimParams Num).toFloat32Array.elems =
      [ JSNumber.fround (JSNumber.ofRat (4 / 100)), JSNumber.fround (JSNumber.ofRat (1 / 10)),
        JSNumber.fround (JSNumber.ofRat (25 / 1000)),
        JSNumber.fround (JSNumber.ofRat (25 / 1000)),
        JSNumber.fround (JSNumber.ofRat (2 / 100)), JSNumber.fround (JSNumber.ofRat (5 / 100)),
        JSNumber.fround (JSNumber.ofRat (5 / 1000)),
        JSNumber.fround (JSNumber.ofNat kNumParticles) ] := by
  refine ⟨rfl, rfl, rfl, rfl, ?_, rfl⟩
  intro k name type h
  match k, h with
  | 0, h => cases h; rfl
  | 1, h => cases h; rfl
  | 2, h => cases h; rfl
  | 3, h => cases h; rfl
  | 4, h => cases h; rfl
  | 5, h => cases h; rfl
  | 6, h => cases h; rfl
  | 7, h => cases h; rfl
  | k + 8, h => simp [SimParamsWGSL.fields] at h

end BoidsClaims

section BoidsClaims2

variable {Num : Type} [JSNumber Num]

theorem ComputeBoidsSample.initialParticle_packed (random : Nat → Num) (first : Nat) :
    (ComputeBoidsSample.initialParticle random first).toFloat32Array.elems =
      [ (ComputeBoidsSample.initialParticle random first).pos.read 0,
        (ComputeBoidsSample.initialParticle random first).pos.read 1,
        (ComputeBoidsSample.initialParticle random first).vel.read 0,
        (ComputeBoidsSample.initialParticle random first).vel.read 1 ] := by
  simp [ComputeBoidsSample.initialParticle, Particle.new, Particle.toFloat32Array,
    Float32Array.set, Float32Array.new, Float32Array.ofList, Float32Array.read,
    JSNumber.fround_fround]

/-- The two loops of `initBuffers` that build `initialParticles` and `particleData`, for any
number `n` of particles. -/
theorem ComputeBoidsSample.initBuffers.particleData_of (n : Nat)
    (c : Ctx Num ComputeBoidsSample) :
    ∃ (initialParticles : List (Particle Num)) (particleData : Float32Array Num),
      JS.forRangeFold n [] ComputeBoidsSample.initBuffers.pushParticle c =
        (Except.ok initialParticles,
          { c with world := { c.world with randomCalls := c.world.randomCalls + 4 * n } }) ∧
      (∀ s : Ctx Num ComputeBoidsSample,
        JS.forRangeFold n (Float32Array.new (n * 4))
          (ComputeBoidsSample.initBuffers.packParticle initialParticles) s =
            (Except.ok particleData, s)) ∧
      initialParticles.length = n ∧ particleData.length = 4 * n ∧
      ∀ i, i < n → ∃ p : Particle Num, initialParticles[i]? = some p ∧
        particleData.get? (4 * i) = some (p.pos.read 0) ∧
        particleData.get? (4 * i + 1) = some (p.pos.read 1) ∧
        particleData.get? (4 * i + 2) = some (p.vel.read 0) ∧
        particleData.get? (4 * i + 3) = some (p.vel.read 1) := by
  obtain ⟨data, hfold, hlen, hdata⟩ := ComputeBoidsSample.initBuffers.packAll n
    ((List.range n).map fun i =>
      ComputeBoidsSample.initialParticle c.world.random (c.world.randomCalls + 4 * i))
    (by simp)
  refine ⟨_, data, ComputeBoidsSample.initBuffers.pushAllParticles c n, hfold, by simp,
    by unfold Float32Array.length; omega, ?_⟩
  intro i hi
  have hp : ((List.range n).map fun i =>
      ComputeBoidsSample.initialParticle c.world.random (c.world.randomCalls + 4 * i))[i]? =
      some (ComputeBoidsSample.initialParticle c.world.random (c.world.randomCalls + 4 * i)) := by
    simp [List.getElem?_map, List.getElem?_range hi]
  refine ⟨_, hp, ?_, ?_, ?_, ?_⟩
  · have h := hdata i 0 _ hi hp (by omega)
    rw [ComputeBoidsSample.initialParticle_packed] at h
    exact h
  · have h := hdata i 1 _ hi hp (by omega)
    rw [ComputeBoidsSample.initialParticle_packed] at h
    exact h
  · have h := hdata i 2 _ hi hp (by omega)
    rw [ComputeBoidsSample.initialParticle_packed] at h
    exact h
  · have h := hdata i 3 _ hi hp (by omega)
    rw [ComputeBoidsSample.initialParticle_packed] at h
    exact h

/-- C14. In `initBuffers`, in any state, the first loop ends normally with `kNumParticles`
particles in `initialParticles`, and the second loop ends normally with a `particleData` of
`4 * kNumParticles` floats that holds, for every `i < kNumParticles`, `pos[0]`, `pos[1]`,
`vel[0]`, `vel[1]` of `initialParticles[i]` at the indices `4 * i`, ..., `4 * i + 3`; and on a
sample with a device `initRender` creates a render pipeline whose first vertex buffer has the
layout of these floats: step mode `instance`, stride 16 bytes, `pos` at byte 0 and `vel` at
byte 8, two floats each. -/
theorem ComputeBoidsSample.particleData_layout (c : Ctx Num ComputeBoidsSample) (dev : Handle)
    (hdev : c.self.device = some dev) :
    (∃ (initialParticles : List (Particle Num)) (particleData : Float32Array Num),
      JS.forRangeFold kNumParticles [] ComputeBoidsSample.initBuffers.pushParticle c =
        (Except.ok initialParticles,
          { c with world := { c.world with
              randomCalls := c.world.randomCalls + 4 * kNumParticles } }) ∧
      (∀ s : Ctx Num ComputeBoidsSample,
        JS.forRangeFold kNumParticles (Float32Array.new (kNumParticles * 4))
          (ComputeBoidsSample.initBuffers.packParticle initialParticles) s =
            (Except.ok particleData, s)) ∧
      initialParticles.length = kNumParticles ∧ particleData.length = 4 * kNumParticles ∧
      ∀ i, i < kNumParticles → ∃ p : Particle Num, initialParticles[i]? = some p ∧
        particleData.get? (4 * i) = some (p.pos.read 0) ∧
        particleData.get? (4 * i + 1) = some (p.pos.read 1) ∧
        particleData.get? (4 * i + 2) = some (p.vel.read 0) ∧
        particleData.get? (4 * i + 3) = some (p.vel.read 1)) ∧
    ∃ renderPipeline : GPURenderPipeline,
      (ComputeBoidsSample.initRender c).1 = Except.ok () ∧
      (ComputeBoidsSample.initRender c).2.self.renderPipeline = some renderPipeline ∧
      renderPipeline.buffers[0]? =
        some ⟨16, "instance", [⟨0, 0, "float32x2"⟩, ⟨1, 8, "float32x2"⟩]⟩ := by
  refine ⟨ComputeBoidsSample.initBuffers.particleData_of kNumParticles c, ?_⟩
  rw [ComputeBoidsSample.initRender_ok c dev hdev]
  exact ⟨_, rfl, rfl, rfl⟩

omit [JSNumber Num] in
/-- C15. On a sample that has a device and the two pipelines, `createCommandBuffer` ends normally,
and the command buffer it returns has one `dispatchWorkgroups`, its fourth command, with
`Math.ceil(kNumParticles / 64)` workgroups, which is 16; the C++ original the line is documented
to correspond to dispatches the integer quotient `kNumParticles / 64` of its `kNumParticles`
of 1500, which is 23: the two numbers differ. -/
theorem ComputeBoidsSample.dispatch_count (c : Ctx Num ComputeBoidsSample) (dev : Handle)
    (updatePipeline : GPUComputePipeline) (renderPipeline : GPURenderPipeline)
    (backbufferView i : Nat) (hdev : c.self.device = some dev)
    (hup : c.self.updatePipeline = some updatePipeline)
    (hrp : c.self.renderPipeline = some renderPipeline) :
    ∃ commands : GPUCommandBuffer,
      (ComputeBoidsSample.createCommandBuffer backbufferView i c).1 = Except.ok commands ∧
      commands[3]? = some (Command.dispatchWorkgroups (mathCeilDiv kNumParticles 64)) ∧
      (∀ count, Command.dispatchWorkgroups count ∈ commands →
        count = mathCeilDiv kNumParticles 64) ∧
      commands.count (Command.dispatchWorkgroups (mathCeilDiv kNumParticles 64)) = 1 ∧
      mathCeilDiv kNumParticles 64 = 16 ∧
      ComputeBoidsCpp.workgroupCount ComputeBoidsCpp.kNumParticles = 23 ∧
      mathCeilDiv kNumParticles 64 ≠
        ComputeBoidsCpp.workgroupCount ComputeBoidsCpp.kNumParticles := by
  rw [ComputeBoidsSample.createCommandBuffer_ok c dev updatePipeline renderPipeline
    backbufferView i hdev hup hrp]
  refine ⟨_, rfl, rfl, ?_, ?_, by decide, by decide, by decide⟩
  · intro count hmem
    simpa [ComputeBoidsSample.frameCommands] using hmem
  · simp [ComputeBoidsSample.frameCommands, List.count_cons]

end BoidsClaims2

section AnimometerClaims5

variable {Num : Type} [JSNumber Num]

omit [JSNumber Num] in
theorem AnimometerSample.frameCommands_draws (bindGroup : Option GPUBindGroup) (N : Nat) :
    ((List.range N).flatMap fun i =>
      [Command.setBindGroup 0 bindGroup [i * 256], Command.draw 3 1]).count (Command.draw 3 1)
      = N := by
  induction N with
  | zero => rfl
  | succ N ih =>
    rw [List.range_succ, List.flatMap_append, List.count_append, ih]
    simp [List.count_cons]

omit [JSNumber Num] in
theorem AnimometerSample.frameCommands_passes (bindGroup : Option GPUBindGroup) (N : Nat)
    (command : Command)
    (h : command ∈ (List.range N).flatMap fun i =>
      [Command.setBindGroup 0 bindGroup [i * 256], Command.draw 3 1]) :
    (∃ i, i < N ∧ command = Command.setBindGroup 0 bindGroup [i * 256]) ∨
      command = Command.draw 3 1 := by
  simp only [List.mem_flatMap, List.mem_range, List.mem_cons, List.mem_singleton,
    List.not_mem_nil, or_false] at h
  obtain ⟨i, hi, h | h⟩ := h
  · exact Or.inl ⟨i, hi, h⟩
  · exact Or.inr h

omit [JSNumber Num] in
/-- The list `frameCommands` by index and by count. -/
theorem AnimometerSample.frameCommands_shape (view : Handle) (p : GPURenderPipeline)
    (bindGroup : Option GPUBindGroup) (N : Nat) :
    (AnimometerSample.frameCommands view p bindGroup N).length = 2 * N + 3 ∧
    (∀ i, i < N →
      (AnimometerSample.frameCommands view p bindGroup N)[2 + 2 * i]? =
        some (Command.setBindGroup 0 bindGroup [i * 256]) ∧
      (AnimometerSample.frameCommands view p bindGroup N)[2 + 2 * i + 1]? =
        some (Command.draw 3 1)) ∧
    (AnimometerSample.frameCommands view p bindGroup N)[2 + 2 * N]? = some Command.endPass ∧
    (AnimometerSample.frameCommands view p bindGroup N).count (Command.draw 3 1) = N ∧
    (∀ vertexCount instanceCount,
      Command.draw vertexCount instanceCount ∈ AnimometerSample.frameCommands view p bindGroup N →
        vertexCount = 3 ∧ instanceCount = 1) ∧
    (AnimometerSample.frameCommands view p bindGroup N).count (Command.setRenderPipeline p) = 1 ∧
    (AnimometerSample.frameCommands view p bindGroup N).count Command.endPass = 1 := by
  have hlen : ((List.range N).flatMap fun i =>
      [Command.setBindGroup 0 bindGroup [i * 256], Command.draw 3 1]).length = 2 * N := by
    rw [List.length_flatMap_const
      (fun i => [Command.setBindGroup 0 bindGroup [i * 256], Command.draw 3 1]) 2
      (fun _ => rfl), List.length_range]
  have hget : ∀ i k, i < N → k < 2 → ((List.range N).flatMap fun i =>
      [Command.setBindGroup 0 bindGroup [i * 256], Command.draw 3 1])[2 * i + k]? =
      [Command.setBindGroup 0 bindGroup [i * 256], Command.draw 3 1][k]? := by
    intro i k hi hk
    rw [List.getElem?_flatMap_const
      (fun i => [Command.setBindGroup 0 bindGroup [i * 256], Command.draw 3 1]) 2
      (fun _ => rfl) _ i k hk, List.getElem?_range hi]
    rfl
  have hnone : ∀ command ∈ ((List.range N).flatMap fun i =>
      [Command.setBindGroup 0 bindGroup [i * 256], Command.draw 3 1]),
      ∀ q : Command, (∀ a b c, q ≠ Command.setBindGroup a b c) → q ≠ Command.draw 3 1 →
        command ≠ q := by
    intro command hmem q hq1 hq2 e
    rcases AnimometerSample.frameCommands_passes _ _ _ hmem with ⟨i, -, h⟩ | h
    · exact hq1 _ _ _ (e.symm.trans h)
    · exact hq2 (e.symm.trans h)
  unfold AnimometerSample.frameCommands
  refine ⟨?_, ?_, ?_, ?_, ?_, ?_, ?_⟩
  · simp only [List.length_append, hlen, List.length_cons, List.length_nil]
    omega
  · intro i hi
    constructor
    · rw [List.append_assoc, List.getElem?_append_right (by simp),
        List.getElem?_append_left (by simp only [List.length_cons, List.length_nil]; omega)]
      have e : 2 + 2 * i - [Command.beginRenderPass view ⟨0, 0, 0, 0⟩ "clear"
          "store", Command.setRenderPipeline p].length = 2 * i + 0 := by
        simp
      rw [e, hget i 0 hi (by omega)]
      rfl
    · rw [List.append_assoc, List.getElem?_append_right (by simp; omega),
        List.getElem?_append_left (by simp only [List.length_cons, List.length_nil]; omega)]
      have e : 2 + 2 * i + 1 - [Command.beginRenderPass view ⟨0, 0, 0, 0⟩ "clear"
          "store", Command.setRenderPipeline p].length = 2 * i + 1 := by
        simp only [List.length_cons, List.length_nil]
        omega
      rw [e, hget i 1 hi (by omega)]
      rfl
  · rw [List.getElem?_append_right (by simp [hlen]; omega)]
    have e : 2 + 2 * N - ([Command.beginRenderPass view ⟨0, 0, 0, 0⟩ "clear" "store",
        Command.setRenderPipeline p] ++ (List.range N).flatMap fun i =>
          [Command.setBindGroup 0 bindGroup [i * 256], Command.draw 3 1]).length = 0 := by
      simp only [List.length_append, hlen, List.length_cons, List.length_nil]
      omega
    rw [e]
    rfl
  · rw [List.count_append, List.count_append, AnimometerSample.frameCommands_draws]
    simp [List.count_cons]
  · intro v k hmem
    simp only [List.mem_append, List.mem_cons, List.mem_singleton, List.not_mem_nil, or_false,
      reduceCtorEq, false_or] at hmem
    rcases AnimometerSample.frameCommands_passes _ _ _ hmem with ⟨i, -, h⟩ | h
    · cases h
    · cases h
      exact ⟨rfl, rfl⟩
  · rw [List.count_append, List.count_append,
      List.count_eq_zero_of_not_mem (l := List.flatMap _ _)
        (fun hmem => hnone _ hmem _ (fun _ _ _ e => by cases e) (fun e => by cases e) rfl)]
    simp [List.count_cons]
  · rw [List.count_append, List.count_append,
      List.count_eq_zero_of_not_mem (l := List.flatMap _ _)
        (fun hmem => hnone _ hmem _ (fun _ _ _ e => by cases e) (fun e => by cases e) rfl)]
    simp [List.count_cons]

/-- The commands of a frame, for any number `N` of triangles. -/
theorem AnimometerSample.frame_commands_of (N : Nat) (w : World Num)
    (adapter dev ctx : Handle)
    (hgpu : w.gpu = true) (hadapter : w.adapter = some adapter)
    (hdev : w.requestDevice = some dev) (hctx : w.webgpuContext = some ctx) (n : Nat) :
    ∃ (c c1 : Ctx Num (AnimometerSample Num)) (view : Handle) (pipeline : GPURenderPipeline)
      (commands : GPUCommandBuffer),
      SampleClass.runFrames (AnimometerSample.setupImplOf N) (AnimometerSample.frameImplOf N)
        n ⟨w, AnimometerSample.new⟩ = (Except.ok (), c) ∧
      AnimometerSample.frameImplOf N c = (Except.ok (), c1) ∧
      c.self.pipeline = some pipeline ∧
      c1.world.submitted = c.world.submitted ++ [commands] ∧
      commands =
        [Command.beginRenderPass view ⟨0, 0, 0, 0⟩ "clear" "store",
          Command.setRenderPipeline pipeline]
        ++ ((List.range N).flatMap fun i =>
          [Command.setBindGroup 0 c.self.bindGroup [i * 256], Command.draw 3 1])
        ++ [Command.endPass] ∧
      commands.length = 2 * N + 3 ∧
      (∀ i, i < N →
        commands[2 + 2 * i]? = some (Command.setBindGroup 0 c.self.bindGroup [i * 256]) ∧
        commands[2 + 2 * i + 1]? = some (Command.draw 3 1)) ∧
      commands[2 + 2 * N]? = some Command.endPass ∧
      commands.count (Command.draw 3 1) = N ∧
      (∀ vertexCount instanceCount, Command.draw vertexCount instanceCount ∈ commands →
        vertexCount = 3 ∧ instanceCount = 1) ∧
      commands.count (Command.setRenderPipeline pipeline) = 1 ∧
      commands.count Command.endPass = 1 := by
  obtain ⟨c, u, bg, hrun, hr, -⟩ :=
    AnimometerSample.runFrames_ok N w adapter dev ctx hgpu hadapter hdev hctx n
  obtain ⟨bd, u1, p, -, hp, hframe, -⟩ := AnimometerSample.frameImplOf_ready N c hr
  exact ⟨c, _, c.world.nextId + 1, p,
    AnimometerSample.frameCommands (c.world.nextId + 1) p c.self.bindGroup N,
    hrun, hframe, hp, rfl, rfl,
    AnimometerSample.frameCommands_shape (c.world.nextId + 1) p c.self.bindGroup N⟩

/-- C18. On a platform that has everything, a freshly constructed `AnimometerSample` is run and
`frameImpl` is called after `n` earlier calls.  The call ends normally and submits exactly one
command buffer, which is one render pass: `beginRenderPass`, `setPipeline` once, then for
`i = 0, ..., kNumTriangles - 1` in this order `setBindGroup(0, bindGroup, [i * 256])`
immediately followed by `draw(3)`, then `end`; it has `2 * kNumTriangles + 3` commands, of
which `kNumTriangles` are draws, each of 3 vertices. -/
theorem AnimometerSample.frame_commands (w : World Num) (adapter dev ctx : Handle)
    (hgpu : w.gpu = true) (hadapter : w.adapter = some adapter)
    (hdev : w.requestDevice = some dev) (hctx : w.webgpuContext = some ctx) (n : Nat) :
    ∃ (c c1 : Ctx Num (AnimometerSample Num)) (view : Handle) (pipeline : GPURenderPipeline)
      (commands : GPUCommandBuffer),
      SampleClass.runFrames AnimometerSample.setupImpl AnimometerSample.frameImpl
        n ⟨w, AnimometerSample.new⟩ = (Except.ok (), c) ∧
      AnimometerSample.frameImpl c = (Except.ok (), c1) ∧
      c.self.pipeline = some pipeline ∧
      c1.world.submitted = c.world.submitted ++ [commands] ∧
      commands =
        [Command.beginRenderPass view ⟨0, 0, 0, 0⟩ "clear" "store",
          Command.setRenderPipeline pipeline]
        ++ ((List.range kNumTriangles).flatMap fun i =>
          [Command.setBindGroup 0 c.self.bindGroup [i * 256], Command.draw 3 1])
        ++ [Command.endPass] ∧
      commands.length = 2 * kNumTriangles + 3 ∧
      (∀ i, i < kNumTriangles →
        commands[2 + 2 * i]? = some (Command.setBindGroup 0 c.self.bindGroup [i * 256]) ∧
        commands[2 + 2 * i + 1]? = some (Command.draw 3 1)) ∧
      commands[2 + 2 * kNumTriangles]? = some Command.endPass ∧
      commands.count (Command.draw 3 1) = kNumTriangles ∧
      (∀ vertexCount instanceCount, Command.draw vertexCount instanceCount ∈ commands →
        vertexCount = 3 ∧ instanceCount = 1) ∧
      commands.count (Command.setRenderPipeline pipeline) = 1 ∧
      commands.count Command.endPass = 1 :=
  AnimometerSample.frame_commands_of kNumTriangles w adapter dev ctx hgpu hadapter hdev hctx n

end AnimometerClaims5

section Witnesses2

/-- The packed particles of ComputeBoids.js on the example platform, for a sample with device 2:
the last float of `particleData` is `vel[1]` of the last particle. -/
theorem ComputeBoidsSample.particleData_layout_witness :
    ({ ComputeBoidsSample.new with device := some 2 } : ComputeBoidsSample).device = some 2 ∧
    ∃ (initialParticles : List (Particle ExactNumber)) (particleData : Float32Array ExactNumber)
      (p : Particle ExactNumber),
      (∀ s : Ctx ExactNumber ComputeBoidsSample,
        JS.forRangeFold kNumParticles (Float32Array.new (kNumParticles * 4))
          (ComputeBoidsSample.initBuffers.packParticle initialParticles) s =
            (Except.ok particleData, s)) ∧
      particleData.length = 4 * kNumParticles ∧
      initialParticles[1023]? = some p ∧
      particleData.get? (4 * 1023 + 3) = some (p.vel.read 1) := by
  refine ⟨rfl, ?_⟩
  obtain ⟨⟨ps, pd, -, hpack, -, hlen, h⟩, -⟩ := ComputeBoidsSample.particleData_layout
    (⟨World.example, { ComputeBoidsSample.new with device := some 2 }⟩ :
      Ctx ExactNumber ComputeBoidsSample) 2 rfl
  obtain ⟨p, hp, -, -, -, h3⟩ := h 1023 (by decide)
  exact ⟨ps, pd, p, hpack, hlen, hp, h3⟩

/-- The command buffer of ComputeBoids.js on the example platform, for a sample with device 2
and two pipelines: it dispatches 16 workgroups, not the 23 of the C++ original. -/
theorem ComputeBoidsSample.dispatch_count_witness :
    ∃ commands : GPUCommandBuffer,
      (ComputeBoidsSample.createCommandBuffer 7 0
        (⟨World.example, { ComputeBoidsSample.new with
            device := some 2
            updatePipeline := some ⟨6, ⟨5, []⟩, ⟨4, ShaderSource.boidsCompute⟩, "main"⟩
            renderPipeline := some ⟨10, none, ⟨8, ShaderSource.boidsVertex⟩, "main", [],
              ⟨9, ShaderSource.boidsFragment⟩, "main", none, "triangle-list"⟩ }⟩ :
          Ctx ExactNumber ComputeBoidsSample)).1 = Except.ok commands ∧
      commands[3]? = some (Command.dispatchWorkgroups 16) ∧
      Command.dispatchWorkgroups 23 ∉ commands := by
  obtain ⟨commands, h, h3, honly, -, h16, -, -⟩ := ComputeBoidsSample.dispatch_count
    (⟨World.example, { ComputeBoidsSample.new with
        device := some 2
        updatePipeline := some ⟨6, ⟨5, []⟩, ⟨4, ShaderSource.boidsCompute⟩, "main"⟩
        renderPipeline := some ⟨10, none, ⟨8, ShaderSource.boidsVertex⟩, "main", [],
          ⟨9, ShaderSource.boidsFragment⟩, "main", none, "triangle-list"⟩ }⟩ :
      Ctx ExactNumber ComputeBoidsSample) 2
    ⟨6, ⟨5, []⟩, ⟨4, ShaderSource.boidsCompute⟩, "main"⟩
    ⟨10, none, ⟨8, ShaderSource.boidsVertex⟩, "main", [],
      ⟨9, ShaderSource.boidsFragment⟩, "main", none, "triangle-list"⟩ 7 0 rfl rfl rfl
  refine ⟨commands, h, h16 ▸ h3, fun hmem => ?_⟩
  have h23 := honly 23 hmem
  rw [h16] at h23
  exact absurd h23 (by decide)

/-- The first frame of Animometer.js on the example platform: the last draw is command 20001 of
20003. -/
theorem AnimometerSample.frame_commands_witness :
    World.example.gpu = true ∧ World.example.adapter = some 1 ∧
    World.example.requestDevice = some 2 ∧ World.example.webgpuContext = some 3 ∧
    ∃ (c c1 : Ctx ExactNumber (AnimometerSample ExactNumber)) (commands : GPUCommandBuffer),
      SampleClass.runFrames AnimometerSample.setupImpl AnimometerSample.frameImpl 0
        ⟨World.example, AnimometerSample.new⟩ = (Except.ok (), c) ∧
      AnimometerSample.frameImpl c = (Except.ok (), c1) ∧
      c1.world.submitted = c.world.submitted ++ [commands] ∧
      commands.length = 2 * kNumTriangles + 3 ∧
      commands[2 + 2 * 9999 + 1]? = some (Command.draw 3 1) := by
  refine ⟨rfl, rfl, rfl, rfl, ?_⟩
  obtain ⟨c, c1, view, pipeline, commands, hrun, hframe, -, hsub, -, hlen, h, -⟩ :=
    AnimometerSample.frame_commands World.example 1 2 3 rfl rfl rfl rfl 0
  exact ⟨c, c1, commands, hrun, hframe, hsub, hlen, (h 9999 (by decide)).2⟩

end Witnesses2

end Dawn
